import Mathlib

/-!
# Console Nano (AWS copilot extension): plan engine and session store

A shallow embedding of the service worker (`src/service-worker/service-worker.js`):
the normalisation of oracle output (`ConsoleNanoAI.parseAIResponse`,
`transformToExpectedFormat`), the session store (`TaskMemoryManager`) and the
message handlers that advance a task (`handleMessage`, `handleStepCompletion`).

Modelling conventions.

* JavaScript values that can come out of `JSON.parse` are the type `Json`; a
  property that is absent reads as `undefined`, here `none : Option Json`.
* A JavaScript exception is the `error` side of `Except JsError`.
* Strings are sequences of Unicode scalar values (for text of the Basic
  Multilingual Plane these are the UTF-16 code units JavaScript works on).
* Numbers are exact decimals `mant * 10 ^ exp`; the code below only tests them
  for zero, copies them and prints them.
* The calls to the browser (`chrome.tabs`, the content script, the oracle) are
  inputs of the handlers, collected in an environment record per call.
-/

namespace ConsoleNano

/-! ## JavaScript values -/

/-- The exceptions the modelled code can raise. -/
inductive JsError where
  | typeError
  | syntaxError
  | referenceError (name : String)
  | error (message : String)
  deriving DecidableEq, Repr

deriving instance DecidableEq for Except

/-- A value produced by `JSON.parse`. -/
inductive Json where
  | null
  | bool (b : Bool)
  | num (mant : Int) (exp : Int)
  | str (s : String)
  | arr (items : List Json)
  | obj (fields : List (String × Json))
  deriving Repr

mutual
/-- Equality of parsed values is decidable. -/
def Json.decEq : (a b : Json) → Decidable (a = b)
  | .null, .null => isTrue rfl
  | .bool a, .bool b =>
    if h : a = b then isTrue (by rw [h]) else isFalse (fun h' => h (Json.bool.inj h'))
  | .num m e, .num m' e' =>
    if h : m = m' ∧ e = e' then isTrue (by rw [h.1, h.2])
    else isFalse (fun h' => h (Json.num.inj h'))
  | .str a, .str b =>
    if h : a = b then isTrue (by rw [h]) else isFalse (fun h' => h (Json.str.inj h'))
  | .arr xs, .arr ys =>
    match Json.decEqList xs ys with
    | isTrue h => isTrue (by rw [h])
    | isFalse h => isFalse (fun h' => h (Json.arr.inj h'))
  | .obj xs, .obj ys =>
    match Json.decEqFields xs ys with
    | isTrue h => isTrue (by rw [h])
    | isFalse h => isFalse (fun h' => h (Json.obj.inj h'))
  | .null, .bool _ | .null, .num _ _ | .null, .str _ | .null, .arr _ | .null, .obj _ =>
    isFalse nofun
  | .bool _, .null | .bool _, .num _ _ | .bool _, .str _ | .bool _, .arr _ | .bool _, .obj _ =>
    isFalse nofun
  | .num _ _, .null | .num _ _, .bool _ | .num _ _, .str _ | .num _ _, .arr _
  | .num _ _, .obj _ => isFalse nofun
  | .str _, .null | .str _, .bool _ | .str _, .num _ _ | .str _, .arr _ | .str _, .obj _ =>
    isFalse nofun
  | .arr _, .null | .arr _, .bool _ | .arr _, .num _ _ | .arr _, .str _ | .arr _, .obj _ =>
    isFalse nofun
  | .obj _, .null | .obj _, .bool _ | .obj _, .num _ _ | .obj _, .str _ | .obj _, .arr _ =>
    isFalse nofun
/-- Equality of lists of parsed values is decidable. -/
def Json.decEqList : (xs ys : List Json) → Decidable (xs = ys)
  | [], [] => isTrue rfl
  | [], _ :: _ => isFalse nofun
  | _ :: _, [] => isFalse nofun
  | x :: xs, y :: ys =>
    match Json.decEq x y, Json.decEqList xs ys with
    | isTrue h, isTrue h' => isTrue (by rw [h, h'])
    | isFalse h, _ => isFalse (fun e => h (List.cons.inj e).1)
    | _, isFalse h => isFalse (fun e => h (List.cons.inj e).2)
/-- Equality of field lists is decidable. -/
def Json.decEqFields : (xs ys : List (String × Json)) → Decidable (xs = ys)
  | [], [] => isTrue rfl
  | [], _ :: _ => isFalse nofun
  | _ :: _, [] => isFalse nofun
  | (k, x) :: xs, (k', y) :: ys =>
    if hk : k = k' then
      match Json.decEq x y, Json.decEqFields xs ys with
      | isTrue h, isTrue h' => isTrue (by rw [hk, h, h'])
      | isFalse h, _ => isFalse (fun e => h (Prod.mk.inj (List.cons.inj e).1).2)
      | _, isFalse h => isFalse (fun e => h (List.cons.inj e).2)
    else isFalse (fun e => hk (Prod.mk.inj (List.cons.inj e).1).1)
end

instance : DecidableEq Json := Json.decEq

/-- JavaScript truthiness (`undefined` is handled by `truthy?`). -/
def Json.truthy : Json → Bool
  | .null => false
  | .bool b => b
  | .num m _ => m != 0
  | .str s => s != ""
  | .arr _ => true
  | .obj _ => true

/-- Truthiness of a possibly `undefined` value. -/
def truthy? : Option Json → Bool
  | none => false
  | some j => j.truthy

/-- The JavaScript expression `a || b` where `b` is a value. -/
def orElse (a : Option Json) (b : Json) : Json :=
  match a with
  | some j => if j.truthy then j else b
  | none => b

/-- The JavaScript expression `a || b` where `b` may be `undefined`. -/
def orElse? (a b : Option Json) : Option Json :=
  if truthy? a then a else b

/-- Own property lookup in the field list of an object. -/
def lookupField (k : String) : List (String × Json) → Option Json
  | [] => none
  | (k', v) :: rest => if k' = k then some v else lookupField k rest

/-- Reading `v.k` for a value `v` that is not `null`/`undefined`: objects give
their own property, every other value has none of the property names the code
reads (`steps`, `type`, `id`, ...), so the read gives `undefined`. -/
def Json.prop (v : Json) (k : String) : Option Json :=
  match v with
  | .obj fs => lookupField k fs
  | _ => none

/-- Reading `v.k` in general: it throws a `TypeError` on `null`. -/
def Json.get (v : Json) (k : String) : Except JsError (Option Json) :=
  match v with
  | .null => .error .typeError
  | _ => .ok (v.prop k)

/-- The JavaScript test `Array.isArray(v)`. -/
def Json.isArray : Json → Bool
  | .arr _ => true
  | _ => false

/-! ## Strings -/

/-- Whether `p` is a prefix of `t`. -/
def startsWithL : List Char → List Char → Bool
  | [], _ => true
  | _ :: _, [] => false
  | p :: ps, c :: cs => p == c && startsWithL ps cs

/-- Whether `p` occurs in `t` as a contiguous block. -/
def includesL (t p : List Char) : Bool :=
  match t with
  | [] => p.isEmpty
  | c :: cs => startsWithL p (c :: cs) || includesL cs p

/-- The method `String.prototype.includes`. -/
def includes (t p : String) : Bool := includesL t.toList p.toList

/-- Lower-casing of one character. `String.prototype.toLowerCase` maps exactly
`A`..`Z`, the Kelvin sign (to `k`) and the dotted capital I (to `i` followed by
a combining dot) onto text with ASCII letters; every other character goes to a
character outside ASCII, which is kept as it is here (the code only searches
the lowered text for ASCII keywords). -/
def lowerChar (c : Char) : List Char :=
  if c = Char.ofNat 0x212A then ['k']
  else if c = Char.ofNat 0x130 then ['i', Char.ofNat 0x307]
  else [c.toLower]

/-- The method `String.prototype.toLowerCase`. -/
def toLowerCase (s : String) : String := String.mk (s.toList.flatMap lowerChar)

/-- The property `length` of a string: the number of its UTF-16 code units, two
for a character outside the Basic Multilingual Plane. -/
def jsLength (s : String) : Nat :=
  (s.toList.map fun c => if c.toNat < 0x10000 then 1 else 2).sum

/-- Decimal digits of a natural number, most significant first. -/
def natDigits (n : Nat) : List Char := Nat.toDigits 10 n

/-- Strips the trailing zeros of a nonzero significand, counting them. -/
def stripZeros : Nat → Nat → Nat → Nat × Nat
  | 0, s, t => (s, t)
  | fuel + 1, s, t => if s % 10 = 0 ∧ s ≠ 0 then stripZeros fuel (s / 10) (t + 1) else (s, t)

/-- The text of `Number::toString` for the positive decimal `s * 10 ^ e`. -/
def positiveNumberToString (s0 : Nat) (e : Int) : List Char :=
  let (s, t) := stripZeros s0 s0 0
  let ds := natDigits s
  let k : Int := ds.length
  let n : Int := k + e + t
  if k ≤ n ∧ n ≤ 21 then ds ++ List.replicate (n - k).toNat '0'
  else if 0 < n ∧ n ≤ 21 then ds.take n.toNat ++ '.' :: ds.drop n.toNat
  else if -6 < n ∧ n ≤ 0 then '0' :: '.' :: List.replicate (-n).toNat '0' ++ ds
  else
    let x := n - 1
    let ex := (if x < 0 then '-' else '+') :: natDigits x.natAbs
    match ds with
    | [d] => d :: 'e' :: ex
    | d :: rest => d :: '.' :: rest ++ 'e' :: ex
    | [] => []

/-- The text of `Number::toString`. -/
def numberToString (m e : Int) : List Char :=
  if m = 0 then ['0']
  else if m < 0 then '-' :: positiveNumberToString m.natAbs e
  else positiveNumberToString m.natAbs e

/-- Joins texts with a separator, as `Array.prototype.join` does. -/
def joinWith (sep : List Char) : List (List Char) → List Char
  | [] => []
  | [x] => x
  | x :: y :: rest => x ++ sep ++ joinWith sep (y :: rest)

mutual
/-- The abstract operation `ToString` on a parsed value. A plain object prints
as `[object Object]`, unless it has an own property `toString` (never callable
in parsed JSON), in which case the conversion throws a `TypeError`. -/
def Json.toStr : Json → Except JsError (List Char)
  | .null => .ok "null".toList
  | .bool true => .ok "true".toList
  | .bool false => .ok "false".toList
  | .num m e => .ok (numberToString m e)
  | .str s => .ok s.toList
  | .arr xs => (joinWith [',']) <$> itemsToStr xs
  | .obj fs =>
    if (lookupField "toString" fs).isSome then .error .typeError
    else .ok "[object Object]".toList
/-- The element texts that `Array.prototype.join` puts together: `null` gives
the empty text. -/
def itemsToStr : List Json → Except JsError (List (List Char))
  | [] => .ok []
  | .null :: rest => do
    let tl ← itemsToStr rest
    pure ([] :: tl)
  | x :: rest => do
    let hd ← x.toStr
    let tl ← itemsToStr rest
    pure (hd :: tl)
end

/-- The conversion `ToString` on a possibly `undefined` value, as a template
literal applies it. -/
def toStr? : Option Json → Except JsError (List Char)
  | none => .ok "undefined".toList
  | some j => j.toStr

/-- The comparison `SameValueZero` between two distinct nodes of a parsed
tree: primitives are compared by value, objects and arrays by identity, and
two distinct nodes are never the same object. -/
def sameValueZero : Json → Json → Bool
  | .null, .null => true
  | .bool a, .bool b => a == b
  | .num m e, .num m' e' => m == m' && e == e'
  | .str a, .str b => a == b
  | _, _ => false

/-! ## Plans and their normalisation (`ConsoleNanoAI.transformToExpectedFormat`) -/

/-- The closed set of step types of the data model. -/
def stepTypes : List String :=
  ["verification", "navigation", "form_field", "instruction", "await_user_action"]

/-- A task plan: `{steps, externalActions, nextTasks}`. -/
structure Plan where
  steps : List Json
  externalActions : Json
  nextTasks : List String
  deriving DecidableEq

/-- The plan as the JavaScript object it is. -/
def Plan.toJson (p : Plan) : Json :=
  .obj [("steps", .arr p.steps), ("externalActions", p.externalActions),
        ("nextTasks", .arr (p.nextTasks.map Json.str))]

/-- The local `stepObj` that the mapping callback builds (lines 810-818). -/
structure StepObj where
  id : Json
  type : String
  description : Json
  element : Json
  details : Json
  buttonName : Json
  executionSteps : Json
  deriving DecidableEq

/-- The object literal of `stepObj`, in the order of its keys. -/
def StepObj.toJson (s : StepObj) : Json :=
  .obj [("id", s.id), ("type", .str s.type), ("description", s.description),
        ("element", s.element), ("details", s.details), ("buttonName", s.buttonName),
        ("executionSteps", s.executionSteps)]

/-- The test `v === s` against a string literal. -/
def isStr (v : Option Json) (s : String) : Bool :=
  match v with
  | some (.str t) => t == s
  | _ => false

/-- The loop of lines 772-788: drops entries that are falsy or have a falsy
`type`, and every entry whose `type` is exactly `navigation` after the first
such entry. -/
def filterSteps : List Json → Bool → List Json
  | [], _ => []
  | step :: rest, hasNavigationStep =>
    if !step.truthy || !truthy? (step.prop "type") then filterSteps rest hasNavigationStep
    else if isStr (step.prop "type") "navigation" then
      if hasNavigationStep then filterSteps rest hasNavigationStep
      else step :: filterSteps rest true
    else step :: filterSteps rest hasNavigationStep

/-- The chain of substring tests of lines 793-806 on the lower-cased label. -/
def mapType (aiType : String) : String :=
  if includes aiType "navigation" then "navigation"
  else if includes aiType "input" || includes aiType "form" || includes aiType "config"
      || includes aiType "selection" then "form_field"
  else if includes aiType "action" || includes aiType "click" || includes aiType "create"
      || includes aiType "initiated_action" then "await_user_action"
  else if includes aiType "verify" || includes aiType "verification"
      || includes aiType "success" then "verification"
  else if includes aiType "review" || includes aiType "follow_up" || includes aiType "cleanup"
      || includes aiType "monitoring" then "instruction"
  else "instruction"

/-- Lines 794 and 810-818: `step.type.toLowerCase()` (a `TypeError` unless the
label is a string) and the first version of `stepObj`. -/
def baseStepObj (step : Json) (index : Nat) : Except JsError StepObj := do
  let ty ← step.get "type"
  match ty with
  | some (.str t) =>
    pure { id := orElse (orElse? (step.prop "id") (step.prop "step_number")) (.num (index + 1) 0)
           type := mapType (toLowerCase t)
           description := orElse (step.prop "description") (.str "No description")
           element := .null
           details := orElse (step.prop "details") .null
           buttonName := orElse (step.prop "buttonName") (.str "Action Button")
           executionSteps := orElse (step.prop "executionSteps") (.arr [.str "Complete this step"]) }
  | _ => throw .typeError

/-- The expression `step.formField && step.formField.k`, up to truthiness. -/
def formFieldProp (step : Json) (k : String) : Option Json :=
  match step.prop "formField" with
  | some ff => if ff.truthy then ff.prop k else none
  | none => none

/-- The call `description.includes(label)`: a substring test on a string, a
membership test on an array, a `TypeError` on anything else. -/
def descriptionIncludes (description label : Json) : Except JsError Bool :=
  match description with
  | .str d => do
    let l ← label.toStr
    pure (includesL d.toList l)
  | .arr items => pure (items.any fun x => sameValueZero x label)
  | _ => throw .typeError

/-- Lines 820-828: details and description taken from `step.formField`. -/
def applyFormField (step : Json) (so : StepObj) : Except JsError StepObj := do
  let so1 : StepObj :=
    match formFieldProp step "recommendation" with
    | some r => if !so.details.truthy && r.truthy then { so with details := r } else so
    | none => so
  match formFieldProp step "label" with
  | some label =>
    if label.truthy then do
      let inc ← descriptionIncludes so1.description label
      if inc then pure so1
      else do
        let d ← toStr? (step.prop "description")
        let l ← label.toStr
        pure { so1 with description := .str (String.mk (d ++ " (Field: ".toList ++ l ++ [')'])) }
    else pure so1
  | none => pure so1

/-- Lines 831-841: the first entry of a non-empty `step.actions` array sets the
element, the type and, when it has details, the details. -/
def applyActions (step : Json) (so : StepObj) : Except JsError StepObj :=
  match step.prop "actions" with
  | some (.arr (firstAction :: _)) => do
    let css ← firstAction.get "css_selector"
    let element :=
      orElse (orElse? (orElse? css (firstAction.prop "locator")) (firstAction.prop "element")) .null
    let type := if isStr (firstAction.prop "action_type") "click" then "await_user_action"
      else "instruction"
    let details := orElse (firstAction.prop "details") so.details
    pure { so with element := element, type := type, details := details }
  | _ => pure so

/-- Lines 843-849: `element` becomes an array. -/
def applyElement (step : Json) (so : StepObj) : StepObj :=
  match step.prop "element" with
  | some e =>
    if e.truthy then { so with element := if e.isArray then e else .arr [e] }
    else { so with element := .arr [] }
  | none => { so with element := .arr [] }

/-- Lines 851-854: `executionSteps` becomes an array. -/
def wrapExecutionSteps (so : StepObj) : StepObj :=
  if so.executionSteps.truthy && !so.executionSteps.isArray
  then { so with executionSteps := .arr [so.executionSteps] } else so

/-- The callback of `filteredSteps.map` (lines 791-857). -/
def mapStep (step : Json) (index : Nat) : Except JsError StepObj := do
  let so ← baseStepObj step index
  let so ← applyFormField step so
  let so ← applyActions step so
  pure (wrapExecutionSteps (applyElement step so))

/-- The call `filteredSteps.map(callback)`, the index counted from `index`. -/
def mapSteps : List Json → Nat → Except JsError (List StepObj)
  | [], _ => pure []
  | step :: rest, index => do
    let so ← mapStep step index
    let sos ← mapSteps rest (index + 1)
    pure (so :: sos)

/-- The text of one `nextTasks` entry, when it has one (lines 866-876). -/
def nextTaskText (task : Json) : Option String :=
  match task with
  | .str s => some s
  | .obj _ | .arr _ =>
    match orElse? (orElse? (orElse? (task.prop "description") (task.prop "title"))
        (task.prop "name")) (task.prop "summary") with
    | some (.str s) => if s != "" then some s else none
    | _ => none
  | _ => none

/-- Lines 765-858: the steps of the plan; `stepsProp` is the value of
`parsed.steps`, which is filtered and mapped when it is an array. -/
def normalizeSteps (stepsProp : Option Json) : Except JsError (List StepObj) :=
  match stepsProp with
  | some (.arr raw) => mapSteps (filterSteps raw false) 0
  | _ => pure []

/-- The method `transformToExpectedFormat` (lines 763-884). -/
def transformToExpectedFormat (parsed : Json) : Except JsError Plan := do
  let stepsProp ← parsed.get "steps"
  let steps ← normalizeSteps stepsProp
  let nextTasks := orElse (orElse? (parsed.prop "nextTasks") (parsed.prop "next_tasks")) (.arr [])
  let cleanNextTasks := match nextTasks with
    | .arr tasks => tasks.filterMap nextTaskText
    | _ => []
  pure { steps := steps.map StepObj.toJson
         externalActions := orElse (parsed.prop "externalActions") (.arr [])
         nextTasks := cleanNextTasks }

/-! ## The session store (`TaskMemoryManager`) -/

/-- The task object that `handleNewTask` stores (lines 1258-1267). -/
structure Task where
  userPrompt : String
  plan : Plan
  originalContext : Option Json
  currentContext : Option Json
  completedSteps : Option (List Nat)
  createdResources : Option Json
  taskType : String
  createdAt : String
  deriving DecidableEq

/-- The summary object that `summarizeTask` builds (lines 970-981). -/
structure TaskSummary where
  prompt : String
  completedAt : String
  stepCount : Nat
  service : Json
  action : String
  summary : String
  createdResources : Json
  finalContext : Json
  deriving DecidableEq

/-- An entry of the question log (lines 928-931). -/
structure QuestionEntry where
  question : Option Json
  askedAt : String
  deriving DecidableEq

/-- The keys of `chrome.storage.session` that the service worker uses; a key
that was never set, or was removed, is `none`. Reads and writes of the store do
not fail. -/
structure SessionStore where
  currentTask : Option Task
  currentStep : Option Nat
  completedTasks : Option (List TaskSummary)
  questionHistory : Option (List QuestionEntry)
  deriving DecidableEq

/-- The method `getCurrentTask`: `result.currentTask || null`. -/
def SessionStore.getCurrentTask (s : SessionStore) : Option Task := s.currentTask

/-- The method `setCurrentTask`. -/
def SessionStore.setCurrentTask (s : SessionStore) (task : Task) : SessionStore :=
  { s with currentTask := some task }

/-- The method `getCurrentStep`: `result.currentStep || 0`. -/
def SessionStore.getCurrentStep (s : SessionStore) : Nat := s.currentStep.getD 0

/-- The method `setCurrentStep`. -/
def SessionStore.setCurrentStep (s : SessionStore) (stepIndex : Nat) : SessionStore :=
  { s with currentStep := some stepIndex }

/-- The method `getCompletedTasks`: `result.completedTasks || []`. -/
def SessionStore.getCompletedTasks (s : SessionStore) : List TaskSummary :=
  s.completedTasks.getD []

/-- The method `getQuestionHistory`: `result.questionHistory || []`. -/
def SessionStore.getQuestionHistory (s : SessionStore) : List QuestionEntry :=
  s.questionHistory.getD []

/-- The method `extractServiceFromTask`: `task.currentContext?.service || 'AWS'`. -/
def extractServiceFromTask (task : Task) : Json :=
  match task.currentContext with
  | some ctx => orElse (ctx.prop "service") (.str "AWS")
  | none => .str "AWS"

/-- The method `extractActionFromTask` (lines 989-998). -/
def extractActionFromTask (task : Task) : String :=
  let prompt := toLowerCase task.userPrompt
  if includes prompt "create" then "create"
  else if includes prompt "launch" then "launch"
  else if includes prompt "deploy" then "deploy"
  else if includes prompt "configure" then "configure"
  else if includes prompt "delete" then "delete"
  else if includes prompt "update" then "update"
  else "manage"

/-- The method `summarizeTask` (lines 965-982); `now` is the text of
`new Date().toISOString()`. -/
def summarizeTask (now : String) (task : Task) : TaskSummary :=
  { prompt := task.userPrompt
    completedAt := now
    stepCount := task.plan.steps.length
    service := extractServiceFromTask task
    action := extractActionFromTask task
    summary := if task.userPrompt.length > 50
      then String.mk (task.userPrompt.toList.take 50 ++ "...".toList)
      else task.userPrompt
    createdResources := orElse task.createdResources (.arr [])
    finalContext := orElse task.currentContext (.obj []) }

/-- The two statements `log.push(entry); if (log.length > cap) log.shift();`
shared by the two bounded logs. -/
def pushBounded {α : Type} (cap : Nat) (log : List α) (entry : α) : List α :=
  let pushed := log ++ [entry]
  if pushed.length > cap then pushed.drop 1 else pushed

/-- The method `addCompletedTask` (lines 908-919). -/
def SessionStore.addCompletedTask (s : SessionStore) (now : String) (task : Task) :
    SessionStore :=
  let completed := s.getCompletedTasks
  let summary := summarizeTask now task
  { s with completedTasks := some (pushBounded 10 completed summary) }

/-- The method `addQuestionHistory` (lines 926-939). -/
def SessionStore.addQuestionHistory (s : SessionStore) (now : String)
    (question : Option Json) : SessionStore :=
  let questions := s.getQuestionHistory
  let entry : QuestionEntry := { question := question, askedAt := now }
  { s with questionHistory := some (pushBounded 20 questions entry) }

/-! ## Step completion (`handleStepCompletion`) -/

/-- The `error` field of a failure response: a literal text, or the `message`
of the exception that the handler caught. -/
inductive ErrorText where
  | text (s : String)
  | ofError (e : JsError)
  deriving DecidableEq, Repr

/-- The three shapes of the object that `handleStepCompletion` resolves to:
`{success: false, error}`, `{success: true, taskComplete: true, nextTasks,
completedTask}` and `{success: true, taskComplete: false, newStep, planAdapted,
plan, contextUpdated}`. -/
inductive StepResponse where
  | failure (error : ErrorText)
  | complete (nextTasks : Json) (completedTask : String)
  | advanced (newStep : Nat) (planAdapted : Bool) (plan : Option Plan)
      (contextUpdated : Option Json)
  deriving DecidableEq

/-- The field `success` of the response. -/
def StepResponse.success : StepResponse → Bool
  | .failure _ => false
  | _ => true

/-- The field `taskComplete` of the response (`undefined` on a failure). -/
def StepResponse.taskComplete : StepResponse → Option Bool
  | .failure _ => none
  | .complete _ _ => some true
  | .advanced _ _ _ _ => some false

/-- What the browser and the oracle answer during one call of
`handleStepCompletion`. -/
structure StepEnv where
  /-- `chrome.tabs.query({active: true, currentWindow: true})`: the tab ids. -/
  tabs : Except JsError (List Nat)
  /-- The first `chrome.tabs.sendMessage(.., GET_PAGE_CONTEXT)`. -/
  firstContext : Except JsError (Option Json)
  /-- The second one, sent when the first answer has a falsy `success`. -/
  retryContext : Except JsError (Option Json)
  /-- The call `generateContextualNextTasks(..)` (it asks the oracle). -/
  contextualNextTasks : Except JsError Json
  /-- The text of `new Date().toISOString()`. -/
  now : String

/-- Reading `contextResponse.success` and testing it: a `TypeError` when the
response is `undefined` or `null`. -/
def readSuccess (contextResponse : Option Json) : Except JsError Bool :=
  match contextResponse with
  | none => .error .typeError
  | some r => do
    let v ← r.get "success"
    pure (truthy? v)

/-- The literal `{ success: false }` of line 1424. -/
def noContext : Json := .obj [("success", .bool false)]

/-- Lines 1407-1425: the value of `contextResponse` after the inner `try`. -/
def fetchContext (env : StepEnv) : Option Json :=
  match env.firstContext with
  | .error _ => some noContext
  | .ok r1 =>
    match readSuccess r1 with
    | .error _ => some noContext
    | .ok true => r1
    | .ok false =>
      match env.retryContext with
      | .error _ => some noContext
      | .ok r2 => r2

/-- Reading `contextResponse.context` once `contextResponse.success` was read. -/
def contextOf (contextResponse : Option Json) : Option Json :=
  match contextResponse with
  | some r => r.prop "context"
  | none => none

/-- The function `handleStepCompletion` (lines 1390-1495): the response and the
session store it leaves. -/
def handleStepCompletion (env : StepEnv) (store : SessionStore) :
    StepResponse × SessionStore :=
  let currentStep := store.getCurrentStep
  match store.getCurrentTask with
  | none => (.failure (.text "No active task"), store)
  | some storedTask =>
    match env.tabs with
    | .error e => (.failure (.ofError e), store)
    | .ok [] => (.failure (.text "No active tab found"), store)
    | .ok (_ :: _) =>
      let contextResponse := fetchContext env
      let completedSteps := storedTask.completedSteps.getD [] ++ [currentStep]
      let currentTask : Task := { storedTask with completedSteps := some completedSteps }
      let newStep := currentStep + 1
      if newStep ≥ currentTask.plan.steps.length then
        match readSuccess contextResponse with
        | .error e => (.failure (.ofError e), store)
        | .ok fresh =>
          let planNextTasks : Json := .arr (currentTask.plan.nextTasks.map Json.str)
          let contextualNextTasks :=
            if fresh then
              match env.contextualNextTasks with
              | .ok tasks => tasks
              | .error _ => planNextTasks
            else planNextTasks
          let store := store.addCompletedTask env.now currentTask
          let store := store.setCurrentStep 0
          (.complete contextualNextTasks currentTask.userPrompt, store)
      else
        match readSuccess contextResponse with
        | .error e => (.failure (.ofError e), store)
        | .ok fresh =>
          let planAdapted := false
          let currentTask : Task :=
            if fresh then { currentTask with currentContext := contextOf contextResponse }
            else currentTask
          let store := store.setCurrentTask currentTask
          let store := store.setCurrentStep newStep
          (.advanced newStep planAdapted (if planAdapted then some currentTask.plan else none)
            (contextResponse.bind fun r => r.prop "success"), store)

/-- The function `extractTaskType` (lines 1095-1105). -/
def extractTaskType (userPrompt : String) : String :=
  let prompt := toLowerCase userPrompt
  if includes prompt "create" || includes prompt "new" then "create"
  else if includes prompt "launch" || includes prompt "start" then "launch"
  else if includes prompt "deploy" || includes prompt "upload" then "deploy"
  else if includes prompt "configure" || includes prompt "setup" || includes prompt "set up"
    then "configure"
  else if includes prompt "delete" || includes prompt "remove" then "delete"
  else if includes prompt "update" || includes prompt "modify" then "update"
  else if includes prompt "monitor" || includes prompt "watch" then "monitor"
  else "manage"

/-- Lines 1257-1270 of `handleNewTask`: the task built from the request, the
generated plan and the page context is stored and the step index set to 0;
`now` is the text of `new Date().toISOString()`. -/
def storeNewTask (userPrompt : String) (plan : Plan) (context : Option Json)
    (now : String) (store : SessionStore) : SessionStore :=
  let task : Task :=
    { userPrompt := userPrompt
      plan := plan
      originalContext := context
      currentContext := context
      completedSteps := some []
      createdResources := some (.arr [])
      taskType := extractTaskType userPrompt
      createdAt := now }
  (store.setCurrentTask task).setCurrentStep 0

/-- A sequence of `COMPLETE_STEP` calls, one environment per call. -/
def completeSteps : List StepEnv → SessionStore → SessionStore
  | [], store => store
  | env :: envs, store => completeSteps envs (handleStepCompletion env store).2

/-! ## Regular expressions

The part of the `RegExp` language that the service worker uses, with the
backtracking semantics of the language: alternatives and iterations are tried
in priority order, and the first way to match the whole pattern wins. No
pattern of the source has a capturing group under a quantifier. -/

/-- Whether a character is in the class `\s` (white space and line ends). -/
def isJsSpace (c : Char) : Bool :=
  let n := c.toNat
  n = 0x09 || n = 0x0A || n = 0x0B || n = 0x0C || n = 0x0D || n = 0x20 || n = 0xA0
    || n = 0x1680 || (0x2000 ≤ n && n ≤ 0x200A) || n = 0x2028 || n = 0x2029 || n = 0x202F
    || n = 0x205F || n = 0x3000 || n = 0xFEFF

/-- An item between the brackets of a character class. -/
inductive ClassItem where
  | ch (c : Char)
  | space
  | nonSpace
  | digit
  | word
  deriving DecidableEq, Repr

/-- Whether a character is in the class `\w`: a letter of `A`..`Z` or `a`..`z`,
a digit or the underscore. -/
def isWordChar (c : Char) : Bool :=
  ('a' ≤ c && c ≤ 'z') || ('A' ≤ c && c ≤ 'Z') || ('0' ≤ c && c ≤ '9') || c == '_'

/-- Whether a character belongs to an item of a class. -/
def ClassItem.has (i : ClassItem) (c : Char) : Bool :=
  match i with
  | .ch d => c == d
  | .space => isJsSpace c
  | .nonSpace => !isJsSpace c
  | .digit => '0' ≤ c && c ≤ '9'
  | .word => isWordChar c

/-- A regular expression. `group i r` is the `i`-th capturing group, `look r`
the lookahead `(?=r)`, `bol` and `eol` the anchors `^` and `$` (without the
`m` flag), `wordBoundary` the assertion `\b`. -/
inductive Re where
  | lit (s : String)
  | cls (items : List ClassItem)
  | ncls (items : List ClassItem)
  | seq (a b : Re)
  | alt (a b : Re)
  | star (a : Re)
  | lazyStar (a : Re)
  | group (i : Nat) (a : Re)
  | look (a : Re)
  | bol
  | eol
  | wordBoundary
  deriving Repr

/-- The empty pattern. -/
def Re.eps : Re := .lit ""

/-- The optional pattern `r?`. -/
def Re.opt (r : Re) : Re := .alt r .eps

/-- The pattern `r+`. -/
def Re.plus (r : Re) : Re := .seq r (.star r)

/-- The patterns of a list one after the other. -/
def Re.cat : List Re → Re
  | [] => .eps
  | [r] => r
  | r :: rs => .seq r (Re.cat rs)

/-- The class `[\s\S]` (also written `[^]`): any character. -/
def Re.any : Re := .cls [.space, .nonSpace]

/-- The class `\s`. -/
def Re.ws : Re := .cls [.space]

/-- The class `[^c]`. -/
def Re.notCh (c : Char) : Re := .ncls [.ch c]

/-- A state of the matcher: the index of the next character, the text from
there on, the captures made so far (the latest first), and the character
before the next one (`none` at the start of the text). -/
structure MState where
  pos : Nat
  rest : List Char
  caps : List (Nat × List Char)
  prev : Option Char

/-- Whether the place between `prev` and the head of `rest` is a word boundary:
exactly one of the two sides is a word character. -/
def atWordBoundary (prev : Option Char) (rest : List Char) : Bool :=
  (match prev with
    | some c => isWordChar c
    | none => false) != (match rest with
    | c :: _ => isWordChar c
    | [] => false)

/-- The text of capture `i`, empty when the group did not take part. -/
def capture (caps : List (Nat × List Char)) (i : Nat) : List Char :=
  match caps with
  | [] => []
  | (j, t) :: more => if j = i then t else capture more i

/-- Removes the prefix `p` from `t`, when `t` starts with it. -/
def dropPrefix : List Char → List Char → Option (List Char)
  | [], t => some t
  | _ :: _, [] => none
  | p :: ps, c :: cs => if p = c then dropPrefix ps cs else none

/-- The iterations of `r*` (greedy) and `r*?` (lazy). An iteration that matches
the empty text is given up; `fuel` is one more than the length of the text
left, which no run of non-empty iterations exceeds. -/
def starLoop (step : MState → (MState → Option MState) → Option MState) (greedy : Bool) :
    Nat → MState → (MState → Option MState) → Option MState
  | 0, st, k => k st
  | fuel + 1, st, k =>
    if greedy then
      match step st (fun st' => if st'.pos = st.pos then none else starLoop step greedy fuel st' k) with
      | some r => some r
      | none => k st
    else
      match k st with
      | some r => some r
      | none =>
        step st (fun st' => if st'.pos = st.pos then none else starLoop step greedy fuel st' k)

/-- The matcher: `r.run st k` matches `r` at state `st` and hands every end
state, in priority order, to the continuation `k` until it accepts one. -/
def Re.run : Re → MState → (MState → Option MState) → Option MState
  | .lit s => fun st k =>
    match dropPrefix s.toList st.rest with
    | some rest =>
      k { st with pos := st.pos + s.length, rest := rest,
                  prev := if s.toList.isEmpty then st.prev else s.toList.getLast? }
    | none => none
  | .cls items => fun st k =>
    match st.rest with
    | c :: cs =>
      if items.any (fun i => i.has c) then k { st with pos := st.pos + 1, rest := cs, prev := some c }
      else none
    | [] => none
  | .ncls items => fun st k =>
    match st.rest with
    | c :: cs =>
      if items.any (fun i => i.has c) then none
      else k { st with pos := st.pos + 1, rest := cs, prev := some c }
    | [] => none
  | .seq a b => fun st k => a.run st (fun st' => b.run st' k)
  | .alt a b => fun st k =>
    match a.run st k with
    | some r => some r
    | none => b.run st k
  | .star a => fun st k => starLoop a.run true (st.rest.length + 1) st k
  | .lazyStar a => fun st k => starLoop a.run false (st.rest.length + 1) st k
  | .group i a => fun st k =>
    a.run st (fun st' => k { st' with caps := (i, st.rest.take (st'.pos - st.pos)) :: st'.caps })
  | .look a => fun st k =>
    match a.run st some with
    | some st' => k { st with caps := st'.caps }
    | none => none
  | .bol => fun st k => if st.pos = 0 then k st else none
  | .eol => fun st k => if st.rest.isEmpty then k st else none
  | .wordBoundary => fun st k => if atWordBoundary st.prev st.rest then k st else none

/-- A match: where it starts, the matched text, and the state after it. -/
structure Match where
  start : Nat
  text : List Char
  after : MState

/-- The match of `r` that starts exactly at the given place, if any; `prev` is
the character before that place. -/
def Re.matchAt (r : Re) (prev : Option Char) (pos : Nat) (rest : List Char) : Option Match :=
  match r.run { pos := pos, rest := rest, caps := [], prev := prev } some with
  | some st => some { start := pos, text := rest.take (st.pos - pos), after := st }
  | none => none

/-- The leftmost match of `r` at or after the given place. -/
def Re.search (r : Re) : Option Char → Nat → List Char → Option Match
  | prev, pos, [] => r.matchAt prev pos []
  | prev, pos, c :: cs =>
    match r.matchAt prev pos (c :: cs) with
    | some m => some m
    | none => r.search (some c) (pos + 1) cs

/-- The method `String.prototype.match` with a pattern without the `g` flag. -/
def Re.exec (r : Re) (text : List Char) : Option Match := r.search none 0 text

/-- A piece of a replacement text: literal text, or `$i`. -/
inductive Tpl where
  | text (s : String)
  | group (i : Nat)
  deriving DecidableEq, Repr

/-- The replacement text for a match. -/
def expand (tpl : List Tpl) (caps : List (Nat × List Char)) : List Char :=
  tpl.flatMap fun part =>
    match part with
    | .text s => s.toList
    | .group i => capture caps i

/-- The loop of a replacement with the `g` flag: after a match the search goes
on behind it (one character further after an empty match). -/
def replaceLoop (r : Re) (tpl : List Tpl) : Nat → Option Char → Nat → List Char → List Char
  | 0, _, _, rest => rest
  | fuel + 1, prev, pos, rest =>
    match r.matchAt prev pos rest with
    | some m =>
      if m.after.pos = pos then
        match rest with
        | [] => expand tpl m.after.caps
        | c :: cs => expand tpl m.after.caps ++ c :: replaceLoop r tpl fuel (some c) (pos + 1) cs
      else expand tpl m.after.caps ++ replaceLoop r tpl fuel m.after.prev m.after.pos m.after.rest
    | none =>
      match rest with
      | [] => []
      | c :: cs => c :: replaceLoop r tpl fuel (some c) (pos + 1) cs

/-- The method `String.prototype.replace` with a pattern with the `g` flag. -/
def replaceAll (r : Re) (tpl : List Tpl) (text : List Char) : List Char :=
  replaceLoop r tpl (text.length + 1) none 0 text

/-- The loop of `String.prototype.match` with a pattern with the `g` flag: the
texts of the successive matches. -/
def matchLoop (r : Re) : Nat → Option Char → Nat → List Char → List (List Char)
  | 0, _, _, _ => []
  | fuel + 1, prev, pos, rest =>
    match r.matchAt prev pos rest with
    | some m =>
      if m.after.pos = pos then
        match rest with
        | [] => [m.text]
        | c :: cs => m.text :: matchLoop r fuel (some c) (pos + 1) cs
      else m.text :: matchLoop r fuel m.after.prev m.after.pos m.after.rest
    | none =>
      match rest with
      | [] => []
      | c :: cs => matchLoop r fuel (some c) (pos + 1) cs

/-- The method `String.prototype.match` with a pattern with the `g` flag: the
texts of all matches (the method gives `null` when there is none). -/
def matchAll (r : Re) (text : List Char) : List (List Char) :=
  matchLoop r (text.length + 1) none 0 text

/-- The method `String.prototype.replace` with a pattern without the `g` flag:
only the leftmost match is replaced. -/
def replaceFirst (r : Re) (tpl : List Tpl) (text : List Char) : List Char :=
  match r.exec text with
  | some m => text.take m.start ++ expand tpl m.after.caps ++ m.after.rest
  | none => text

/-- The method `String.prototype.trim`. -/
def jsTrim (text : List Char) : List Char :=
  ((text.dropWhile isJsSpace).reverse.dropWhile isJsSpace).reverse

/-! ## `JSON.parse` -/

/-- The double quote. -/
def dquote : Char := Char.ofNat 34

/-- The apostrophe. -/
def squote : Char := Char.ofNat 39

/-- The backslash. -/
def backslash : Char := Char.ofNat 92

/-- The opening brace. -/
def lbrace : Char := Char.ofNat 123

/-- The closing brace. -/
def rbrace : Char := Char.ofNat 125

/-- The white space of the JSON grammar. -/
def isJsonSpace (c : Char) : Bool :=
  c.toNat = 0x20 || c.toNat = 0x09 || c.toNat = 0x0A || c.toNat = 0x0D

/-- Skips JSON white space. -/
def skipWs (cs : List Char) : List Char := cs.dropWhile isJsonSpace

/-- The value of a text of decimal digits. -/
def digitsToNat (ds : List Char) : Nat :=
  ds.foldl (fun n d => 10 * n + (d.toNat - 48)) 0

/-- The decimal `mant * 10 ^ exp` with the trailing zeros of `mant` moved
into the exponent (zero is `0 * 10 ^ 0`). -/
def normalNumber (mant exp : Int) : Json :=
  if mant = 0 then .num 0 0
  else
    let (s, t) := stripZeros mant.natAbs mant.natAbs 0
    .num (if mant < 0 then -(s : Int) else s) (exp + t)

/-- The exponent part of a number, `[eE][+-]?[0-9]+`, when there is one. -/
def parseExponent (cs : List Char) : Option (Int × List Char) :=
  match cs with
  | c :: rest =>
    if c = 'e' || c = 'E' then
      let (neg, rest) :=
        match rest with
        | '-' :: r => (true, r)
        | '+' :: r => (false, r)
        | r => (false, r)
      let ds := rest.takeWhile Char.isDigit
      if ds.isEmpty then none
      else some (if neg then -(digitsToNat ds : Int) else digitsToNat ds, rest.dropWhile Char.isDigit)
    else some (0, cs)
  | [] => some (0, cs)

/-- A number of the JSON grammar at the head of the text:
`-?(0|[1-9][0-9]*)(\.[0-9]+)?([eE][+-]?[0-9]+)?`. -/
def parseNumber (cs : List Char) : Option (Json × List Char) :=
  let (neg, cs) :=
    match cs with
    | '-' :: r => (true, r)
    | r => (false, r)
  let intPart : Option (List Char × List Char) :=
    match cs with
    | '0' :: r => some (['0'], r)
    | _ =>
      let ds := cs.takeWhile Char.isDigit
      if ds.isEmpty then none else some (ds, cs.dropWhile Char.isDigit)
  match intPart with
  | none => none
  | some (ints, cs) =>
    let fracPart : Option (List Char × List Char) :=
      match cs with
      | '.' :: r =>
        let ds := r.takeWhile Char.isDigit
        if ds.isEmpty then none else some (ds, r.dropWhile Char.isDigit)
      | _ => some ([], cs)
    match fracPart with
    | none => none
    | some (fracs, cs) =>
      match parseExponent cs with
      | none => none
      | some (e, cs) =>
        let mant : Int := digitsToNat (ints ++ fracs)
        some (normalNumber (if neg then -mant else mant) (e - fracs.length), cs)

/-- The value of a hexadecimal digit. -/
def hexValue (c : Char) : Option Nat :=
  if '0' ≤ c && c ≤ '9' then some (c.toNat - 48)
  else if 'a' ≤ c && c ≤ 'f' then some (c.toNat - 87)
  else if 'A' ≤ c && c ≤ 'F' then some (c.toNat - 55)
  else none

/-- The UTF-16 code units of a character. -/
def utf16Units (c : Char) : List Nat :=
  if c.toNat < 0x10000 then [c.toNat]
  else [0xD800 + (c.toNat - 0x10000) / 0x400, 0xDC00 + (c.toNat - 0x10000) % 0x400]

/-- The characters of a sequence of UTF-16 code units; a surrogate without its
partner, which a string of scalar values cannot hold, becomes U+FFFD. -/
def decodeUtf16 : List Nat → List Char
  | [] => []
  | [u] => [if 0xD800 ≤ u ∧ u < 0xE000 then Char.ofNat 0xFFFD else Char.ofNat u]
  | u :: v :: rest =>
    if 0xD800 ≤ u ∧ u < 0xDC00 ∧ 0xDC00 ≤ v ∧ v < 0xE000 then
      Char.ofNat (0x10000 + (u - 0xD800) * 0x400 + (v - 0xDC00)) :: decodeUtf16 rest
    else if 0xD800 ≤ u ∧ u < 0xE000 then Char.ofNat 0xFFFD :: decodeUtf16 (v :: rest)
    else Char.ofNat u :: decodeUtf16 (v :: rest)

/-- The code unit that a one-letter escape stands for. -/
def escapeUnit (c : Char) : Option Nat :=
  if c = dquote then some 34
  else if c = backslash then some 92
  else if c = '/' then some 47
  else if c = 'b' then some 8
  else if c = 'f' then some 12
  else if c = 'n' then some 10
  else if c = 'r' then some 13
  else if c = 't' then some 9
  else none

/-- The rest of a string of the JSON grammar behind its opening quote: the
code units of the string (collected in reverse) and the text behind the
closing quote. -/
def parseStringBody : List Char → List Nat → Option (String × List Char)
  | [], _ => none
  | c :: rest, acc =>
    if c = dquote then some (String.mk (decodeUtf16 acc.reverse), rest)
    else if c = backslash then
      match rest with
      | 'u' :: h1 :: h2 :: h3 :: h4 :: rest' =>
        match hexValue h1, hexValue h2, hexValue h3, hexValue h4 with
        | some a, some b, some c, some d =>
          parseStringBody rest' ((a * 4096 + b * 256 + c * 16 + d) :: acc)
        | _, _, _, _ => none
      | e :: rest' =>
        match escapeUnit e with
        | some u => parseStringBody rest' (u :: acc)
        | none => none
      | [] => none
    else if c.toNat < 0x20 then none
    else parseStringBody rest ((utf16Units c).reverse ++ acc)

/-- Sets a property of an object under construction: a key that is there
already keeps its place and takes the new value. -/
def setField (k : String) (v : Json) : List (String × Json) → List (String × Json)
  | [] => [(k, v)]
  | (k', v') :: rest => if k' = k then (k, v) :: rest else (k', v') :: setField k v rest

mutual
/-- A value of the JSON grammar at the head of the text (white space already
skipped), with the text behind it. The fuel bounds the nesting and the number
of members read; `jsonParse` provides twice the length of the text. -/
def parseValue : Nat → List Char → Option (Json × List Char)
  | 0, _ => none
  | _ + 1, [] => none
  | fuel + 1, c :: rest =>
    if c = lbrace then
      match skipWs rest with
      | d :: rest' => if d = rbrace then some (.obj [], rest') else parseMembers fuel (d :: rest') []
      | [] => none
    else if c = '[' then
      match skipWs rest with
      | ']' :: rest' => some (.arr [], rest')
      | rest' => parseElements fuel rest' []
    else if c = dquote then
      match parseStringBody rest [] with
      | some (s, rest') => some (.str s, rest')
      | none => none
    else
      match c :: rest with
      | 't' :: 'r' :: 'u' :: 'e' :: rest' => some (.bool true, rest')
      | 'f' :: 'a' :: 'l' :: 's' :: 'e' :: rest' => some (.bool false, rest')
      | 'n' :: 'u' :: 'l' :: 'l' :: rest' => some (.null, rest')
      | cs => parseNumber cs
/-- The elements of an array from the head of an element on; `acc` holds the
elements read so far, in reverse. -/
def parseElements : Nat → List Char → List Json → Option (Json × List Char)
  | 0, _, _ => none
  | fuel + 1, cs, acc =>
    match parseValue fuel cs with
    | none => none
    | some (v, rest) =>
      match skipWs rest with
      | ',' :: rest' => parseElements fuel (skipWs rest') (v :: acc)
      | ']' :: rest' => some (.arr (v :: acc).reverse, rest')
      | _ => none
/-- The members of an object from the opening quote of a key on; `acc` holds
the members read so far. -/
def parseMembers : Nat → List Char → List (String × Json) → Option (Json × List Char)
  | 0, _, _ => none
  | _ + 1, [], _ => none
  | fuel + 1, c :: cs, acc =>
    if c = dquote then
      match parseStringBody cs [] with
      | none => none
      | some (k, rest) =>
        match skipWs rest with
        | ':' :: rest' =>
          match parseValue fuel (skipWs rest') with
          | none => none
          | some (v, rest'') =>
            match skipWs rest'' with
            | d :: rest3 =>
              if d = ',' then parseMembers fuel (skipWs rest3) (setField k v acc)
              else if d = rbrace then some (.obj (setField k v acc), rest3)
              else none
            | [] => none
        | _ => none
    else none
end

/-- The function `JSON.parse`: the value of the text, or a `SyntaxError`. -/
def jsonParse (text : List Char) : Except JsError Json :=
  match parseValue (2 * text.length + 2) (skipWs text) with
  | some (v, rest) => if (skipWs rest).isEmpty then .ok v else .error .syntaxError
  | none => .error .syntaxError

/-! ## Parsing the oracle's answer (`ConsoleNanoAI.parseAIResponse`) -/

/-- The class `[^\]]`. -/
def notRBracket : Re := Re.notCh ']'

/-- The class `[^"]`. -/
def notDquote : Re := Re.notCh dquote

/-- The class `[^']`. -/
def notSquote : Re := Re.notCh squote

/-- The class `[^}]`. -/
def notRBrace : Re := Re.notCh rbrace

/-- The pattern of a fenced code block (lines 614 and 732):
`/```(?:json)?\s*([\s\S]*?)```/`. -/
def fencePattern : Re :=
  Re.cat [.lit "```", Re.opt (.lit "json"), .star Re.ws, .group 1 (.lazyStar Re.any), .lit "```"]

/-- The pattern of the outermost braces (line 618): `/\{[\s\S]*\}/`. -/
def objectPattern : Re := Re.cat [.lit "\x7b", .star Re.any, .lit "\x7d"]

/-- The pattern of irregular white space (line 627): `/[^\S \n\r\t]/g`. -/
def oddSpacePattern : Re := .ncls [.nonSpace, .ch ' ', .ch '\n', .ch '\r', .ch '\t']

/-- The pattern of a step whose type is the name of a top-level field (lines
718 and 748):
`/,?\s*\{\s*"id":\s*\d+,\s*"type":\s*"(externalActions|nextTasks)"[^}]*\}/g`. -/
def invalidStepPattern : Re :=
  Re.cat [Re.opt (.lit ","), .star Re.ws, .lit "\x7b", .star Re.ws, .lit "\"id\":", .star Re.ws,
    Re.plus (.cls [.digit]), .lit ",", .star Re.ws, .lit "\"type\":", .star Re.ws, .lit "\"",
    .group 1 (.alt (.lit "externalActions") (.lit "nextTasks")), .lit "\"", .star notRBrace,
    .lit "\x7d"]

/-- The pattern of an element array with a stray brace (lines 724 and 750):
`/"element":\s*\[([^"]*)"([^"]*)\}([^"]*)"([^\]]*)\]/g`, replaced by
`"element": [$1"$2$3"$4]`. -/
def elementBracePattern : Re × List Tpl :=
  (Re.cat [.lit "\"element\":", .star Re.ws, .lit "[", .group 1 (.star notDquote), .lit "\"",
     .group 2 (.star notDquote), .lit "\x7d", .group 3 (.star notDquote), .lit "\"",
     .group 4 (.star notRBracket), .lit "]"],
   [.text "\"element\": [", .group 1, .text "\"", .group 2, .group 3, .text "\"", .group 4,
     .text "]"])

/-- The replacements of `fixCommonJSONErrors` (lines 691-724), in the order in
which they are applied, each with the `g` flag. -/
def commonRepairs : List (Re × List Tpl) :=
  [ -- /\[([^\]]*)"]\]/g  ->  [$1"]
    (Re.cat [.lit "[", .group 1 (.star notRBracket), .lit "\"]]"],
      [.text "[", .group 1, .text "\"]"]),
    -- /\[([^\]]*)\}"\]/g  ->  [$1"]
    (Re.cat [.lit "[", .group 1 (.star notRBracket), .lit "\x7d\"]"],
      [.text "[", .group 1, .text "\"]"]),
    -- /\[([^\]]*)\}([^\]]*)\]/g  ->  [$1$2]
    (Re.cat [.lit "[", .group 1 (.star notRBracket), .lit "\x7d", .group 2 (.star notRBracket),
        .lit "]"],
      [.text "[", .group 1, .group 2, .text "]"]),
    -- /"(\s*)"([^"]*)"(?=\s*\])/g  ->  ", "$2"
    (Re.cat [.lit "\"", .group 1 (.star Re.ws), .lit "\"", .group 2 (.star notDquote), .lit "\"",
        .look (Re.cat [.star Re.ws, .lit "]"])],
      [.text "\", \"", .group 2, .text "\""]),
    -- /"\s+"([^"]*)"(?=\s*[,\]])/g  ->  ", "$1"
    (Re.cat [.lit "\"", Re.plus Re.ws, .lit "\"", .group 1 (.star notDquote), .lit "\"",
        .look (Re.cat [.star Re.ws, .cls [.ch ',', .ch ']']])],
      [.text "\", \"", .group 1, .text "\""]),
    -- /"\s*\n\s*"([^"]*)"(?=\s*[,\]])/g  ->  ", "$1"
    (Re.cat [.lit "\"", .star Re.ws, .lit "\n", .star Re.ws, .lit "\"", .group 1 (.star notDquote),
        .lit "\"", .look (Re.cat [.star Re.ws, .cls [.ch ',', .ch ']']])],
      [.text "\", \"", .group 1, .text "\""]),
    -- /\[([^\]]*)'([^']*)'([^\]]*)\]/g  ->  [$1"$2"$3]
    (Re.cat [.lit "[", .group 1 (.star notRBracket), .lit "'", .group 2 (.star notSquote),
        .lit "'", .group 3 (.star notRBracket), .lit "]"],
      [.text "[", .group 1, .text "\"", .group 2, .text "\"", .group 3, .text "]"]),
    -- /,(\s*[}\]])/g  ->  $1
    (Re.cat [.lit ",", .group 1 (Re.cat [.star Re.ws, .cls [.ch rbrace, .ch ']']])],
      [.group 1]),
    -- /'([^']*)"([^']*)'([^']*)/g  ->  "$1\"$2\"$3"
    (Re.cat [.lit "'", .group 1 (.star notSquote), .lit "\"", .group 2 (.star notSquote),
        .lit "'", .group 3 (.star notSquote)],
      [.text "\"", .group 1, .text "\\\"", .group 2, .text "\\\"", .group 3, .text "\""]),
    -- /\[aria-label='([^']*)'"\]/g  ->  ["[aria-label='$1']"]
    (Re.cat [.lit "[aria-label='", .group 1 (.star notSquote), .lit "'\"]"],
      [.text "[\"[aria-label='", .group 1, .text "']\"]"]),
    -- /\[aria-label\*='([^']*)'"\]/g  ->  ["[aria-label*='$1']"]
    (Re.cat [.lit "[aria-label*='", .group 1 (.star notSquote), .lit "'\"]"],
      [.text "[\"[aria-label*='", .group 1, .text "']\"]"]),
    -- /"element":\s*\[\s*"([^"]*)"([^"]*)"([^"]*)"([^"]*)"([^\]]*)\]/g
    --   ->  "element": ["$1", "$2", "$3", "$4"]
    (Re.cat [.lit "\"element\":", .star Re.ws, .lit "[", .star Re.ws, .lit "\"",
        .group 1 (.star notDquote), .lit "\"", .group 2 (.star notDquote), .lit "\"",
        .group 3 (.star notDquote), .lit "\"", .group 4 (.star notDquote), .lit "\"",
        .group 5 (.star notRBracket), .lit "]"],
      [.text "\"element\": [\"", .group 1, .text "\", \"", .group 2, .text "\", \"", .group 3,
        .text "\", \"", .group 4, .text "\"]"]),
    -- /"element":\s*\[\s*"([^"]*)"([^"]*)"([^"]*)"([^\]]*)\]/g
    --   ->  "element": ["$1", "$2", "$3"]
    (Re.cat [.lit "\"element\":", .star Re.ws, .lit "[", .star Re.ws, .lit "\"",
        .group 1 (.star notDquote), .lit "\"", .group 2 (.star notDquote), .lit "\"",
        .group 3 (.star notDquote), .lit "\"", .group 4 (.star notRBracket), .lit "]"],
      [.text "\"element\": [\"", .group 1, .text "\", \"", .group 2, .text "\", \"", .group 3,
        .text "\"]"]),
    -- /"element":\s*\[\s*"([^"]*)"([^"]*)"([^\]]*)\]/g  ->  "element": ["$1", "$2"]
    (Re.cat [.lit "\"element\":", .star Re.ws, .lit "[", .star Re.ws, .lit "\"",
        .group 1 (.star notDquote), .lit "\"", .group 2 (.star notDquote), .lit "\"",
        .group 3 (.star notRBracket), .lit "]"],
      [.text "\"element\": [\"", .group 1, .text "\", \"", .group 2, .text "\"]"]),
    -- /"nextTasks":\s*\[([^\]]*"nextTasks"[^\]]*)\]/g  ->  "nextTasks": []
    (Re.cat [.lit "\"nextTasks\":", .star Re.ws, .lit "[",
        .group 1 (Re.cat [.star notRBracket, .lit "\"nextTasks\"", .star notRBracket]), .lit "]"],
      [.text "\"nextTasks\": []"]),
    -- /"nextTasks":\s*\[\s*\{[^}]*\}[^]]*\]/g  ->  "nextTasks": []
    -- (the class `[^]` is any character; it is followed by `]*` and `\]`)
    (Re.cat [.lit "\"nextTasks\":", .star Re.ws, .lit "[", .star Re.ws, .lit "\x7b",
        .star notRBrace, .lit "\x7d", Re.any, .star (.lit "]"), .lit "]"],
      [.text "\"nextTasks\": []"]),
    -- the steps with an invalid type  ->  (nothing)
    (invalidStepPattern, []),
    -- /,,/g  ->  ,
    (.lit ",,", [.text ","]),
    -- /,(\s*\])/g  ->  $1
    (Re.cat [.lit ",", .group 1 (Re.cat [.star Re.ws, .lit "]"])], [.group 1]),
    elementBracePattern ]

/-- Applies a list of global replacements from first to last. -/
def applyRepairs (repairs : List (Re × List Tpl)) (text : List Char) : List Char :=
  repairs.foldl (fun t rt => replaceAll rt.1 rt.2 t) text

/-- The method `fixCommonJSONErrors` (lines 689-725). -/
def fixCommonJSONErrors (jsonStr : List Char) : List Char := applyRepairs commonRepairs jsonStr

/-- The global replacements of `aggressiveJSONRepair` that come before the one
without the `g` flag (lines 740-742). -/
def aggressiveRepairsHead : List (Re × List Tpl) :=
  [ -- /\[([^\]]*)"]\]/g  ->  [$1"]
    (Re.cat [.lit "[", .group 1 (.star notRBracket), .lit "\"]]"],
      [.text "[", .group 1, .text "\"]"]),
    -- /"element":\s*\[([^\]]*)"]\]/g  ->  "element": [$1"]
    (Re.cat [.lit "\"element\":", .star Re.ws, .lit "[", .group 1 (.star notRBracket),
        .lit "\"]]"],
      [.text "\"element\": [", .group 1, .text "\"]"]) ]

/-- The pattern `/^(\{[\s\S]*\})\s*[\s\S]*$/` of line 744, replaced by `$1`
(no `g` flag). -/
def trailingTextPattern : Re :=
  Re.cat [.bol, .group 1 (Re.cat [.lit "\x7b", .star Re.any, .lit "\x7d"]), .star Re.ws,
    .star Re.any, .eol]

/-- The global replacements of `aggressiveJSONRepair` behind it (lines
746-758). -/
def aggressiveRepairsTail : List (Re × List Tpl) :=
  [ -- /([{,]\s*"[^"]*":\s*)"([^"]*)"]/g  ->  $1"$2"]
    (Re.cat [.group 1 (Re.cat [.cls [.ch lbrace, .ch ','], .star Re.ws, .lit "\"",
          .star notDquote, .lit "\":", .star Re.ws]),
        .lit "\"", .group 2 (.star notDquote), .lit "\"]"],
      [.group 1, .text "\"", .group 2, .text "\"]"]),
    -- the steps with an invalid type  ->  (nothing)
    (invalidStepPattern, []),
    elementBracePattern,
    -- /\[([^"]*)"([^"]*)\}([^"]*)"([^\]]*)\]/g  ->  [$1"$2$3"$4]
    (Re.cat [.lit "[", .group 1 (.star notDquote), .lit "\"", .group 2 (.star notDquote),
        .lit "\x7d", .group 3 (.star notDquote), .lit "\"", .group 4 (.star notRBracket),
        .lit "]"],
      [.text "[", .group 1, .text "\"", .group 2, .group 3, .text "\"", .group 4, .text "]"]),
    -- /"(\[[^"]*\])(\}+)"/g  ->  "$1"
    (Re.cat [.lit "\"", .group 1 (Re.cat [.lit "[", .star notDquote, .lit "]"]),
        .group 2 (Re.plus (.lit "\x7d")), .lit "\""],
      [.text "\"", .group 1, .text "\""]),
    -- /,,+/g  ->  ,
    (Re.cat [.lit ",", Re.plus (.lit ",")], [.text ","]),
    -- /,(\s*[\]}])/g  ->  $1
    (Re.cat [.lit ",", .group 1 (Re.cat [.star Re.ws, .cls [.ch ']', .ch rbrace]])],
      [.group 1]) ]

/-- The method `aggressiveJSONRepair` (lines 727-761). -/
def aggressiveJSONRepair (response : List Char) : List Char :=
  let jsonStr :=
    match fencePattern.exec response with
    | some m => jsTrim (capture m.after.caps 1)
    | none => response
  let jsonStr := applyRepairs aggressiveRepairsHead jsonStr
  let jsonStr := replaceFirst trailingTextPattern [.group 1] jsonStr
  applyRepairs aggressiveRepairsTail jsonStr

/-- Lines 611-622: the text between the code fences, else the text from the
first opening brace to the last closing one, else the whole response. -/
def extractJson (response : List Char) : List Char :=
  match fencePattern.exec response with
  | some m => jsTrim (capture m.after.caps 1)
  | none =>
    match objectPattern.exec response with
    | some m => m.text
    | none => response

/-- The `try` block of lines 607-636. -/
def firstAttempt (response : String) : Except JsError Plan := do
  let jsonStr := extractJson response.toList
  let jsonStr := replaceAll oddSpacePattern [.text " "] jsonStr
  let jsonStr := fixCommonJSONErrors jsonStr
  let parsed ← jsonParse jsonStr
  transformToExpectedFormat parsed

/-- The `try` block of lines 643-649. -/
def secondAttempt (response : String) : Except JsError Plan := do
  let repairedJson := aggressiveJSONRepair response.toList
  let parsed ← jsonParse repairedJson
  transformToExpectedFormat parsed

/-- Lines 659-664: the service named in the lower-cased response. -/
def fallbackServiceName (response : String) : String :=
  let userRequestLower := toLowerCase response
  if includes userRequestLower "lambda" then "Lambda"
  else if includes userRequestLower "s3" then "S3"
  else if includes userRequestLower "ec2" then "EC2"
  else if includes userRequestLower "rds" then "RDS"
  else "AWS service"

/-- Lines 666-685: the fallback plan. -/
def fallbackPlan (response : String) : Plan :=
  let serviceName := fallbackServiceName response
  { steps :=
      [ .obj [("id", .num 1 0), ("type", .str "instruction"),
          ("description", .str ("AI response could not be parsed. Navigate to " ++ serviceName
            ++ " service manually.")),
          ("element", .arr []),
          ("details", .str ("The AI generated an invalid response format. Please navigate to the "
            ++ serviceName ++ " service in the AWS Console and try a simpler request like "
            ++ "\"help me create\" or \"show me the steps\"."))],
        .obj [("id", .num 2 0), ("type", .str "instruction"),
          ("description", .str "Try a simpler request"),
          ("element", .arr []),
          ("details", .str ("Break your request into smaller steps, like \"create function\" "
            ++ "instead of \"setup lambda with all configurations\"."))] ]
    externalActions := .arr []
    nextTasks := ["Navigate to " ++ serviceName ++ " service", "Try a simpler request",
      "Ask for help with specific steps"] }

/-- The `catch (repairError)` block of lines 650-653. Its second statement
reads the variable `repairedJson`, which line 645 declares with `const` inside
the `try` block: the name is not in scope in the `catch` block, no enclosing
scope declares it, and reading it throws a `ReferenceError` (the `?.` behind it
guards the property access, not the name). -/
def repairCatchBlock : Except JsError Unit := .error (.referenceError "repairedJson")

/-- The method `parseAIResponse` (lines 606-687). -/
def parseAIResponse (response : String) : Except JsError Plan :=
  match firstAttempt response with
  | .ok plan => .ok plan
  | .error _ =>
    match secondAttempt response with
    | .ok plan => .ok plan
    | .error _ => do
      repairCatchBlock
      pure (fallbackPlan response)

/-! ## The message router (`handleMessage`) -/

/-- A message: its `type`, its `data` and its `tabId`. -/
structure Message where
  type : String
  data : Option Json
  tabId : Option Nat
  deriving DecidableEq

/-- The sender of a message: the id of `sender.tab`, when the sender has one. -/
structure Sender where
  tab : Option Nat
  deriving DecidableEq

/-- The functions that `handleMessage` calls, each with what it resolves to
(the response object) or rejects with in the state the browser is in. -/
structure Handlers where
  tabsQuery : Except JsError (List Nat)
  handleNewTask : Option Json → Nat → Except JsError (Option Json)
  handleErrorDetection : Option Json → Nat → Except JsError (Option Json)
  requestPageContext : Nat → Except JsError (Option Json)
  handleStepCompletion : Option Json → Except JsError (Option Json)
  handleTaskReset : Except JsError (Option Json)
  handleSessionClear : Except JsError (Option Json)
  getCurrentState : Except JsError (Option Json)
  handlePageChange : Option Json → Option Nat → Except JsError (Option Json)
  handlePlanAdaptation : Option Json → Option Nat → Except JsError (Option Json)
  handleQuestionAnswer : Option Json → Except JsError (Option Json)
  handleAddQuestionHistory : Option Json → Except JsError (Option Json)
  handleGetQuestionHistory : Except JsError (Option Json)
  handleDeleteQuestion : Option Json → Except JsError (Option Json)
  handleClearQuestionHistory : Except JsError (Option Json)
  handleClearTaskHistory : Except JsError (Option Json)
  handleDeleteCompletedTask : Option Json → Except JsError (Option Json)

/-- The response `{ success: false, error }` with a literal text. -/
def failureResponse (error : String) : Json :=
  .obj [("success", .bool false), ("error", .str error)]

/-- The function `handleMessage` (lines 1022-1093): the value its promise
resolves to, or the exception it rejects with. In the case `ADAPT_PLAN` (line
1067) the first argument of the call is the identifier `data`; the function
declares `message`, `sender`, `tabId`, `tabs` and `activeTab`, the script
declares no `data` at top level, so evaluating the argument throws a
`ReferenceError` before `handlePlanAdaptation` is entered. -/
def handleMessage (h : Handlers) (message : Message) (sender : Sender) :
    Except JsError (Option Json) :=
  let tabId : Option Nat :=
    match sender.tab with
    | some id => some id
    | none => message.tabId
  if message.type = "START_NEW_TASK" then do
    let tabs ← h.tabsQuery
    match tabs with
    | [] => pure (some (failureResponse "No active tab found. Please open an AWS Console page."))
    | activeTab :: _ => h.handleNewTask message.data activeTab
  else if message.type = "ERROR_DETECTED" then
    match sender.tab with
    | some id => h.handleErrorDetection message.data id
    | none => throw .typeError
  else if message.type = "GET_PAGE_CONTEXT" then
    match tabId with
    | none => pure (some (failureResponse "Unknown tab"))
    | some id => if id = 0 then pure (some (failureResponse "Unknown tab")) else h.requestPageContext id
  else if message.type = "COMPLETE_STEP" then h.handleStepCompletion message.data
  else if message.type = "RESET_TASK" then h.handleTaskReset
  else if message.type = "CLEAR_SESSION" then h.handleSessionClear
  else if message.type = "GET_CURRENT_STATE" then h.getCurrentState
  else if message.type = "PAGE_CHANGED" then h.handlePageChange message.data tabId
  else if message.type = "ADAPT_PLAN" then throw (.referenceError "data")
  else if message.type = "ANSWER_QUESTION" then h.handleQuestionAnswer message.data
  else if message.type = "ADD_QUESTION_HISTORY" then h.handleAddQuestionHistory message.data
  else if message.type = "GET_QUESTION_HISTORY" then h.handleGetQuestionHistory
  else if message.type = "DELETE_QUESTION" then h.handleDeleteQuestion message.data
  else if message.type = "CLEAR_QUESTION_HISTORY" then h.handleClearQuestionHistory
  else if message.type = "CLEAR_TASK_HISTORY" then h.handleClearTaskHistory
  else if message.type = "DELETE_COMPLETED_TASK" then h.handleDeleteCompletedTask message.data
  else pure (some (failureResponse "Unknown message type"))

/-! ## Plan adaptation (`checkIfPlanNeedsAdaptation`) -/

/-- An entry of the `errors` of a page snapshot, as `detectErrors` builds it:
`type` is `error` or `warning`, `message` the trimmed text of the alert. -/
structure PageError where
  type : String
  message : String
  deriving DecidableEq

/-- The fields of a page snapshot that the adaptation heuristic reads. The
snapshot comes from the content script, where `service`, `pageTitle` and `url`
are strings and `errors` is an array; a field that an object does not have
(as in the objects that `checkSignificantPageChange` builds) is `none`. -/
structure PageContext where
  service : Option String
  pageTitle : Option String
  url : Option String
  errors : Option (List PageError)
  deriving DecidableEq

/-- The fields of the task that `checkIfPlanNeedsAdaptation` reads. -/
structure AdaptationTask where
  userPrompt : String
  currentContext : Option PageContext
  deriving DecidableEq

/-- The expression `v || ''` on a string that may be `undefined`. -/
def orEmpty (v : Option String) : String := v.getD ""

/-- Truthiness of a string that may be `undefined`. -/
def strTruthy (v : Option String) : Bool :=
  match v with
  | some s => s != ""
  | none => false

/-- The expression `s.split('?')[0]`: the text before the first `?`. -/
def beforeQuery (s : String) : String := String.mk (s.toList.takeWhile fun c => c != '?')

/-- An entry of the table of `checkExpectedProgression`: the keywords `from`,
`to` and `intent`. -/
structure ProgressionPattern where
  fromKeywords : List String
  toKeywords : List String
  intentKeywords : List String
  deriving DecidableEq

/-- The table `progressionPatterns` (lines 1581-1600). -/
def progressionPatterns : List ProgressionPattern :=
  [ ⟨["s3", "buckets"], ["create", "bucket"], ["bucket", "s3"]⟩,
    ⟨["s3"], ["create", "bucket"], ["bucket", "s3"]⟩,
    ⟨["ec2", "instances"], ["launch", "instance"], ["instance", "ec2"]⟩,
    ⟨["ec2"], ["launch", "instance"], ["instance", "ec2"]⟩,
    ⟨["rds", "databases"], ["create", "database"], ["database", "rds"]⟩,
    ⟨["rds"], ["create", "database"], ["database", "rds"]⟩,
    ⟨["lambda", "functions"], ["create", "function"], ["function", "lambda"]⟩,
    ⟨["lambda"], ["create", "function"], ["function", "lambda"]⟩,
    ⟨["iam"], ["create", "user", "role", "policy"], ["user", "role", "policy", "iam"]⟩ ]

/-- Whether a pattern matches: some `from` keyword in the old title, some `to`
keyword in the new title and some `intent` keyword in the prompt (lines
1603-1607; the three texts are lower-cased). -/
def ProgressionPattern.matches (p : ProgressionPattern) (oldLower newLower promptLower : String) :
    Bool :=
  p.fromKeywords.any (fun word => includes oldLower word)
    && p.toKeywords.any (fun word => includes newLower word)
    && p.intentKeywords.any (fun word => includes promptLower word)

/-- The function `checkExpectedProgression` (lines 1574-1614). -/
def checkExpectedProgression (oldTitle newTitle userPrompt : String) : Bool :=
  let oldLower := toLowerCase oldTitle
  let newLower := toLowerCase newTitle
  let promptLower := toLowerCase userPrompt
  progressionPatterns.any fun pattern => pattern.matches oldLower newLower promptLower

/-- The words of line 1645. -/
def minorChangeWords : List String := ["step", "page", "review", "confirm", "summary"]

/-- The test `isMinorChange` of lines 1645-1647: some word is in the new title
and its first three letters are in the old title (titles lower-cased). -/
def isMinorChange (oldTitle newTitle : String) : Bool :=
  minorChangeWords.any fun word =>
    includes (toLowerCase newTitle) word
      && includes (toLowerCase oldTitle) (String.mk (word.toList.take 3))

/-- The function `checkIfPageActuallyChanged` (lines 1616-1657). -/
def checkIfPageActuallyChanged (oldContext newContext : Option PageContext) : Bool :=
  match oldContext, newContext with
  | some o, some n =>
    if o.service ≠ n.service then true
    else if o.url ≠ n.url
        ∧ orEmpty (o.url.map beforeQuery) ≠ orEmpty (n.url.map beforeQuery) then true
    else if o.pageTitle ≠ n.pageTitle
        ∧ isMinorChange (orEmpty o.pageTitle) (orEmpty n.pageTitle) = false then true
    else false
  | _, _ => true

/-- The function `checkSignificantPageChange` (lines 1659-1665): the two
contexts it builds have the field `pageTitle` only. -/
def checkSignificantPageChange (oldTitle newTitle _userPrompt : String) : Bool :=
  checkIfPageActuallyChanged
    (some { service := none, pageTitle := some oldTitle, url := none, errors := none })
    (some { service := none, pageTitle := some newTitle, url := none, errors := none })

/-- The errors that line 1546 keeps: of type `error`, with no `warning` in the
lower-cased message. -/
def criticalErrors (errors : List PageError) : List PageError :=
  errors.filter fun e => e.type == "error" && !includes (toLowerCase e.message) "warning"

/-- The function `checkIfPlanNeedsAdaptation` (lines 1497-1572); the value is
what its promise resolves to. -/
def checkIfPlanNeedsAdaptation (task : AdaptationTask) (currentContext : PageContext)
    (_nextStepIndex : Nat) : Bool :=
  match task.currentContext with
  | none => true
  | some prior =>
    let oldService := prior.service
    let newService := currentContext.service
    let oldTitle := orEmpty prior.pageTitle
    let newTitle := orEmpty currentContext.pageTitle
    let oldUrl := orEmpty prior.url
    let newUrl := orEmpty currentContext.url
    if strTruthy oldService && strTruthy newService && oldService != newService then true
    else if oldUrl != newUrl && newUrl.length > 0
        && (!includes oldUrl (beforeQuery newUrl) && !includes newUrl (beforeQuery oldUrl)) then true
    else if oldTitle != newTitle && newTitle.length > 0
        && checkExpectedProgression oldTitle newTitle task.userPrompt then true
    else if (currentContext.errors.getD []).length > 0
        && (criticalErrors (currentContext.errors.getD [])).length > 0 then true
    else if oldTitle != newTitle && newTitle.length > 0
        && checkSignificantPageChange oldTitle newTitle task.userPrompt then true
    else false

/-! ## The page observer: highlighting (`ElementHighlighter`)

The document is the list of its elements in document order; an element is
identified by its index. What a CSS selector matches and whether an element is
visible (`isElementVisible`: computed style and layout) are answers of the
browser, taken as functions of the document. -/

/-- What the highlighter reads of an element, and the class list it changes:
`classes` are the tokens of the `class` attribute. -/
structure DomElement where
  tagName : String
  textContent : String
  classes : List String
  ariaLabel : Option String
  placeholder : Option String
  role : Option String
  type : Option String
  deriving DecidableEq

/-- The document: its elements in document order. -/
abbrev Document := List DomElement

/-- The answers of the browser: `document.querySelector` (a `SyntaxError` for a
selector that is not valid), `document.querySelectorAll` for the fixed
selectors of the content script, `isElementVisible`, and the method
`String.prototype.toLowerCase` of its engine, which the smart match applies to
the selectors and to the texts of the page (the case mapping of Unicode, not
written out here). -/
structure Browser where
  querySelector : Document → String → Except JsError (Option Nat)
  querySelectorAll : Document → String → List Nat
  isVisible : Document → Nat → Bool
  toLowerCase : String → String

/-- The marker class `this.highlightClass`. -/
def highlightClass : String := "console-nano-highlight"

/-- The class of the pulse effect. -/
def pulseClass : String := "console-nano-pulse"

/-- The string `el.className`: the tokens of the class list, separated by one
blank. -/
def DomElement.className (e : DomElement) : String := " ".intercalate e.classes

/-- The call `el.classList.add(c)`. -/
def DomElement.addClass (c : String) (e : DomElement) : DomElement :=
  if c ∈ e.classes then e else { e with classes := e.classes ++ [c] }

/-- The call `el.classList.remove(c)`. -/
def DomElement.removeClass (c : String) (e : DomElement) : DomElement :=
  { e with classes := e.classes.filter fun d => d ≠ c }

/-- Changes the element with index `i`, when the document has one. -/
def updateAt (doc : Document) (i : Nat) (f : DomElement → DomElement) : Document :=
  match doc, i with
  | [], _ => []
  | e :: rest, 0 => f e :: rest
  | e :: rest, j + 1 => e :: updateAt rest j f

/-- The number of elements that carry the marker class. -/
def markedCount (doc : Document) : Nat := (doc.filter fun e => highlightClass ∈ e.classes).length

/-- The state of the highlighter: the document and `this.currentHighlight`. -/
structure Highlighter where
  document : Document
  currentHighlight : Option Nat
  deriving DecidableEq

/-- The method `clearHighlight` (lines 757-767): the marker is taken off the
current element and then off every element that `.console-nano-highlight`
selects, that is, every element that has the class. -/
def clearHighlight (h : Highlighter) : Highlighter :=
  let doc :=
    match h.currentHighlight with
    | some i => updateAt h.document i (DomElement.removeClass highlightClass)
    | none => h.document
  { document := doc.map fun e =>
      if highlightClass ∈ e.classes then e.removeClass highlightClass else e
    currentHighlight := none }

/-- The selector of the candidates of the smart match (line 562). -/
def smartMatchSelector : String :=
  "button, a, input, select, textarea, [role=\"button\"], [data-testid], label, "
    ++ "div[class*=\"button\"], span[class*=\"button\"]"

/-- The pattern `/['"](.*?)['"]/g` of line 546. -/
def quotedTextPattern : Re :=
  Re.cat [.cls [.ch squote, .ch dquote],
    .group 1 (.lazyStar (.ncls [.ch '\n', .ch '\r', .ch (Char.ofNat 0x2028),
      .ch (Char.ofNat 0x2029)])),
    .cls [.ch squote, .ch dquote]]

/-- The pattern `/['"]/g` of line 549. -/
def quotePattern : Re := .cls [.ch squote, .ch dquote]

/-- The pattern `/\b\w{3,}\b/g` of line 555. -/
def longWordPattern : Re :=
  Re.cat [.wordBoundary, .cls [.word], .cls [.word], .cls [.word], .star (.cls [.word]),
    .wordBoundary]

/-- The call `keywords.add(k)` on the set of keywords, kept in insertion
order. -/
def addKeyword (keywords : List String) (k : String) : List String :=
  if k ∈ keywords then keywords else keywords ++ [k]

/-- The callback of `selectors.forEach` in lines 544-559: the keywords of one
selector are added; the call `sel.match` throws a `TypeError` unless `sel` is a
string. -/
def addSelectorKeywords (b : Browser) (keywords : List String) (sel : Json) :
    Except JsError (List String) :=
  match sel with
  | .str text =>
    let quoted := (matchAll quotedTextPattern text.toList).map fun m =>
      b.toLowerCase (String.mk (replaceAll quotePattern [] m))
    let keywords := (quoted.filter fun t => jsLength t > 2).foldl addKeyword keywords
    let words := (matchAll longWordPattern (b.toLowerCase text).toList).map String.mk
    pure (words.foldl addKeyword keywords)
  | _ => throw .typeError

/-- The keywords of a list of selectors (lines 542-559). -/
def selectorKeywords (b : Browser) : List Json → List String → Except JsError (List String)
  | [], keywords => pure keywords
  | sel :: rest, keywords => do
    let keywords ← addSelectorKeywords b keywords sel
    selectorKeywords b rest keywords

/-- The score of an element for a set of keywords (lines 570-586). -/
def smartScore (b : Browser) (keywords : List String) (el : DomElement) : Nat :=
  let elementText := b.toLowerCase el.textContent
  let ariaLabel := b.toLowerCase (orEmpty el.ariaLabel)
  let className := b.toLowerCase el.className
  let placeholder := b.toLowerCase (orEmpty el.placeholder)
  let keywordScore := keywords.foldl (fun score keyword =>
    score + (if includes elementText keyword then 3 else 0)
      + (if includes ariaLabel keyword then 2 else 0)
      + (if includes className keyword then 1 else 0)
      + (if includes placeholder keyword then 2 else 0)) 0
  keywordScore
    + (if el.tagName = "BUTTON" ∨ el.role = some "button" then 1 else 0)
    + (if el.type = some "submit" ∨ includes className "primary" then 1 else 0)

/-- The loop of lines 567-592 over the candidates: the best element so far and
its score. -/
def smartMatchLoop (b : Browser) (doc : Document) (keywords : List String) :
    List Nat → Option Nat → Nat → Option Nat × Nat
  | [], bestMatch, bestScore => (bestMatch, bestScore)
  | i :: rest, bestMatch, bestScore =>
    if !b.isVisible doc i then smartMatchLoop b doc keywords rest bestMatch bestScore
    else
      match doc.get? i with
      | none => smartMatchLoop b doc keywords rest bestMatch bestScore
      | some el =>
        let score := smartScore b keywords el
        if score > bestScore then smartMatchLoop b doc keywords rest (some i) score
        else smartMatchLoop b doc keywords rest bestMatch bestScore

/-- The method `findElementBySmartMatch` (lines 540-595). -/
def findElementBySmartMatch (b : Browser) (doc : Document) (selectors : List Json) :
    Except JsError (Option Nat) := do
  let keywords ← selectorKeywords b selectors []
  let best := smartMatchLoop b doc keywords (b.querySelectorAll doc smartMatchSelector) none 0
  pure (if best.2 > 0 then best.1 else none)

/-- The first visible element of a list of candidates. -/
def firstVisible (b : Browser) (doc : Document) (candidates : List Nat) : Option Nat :=
  candidates.find? fun i => b.isVisible doc i

/-- The selector of the primary buttons (line 599). -/
def primaryButtonSelector : String :=
  "button[class*=\"primary\"], .awsui-button-primary, [role=\"button\"][class*=\"primary\"]"

/-- The selector of the submit buttons (line 604). -/
def submitButtonSelector : String := "button[type=\"submit\"], input[type=\"submit\"]"

/-- The selector of the enabled buttons (line 609). -/
def enabledButtonSelector : String :=
  "button:not([disabled]), [role=\"button\"]:not([disabled])"

/-- The method `findMostLikelyElement` (lines 597-615): the first visible
primary button, else the first visible submit button, else the first visible
enabled button with text. -/
def findMostLikelyElement (b : Browser) (doc : Document) : Option Nat :=
  match firstVisible b doc (b.querySelectorAll doc primaryButtonSelector) with
  | some i => some i
  | none =>
    match firstVisible b doc (b.querySelectorAll doc submitButtonSelector) with
    | some i => some i
    | none =>
      (b.querySelectorAll doc enabledButtonSelector).find? fun i =>
        b.isVisible doc i
          && (match doc.get? i with
            | some el => (jsTrim el.textContent.toList).length > 0
            | none => false)

/-- The loop of lines 480-494 over the selectors: the value of `element` when
the loop ends. An entry that is falsy or blank is skipped; `sel.trim()` throws a
`TypeError` on an entry that is truthy and not a string; an invalid selector
is skipped with `element` left as it is; a match that is visible ends the
loop. -/
def selectorLoop (b : Browser) (doc : Document) :
    List Json → Option Nat → Except JsError (Option Nat)
  | [], element => pure element
  | sel :: rest, element =>
    if !sel.truthy then selectorLoop b doc rest element
    else
      match sel with
      | .str text =>
        if (jsTrim text.toList).isEmpty then selectorLoop b doc rest element
        else
          match b.querySelector doc text with
          | .ok found =>
            match found with
            | some i => if b.isVisible doc i then pure (some i) else selectorLoop b doc rest found
            | none => selectorLoop b doc rest found
          | .error _ => selectorLoop b doc rest element
      | _ => throw .typeError

/-- Lines 471-514 of `highlightElement`: the element to highlight, if any. When
the loop over the selectors leaves no element, the smart match is tried (for
a list that is not empty) and then the most likely element. -/
def findHighlightTarget (b : Browser) (doc : Document) (selector : Json) :
    Except JsError (Option Nat) :=
  let selectors :=
    match selector with
    | .arr items => items
    | other => [other]
  match selectorLoop b doc selectors none with
  | .error e => .error e
  | .ok (some i) => .ok (some i)
  | .ok none =>
    if selectors.length > 0 then
      match findElementBySmartMatch b doc selectors with
      | .error e => .error e
      | .ok (some i) => .ok (some i)
      | .ok none => .ok (findMostLikelyElement b doc)
    else .ok (findMostLikelyElement b doc)

/-- The method `highlightElement` (lines 469-538): what it returns or throws,
and the state it leaves. The previous highlight is cleared first; an element
that was found gets the marker class and the pulse class. -/
def highlightElement (b : Browser) (h : Highlighter) (selector : Json) :
    Except JsError Bool × Highlighter :=
  let h := clearHighlight h
  match findHighlightTarget b h.document selector with
  | .error e => (.error e, h)
  | .ok none => (.ok false, h)
  | .ok (some i) =>
    (.ok true,
      { document := updateAt (updateAt h.document i (DomElement.addClass highlightClass)) i
          (DomElement.addClass pulseClass)
        currentHighlight := some i })

/-- The callback of `selectors.forEach` in `highlightMultiple` (lines 774-784):
the document and `foundAny` after one selector. The selector is converted to
a string by the call of `document.querySelector`; every exception is caught. -/
def highlightOne (b : Browser) (acc : Document × Bool) (selector : Json) : Document × Bool :=
  match selector.toStr with
  | .error _ => acc
  | .ok text =>
    match b.querySelector acc.1 (String.mk text) with
    | .ok (some i) =>
      if b.isVisible acc.1 i then (updateAt acc.1 i (DomElement.addClass highlightClass), true)
      else acc
    | _ => acc

/-- The method `highlightMultiple` (lines 769-787); `selectors.forEach` throws a
`TypeError` unless `selectors` is an array. -/
def highlightMultiple (b : Browser) (h : Highlighter) (selectors : Json) :
    Except JsError Bool × Highlighter :=
  let h := clearHighlight h
  match selectors with
  | .arr items =>
    let r := items.foldl (highlightOne b) (h.document, false)
    (.ok r.2, { h with document := r.1 })
  | _ => (.error .typeError, h)

/-- An operation of the highlighter. -/
inductive HighlightOp where
  | highlightElement (selector : Json)
  | highlightMultiple (selectors : Json)
  | clearHighlight
  deriving DecidableEq

/-- The state after an operation. -/
def HighlightOp.apply (b : Browser) (h : Highlighter) : HighlightOp → Highlighter
  | .highlightElement selector => (ConsoleNano.highlightElement b h selector).2
  | .highlightMultiple selectors => (ConsoleNano.highlightMultiple b h selectors).2
  | .clearHighlight => ConsoleNano.clearHighlight h

/-- The state after a sequence of operations. -/
def runHighlightOps (b : Browser) : List HighlightOp → Highlighter → Highlighter
  | [], h => h
  | op :: ops, h => runHighlightOps b ops (op.apply b h)

/-- Whether an operation is `highlightMultiple`. -/
def HighlightOp.isMultiple : HighlightOp → Bool
  | .highlightMultiple _ => true
  | _ => false

/-! ## The page observer: the summary of key elements (`AWSContextDetector`) -/

/-- What `detectKeyElements` reads of a button of the page: whether it is
visible, its text, and the result of `isPrimaryButton` (a `TypeError` when
`className` is not a string, as on an SVG element). -/
structure ButtonNode where
  visible : Bool
  textContent : String
  isPrimary : Except JsError Bool

/-- What `detectKeyElements` reads of an input or textarea: whether it is
visible, the result of `findLabelForInput` (its `querySelector` throws on an
`id` that makes the selector invalid) and the value. -/
structure InputNode where
  visible : Bool
  label : Except JsError String
  value : String

/-- What `detectKeyElements` reads of a `select` for the summary: whether it is
visible and the result of `findLabelForInput`. -/
structure SelectNode where
  visible : Bool
  label : Except JsError String

/-- The page as `detectContext` reads it: the answers of the four
`querySelectorAll` calls of `detectKeyElements` (for links the text), and
whether one of the other detectors (`detectService`, `detectErrors`, ...)
throws. -/
structure KeyElementsPage where
  buttons : List ButtonNode
  inputs : List InputNode
  selects : List SelectNode
  links : List String
  otherDetectors : Except JsError Unit

/-- The callback of `buttons.forEach` (lines 82-98): the array `elements` after
one button. -/
def addButtonEntry (elements : List String) (btn : ButtonNode) : Except JsError (List String) :=
  if btn.visible then
    let text := jsTrim btn.textContent.toList
    if !text.isEmpty && text.length < 100 then do
      let _ ← btn.isPrimary
      pure (elements ++ [String.mk ("Button: ".toList ++ text)])
    else pure elements
  else pure elements

/-- The callback of `inputs.forEach` (lines 102-125). -/
def addInputEntry (elements : List String) (input : InputNode) : Except JsError (List String) :=
  if input.visible then do
    let label ← input.label
    pure (elements ++ [String.mk ("Input: ".toList ++ label.toList ++ " = ".toList
      ++ [dquote] ++ input.value.toList ++ [dquote])])
  else pure elements

/-- The callback of `selects.forEach` (lines 129-148): nothing is added to
`elements`. -/
def addSelectEntry (elements : List String) (select : SelectNode) :
    Except JsError (List String) :=
  if select.visible then do
    let _ ← select.label
    pure elements
  else pure elements

/-- The callback of `links.forEach` (lines 152-157). -/
def addLinkEntry (elements : List String) (linkText : String) : List String :=
  let text := jsTrim linkText.toList
  if !text.isEmpty && text.length < 50 && !startsWithL "http".toList text
  then elements ++ [String.mk ("Link: ".toList ++ text)] else elements

/-- A `forEach` whose callback may throw. -/
def forEachM {α β : Type} (f : β → α → Except JsError β) : List α → β → Except JsError β
  | [], acc => pure acc
  | x :: xs, acc =>
    match f acc x with
    | .error e => .error e
    | .ok acc' => forEachM f xs acc'

/-- The array `elements` that the four loops of `detectKeyElements` build. -/
def keyElementEntries (page : KeyElementsPage) : Except JsError (List String) :=
  match forEachM addButtonEntry page.buttons [] with
  | .error e => .error e
  | .ok elements =>
    match forEachM addInputEntry page.inputs elements with
    | .error e => .error e
    | .ok elements =>
      match forEachM addSelectEntry page.selects elements with
      | .error e => .error e
      | .ok elements => .ok (page.links.foldl addLinkEntry elements)

/-- The expression `[...new Set(elements)]`: the distinct entries, each at the
place of its first occurrence. -/
def distinctEntries (elements : List String) : List String :=
  elements.foldl (fun seen x => if x ∈ seen then seen else seen ++ [x]) []

/-- The field `summary` of what `detectKeyElements` returns (line 160):
`[...new Set(elements)].slice(0, 30)`. -/
def detectKeyElementsSummary (page : KeyElementsPage) : Except JsError (List String) :=
  match keyElementEntries page with
  | .error e => .error e
  | .ok elements => .ok ((distinctEntries elements).take 30)

/-- The field `elements.summary` of the snapshot that `detectContext` returns
(lines 11-39): that of `detectKeyElements`, or the empty list of the fallback
snapshot when a detector throws. -/
def detectContextSummary (page : KeyElementsPage) : List String :=
  match detectKeyElementsSummary page, page.otherDetectors with
  | .ok summary, .ok _ => summary
  | _, _ => []

/-! ## The substitute oracle (`MockAI`) and the prompt of `generateTaskPlan` -/

/-- The escape of one character in `JSON.stringify`. -/
def escapeJsonChar (c : Char) : List Char :=
  if c = dquote then [backslash, dquote]
  else if c = backslash then [backslash, backslash]
  else if c.toNat = 8 then [backslash, 'b']
  else if c.toNat = 12 then [backslash, 'f']
  else if c.toNat = 10 then [backslash, 'n']
  else if c.toNat = 13 then [backslash, 'r']
  else if c.toNat = 9 then [backslash, 't']
  else if c.toNat < 32 then
    [backslash, 'u', '0', '0', Nat.digitChar (c.toNat / 16), Nat.digitChar (c.toNat % 16)]
  else [c]

/-- A string as `JSON.stringify` writes it. -/
def quoteJsonString (s : String) : List Char :=
  dquote :: s.toList.flatMap escapeJsonChar ++ [dquote]

mutual
/-- The function `JSON.stringify` (without indentation) on a parsed value; the
properties of an object are written in the order of its field list. -/
def jsonStringify : Json → List Char
  | .null => "null".toList
  | .bool true => "true".toList
  | .bool false => "false".toList
  | .num m e => numberToString m e
  | .str s => quoteJsonString s
  | .arr xs => '[' :: stringifyItems xs ++ [']']
  | .obj fs => lbrace :: stringifyFields fs ++ [rbrace]
/-- The elements of an array, separated by commas. -/
def stringifyItems : List Json → List Char
  | [] => []
  | [x] => jsonStringify x
  | x :: y :: rest => jsonStringify x ++ ',' :: stringifyItems (y :: rest)
/-- The properties of an object, separated by commas. -/
def stringifyFields : List (String × Json) → List Char
  | [] => []
  | [(k, v)] => quoteJsonString k ++ ':' :: jsonStringify v
  | (k, v) :: kv :: rest =>
    quoteJsonString k ++ ':' :: jsonStringify v ++ ',' :: stringifyFields (kv :: rest)
end

/-- The pattern `/USER REQUEST:\s*"([^"]+)"/` of line 14. -/
def userRequestPattern : Re :=
  Re.cat [.lit "USER REQUEST:", .star Re.ws, .lit "\"", .group 1 (Re.plus notDquote), .lit "\""]

/-- Lines 14 and 21-25 of `MockAI.session.prompt`: the request named in the
prompt, the empty text when the pattern does not match. -/
def mockUserRequest (fullPrompt : String) : String :=
  match userRequestPattern.exec fullPrompt.toList with
  | some m => String.mk (capture m.after.caps 1)
  | none => ""

/-- The list `unclearRequests` of line 28. -/
def unclearRequests : List String := ["hi", "hello", "hey", "help", "do something", "aws", "test"]

/-- The test `isUnclear` of lines 29-31. -/
def mockIsUnclear (userRequest : String) : Bool :=
  unclearRequests.contains (toLowerCase userRequest) || jsLength userRequest < 3
    || !includes userRequest " "

/-- The object of lines 34-53, which the substitute oracle answers an unclear
request with. -/
def mockClarification : Json :=
  .obj [
    ("steps", .arr [
      .obj [
        ("id", .num 1 0),
        ("type", .str "instruction"),
        ("description", .str "Please specify what you'd like to do in AWS Console"),
        ("element", .arr []),
        ("details", .str ("I need more specific information about your AWS task. Try requests "
          ++ "like 'create S3 bucket', 'launch EC2 instance', 'configure Lambda function', or "
          ++ "ask questions like 'what is DynamoDB?'")),
        ("buttonName", .str "Clarification Needed"),
        ("executionSteps", .arr [
          .str "Think about which AWS service you want to use (S3, EC2, Lambda, etc.)",
          .str "Specify the action you want to perform (create, configure, delete, etc.)",
          .str "Be specific about the resource type (bucket, instance, function, etc.)",
          .str "Try again with a clearer, more specific request"])]]),
    ("externalActions", .arr []),
    ("nextTasks", .arr [.str "Create S3 bucket", .str "Launch EC2 instance",
      .str "Deploy to Elastic Beanstalk", .str "Set up Lambda function",
      .str "Configure IAM roles"])]

/-- The method `MockAI.session.prompt` up to line 54: the answer to a prompt
whose request is unclear. For any other prompt the method goes on to build a
workflow plan (lines 56-243), which is not part of this model: `none`. -/
def mockPrompt (fullPrompt : String) : Option String :=
  if mockIsUnclear (mockUserRequest fullPrompt) then
    some (String.mk (jsonStringify mockClarification))
  else none

/-- The prompt that `generateTaskPlan` builds (lines 458-557): the template with
the user's request, the lines `contextDetails` that lines 421-441 make of the
page snapshot, and the service and title of the page. -/
def taskPlanPrompt (userPrompt : String) (contextDetails : List String)
    (service pageTitle : String) : String :=
  String.mk (List.flatMap [
    "USER REQUEST: \"",
    userPrompt,
    "\"\n",
    "\n",
    "STEP 1 - REQUEST VALIDATION:\n",
    "First, analyze if \"",
    userPrompt,
    "\" is a clear, actionable AWS task or question.\n",
    "\n",
    "UNCLEAR REQUESTS that need clarification:\n",
    "- Greetings: \"hi\", \"hello\", \"hey\", \"good morning\"\n",
    "- Vague requests: \"help\", \"do something\", \"aws\", \"show me\"\n",
    "- Incomplete actions: \"create\", \"delete\", \"configure\" (without specifying what)\n",
    "- Non-AWS requests: \"weather\", \"news\", \"math\", \"random text\"\n",
    "- Too ambiguous: \"fix this\", \"make it work\", \"help me\"\n",
    "\n",
    "If the request is UNCLEAR, respond with this EXACT format:\n",
    "\x7b\n",
    "  \"steps\": [\n",
    "    \x7b\n",
    "      \"id\": 1,\n",
    "      \"type\": \"instruction\",\n",
    "      \"description\": \"Please specify what you'd like to do in AWS Console\",\n",
    "      \"element\": [],\n",
    "      \"details\": \"I need more specific information about your AWS task. Try requests like 'create S3 bucket', 'launch EC2 instance', or ask questions like 'what is Lambda?'\",\n",
    "      \"buttonName\": \"Clarification Needed\",\n",
    "      \"executionSteps\": [\n",
    "        \"Think about what specific AWS task you want to accomplish\",\n",
    "        \"Use clear action words like 'create', 'launch', 'configure', 'delete'\",\n",
    "        \"Specify the AWS service or resource you want to work with\",\n",
    "        \"Try again with a more specific request\"\n",
    "      ]\n",
    "    \x7d\n",
    "  ],\n",
    "  \"externalActions\": [],\n",
    "  \"nextTasks\": []\n",
    "\x7d\n",
    "\n",
    "STEP 2 - IF REQUEST IS CLEAR, generate a COMPLETE end-to-end workflow:\n",
    "\n",
    "Current AWS Console State (for reference only):\n",
    "\n".intercalate contextDetails,
    "\n",
    "\n",
    "COMPLETE WORKFLOW GENERATION INSTRUCTIONS:\n",
    "Generate a comprehensive, step-by-step guide that takes the user from their current state to fully completing: \"",
    userPrompt,
    "\"\n",
    "\n",
    "WORKFLOW REQUIREMENTS:\n",
    "1. **COMPLETE JOURNEY**: Generate ALL steps needed from start to finish, not just current page\n",
    "2. **ANTICIPATE ALL PAGES**: Include steps for navigation, creation forms, configuration pages, review pages, etc.\n",
    "3. **DETAILED GUIDANCE**: Each step should have clear instructions and explanations\n",
    "4. **DECISION SUPPORT**: Include guidance for choices user needs to make (regions, instance types, platforms, etc.)\n",
    "5. **NO GAPS**: Don't stop at page boundaries - continue through the entire workflow\n",
    "6. **PRACTICAL DETAILS**: Include specific recommendations for configurations, naming, security settings\n",
    "\n",
    "WORKFLOW STRUCTURE TO GENERATE:\n",
    "- **Navigation Steps**: How to get to the right AWS service\n",
    "- **Initiation Steps**: Starting the creation/configuration process  \n",
    "- **Configuration Steps**: All required and recommended settings\n",
    "- **Advanced Options**: Important optional configurations\n",
    "- **Review Steps**: Verification before deployment\n",
    "- **Completion Steps**: Final actions and verification\n",
    "- **Follow-up Steps**: What to do after the resource is created\n",
    "\n",
    "STEP DETAIL REQUIREMENTS:\n",
    "- **Specific Button Names**: Use common AWS button patterns (Create, Launch, Next, Review, etc.)\n",
    "- **Form Field Guidance**: What to enter in each field with specific recommendations\n",
    "- **Choice Explanations**: Why to select certain options over others with reasoning\n",
    "- **Best Practices**: Security, performance, and cost considerations for each step\n",
    "- **Decision Support**: Help users choose between options (instance types, regions, etc.)\n",
    "- **Troubleshooting**: Common issues and how to resolve them\n",
    "- **Follow-up Questions**: Address common questions users have at each step\n",
    "\n",
    "EXAMPLE WORKFLOW DEPTH:\n",
    "For \"create S3 bucket\" - include navigation, bucket creation, naming recommendations, region selection, security settings, permissions, lifecycle policies, and verification steps.\n",
    "\n",
    "For \"launch EC2 instance\" - include navigation, AMI selection, instance type recommendations, security group configuration, key pair setup, storage configuration, review, launch, and connection steps.\n",
    "\n",
    "For \"create Elastic Beanstalk application\" - include navigation, platform selection, application creation, environment configuration, deployment options, scaling settings, monitoring setup, and health verification.\n",
    "\n",
    "DECISION SUPPORT EXAMPLES:\n",
    "- **Region Selection**: \"Choose us-east-1 for lowest latency to US users, eu-west-1 for European users\"\n",
    "- **Instance Types**: \"t3.micro for testing/learning, t3.medium for small applications, m5.large for production workloads\"\n",
    "- **Security Groups**: \"Allow only necessary ports - SSH (22) for Linux, RDP (3389) for Windows, HTTP (80) and HTTPS (443) for web servers\"\n",
    "- **Storage Options**: \"gp3 for general purpose, io2 for high IOPS requirements, st1 for throughput-intensive workloads\"\n",
    "\n",
    "RESPONSE FORMAT:\n",
    "\x7b\n",
    "  \"steps\": [\n",
    "    // Complete workflow from current state to finished resource\n",
    "    // Include 15-30+ detailed steps covering the entire process\n",
    "    // Each step should have clear button names and detailed execution guidance\n",
    "  ],\n",
    "  \"externalActions\": [],\n",
    "  \"nextTasks\": [\n",
    "    // Logical follow-up tasks after completing the main workflow\n",
    "  ]\n",
    "\x7d\n",
    "\n",
    "USER REQUEST: \"",
    userPrompt,
    "\"\n",
    "CURRENT PAGE: ",
    service,
    " - ",
    pageTitle,
    "\n",
    "\n",
    "Generate a complete, comprehensive workflow that fully accomplishes the user's request with detailed step-by-step guidance throughout the entire process.\n",
    "\n",
    "Generate the response for: \"",
    userPrompt,
    "\""] String.toList)

/-! ## Page changes, resets and the task history (`handlePageChange`, `handleTaskReset`) -/

/-- The two shapes of the object that `handlePageChange` resolves to:
`{success: false, error}` and `{success: true, contextUpdated}`. -/
inductive PageChangeResponse where
  | failure (error : ErrorText)
  | done (contextUpdated : Bool)
  deriving DecidableEq

/-- The function `handlePageChange` (lines 1765-1798): the response and the
session store it leaves. `data` is `message.data`, whose `url` line 1767 reads;
`contextResponse` is what `chrome.tabs.sendMessage(tabId, GET_PAGE_CONTEXT)`
resolves to, or the exception it throws. -/
def handlePageChange (contextResponse : Except JsError (Option Json)) (data : Option Json)
    (store : SessionStore) : PageChangeResponse × SessionStore :=
  match data with
  | none => (.failure (.ofError .typeError), store)
  | some d =>
    match d.get "url" with
    | .error e => (.failure (.ofError e), store)
    | .ok _ =>
      match contextResponse with
      | .error e => (.failure (.ofError e), store)
      | .ok response =>
        match readSuccess response with
        | .error e => (.failure (.ofError e), store)
        | .ok false => (.done false, store)
        | .ok true =>
          match store.getCurrentTask with
          | some currentTask =>
            (.done false,
              store.setCurrentTask { currentTask with currentContext := contextOf response })
          | none => (.done false, store)

/-- The function `handleTaskReset` (lines 1721-1730): the step index is set to
0, the task is kept. The value is the store; the response is `{success: true}`. -/
def handleTaskReset (store : SessionStore) : SessionStore := store.setCurrentStep 0

/-- A call of the session after `START_NEW_TASK`: `COMPLETE_STEP`, with what the
browser and the oracle answer during the call, or `RESET_TASK`. -/
inductive SessionCall where
  | completeStep (env : StepEnv)
  | resetTask

/-- The store after a call. -/
def SessionCall.run (store : SessionStore) : SessionCall → SessionStore
  | .completeStep env => (handleStepCompletion env store).2
  | .resetTask => handleTaskReset store

/-- The store after a sequence of calls. -/
def runSessionCalls : List SessionCall → SessionStore → SessionStore
  | [], store => store
  | call :: calls, store => runSessionCalls calls (call.run store)

/-- The method `TaskMemoryManager.clearTaskHistory` (lines 953-955): the key
`completedTasks` is removed. -/
def SessionStore.clearTaskHistory (s : SessionStore) : SessionStore :=
  { s with completedTasks := none }

/-- The function `handleClearTaskHistory` (lines 1970-1977): the store it
leaves; the response is `{success: true}`. -/
def handleClearTaskHistory (store : SessionStore) : SessionStore := store.clearTaskHistory

/-! ## The side panel (`SidePanelUI`) -/

/-- The list `questionIndicators` of `isGeneralQuestion` (lines 187-193). -/
def questionIndicators : List String :=
  ["what is", "what are", "how does", "how do", "why does", "why do",
    "explain", "tell me about", "describe", "define", "difference between",
    "best practices", "recommend", "suggest", "which is better",
    "pros and cons", "advantages", "disadvantages", "when should",
    "what happens if", "how much does", "pricing", "cost"]

/-- The call `prompt.endsWith('?')`. -/
def endsWithQuestionMark (prompt : String) : Bool := prompt.toList.getLast? == some '?'

/-- The method `isGeneralQuestion` (lines 186-198). -/
def isGeneralQuestion (prompt : String) : Bool :=
  let promptLower := toLowerCase prompt
  questionIndicators.any (fun indicator => includes promptLower indicator)
    || endsWithQuestionMark prompt

/-- What `handleSend` goes on with: `handleGeneralQuestion(userPrompt)` or
`handleTaskInstruction(userPrompt)`. -/
inductive PanelRequest where
  | generalQuestion (question : String)
  | taskInstruction (userPrompt : String)
  deriving DecidableEq

/-- The method `handleSend` (lines 166-184) on the text of the input field:
the call it makes, `none` when it returns at once. -/
def handleSend (inputValue : String) : Option PanelRequest :=
  let userPrompt := String.mk (jsTrim inputValue.toList)
  if userPrompt = "" then none
  else if isGeneralQuestion userPrompt then some (.generalQuestion userPrompt)
  else some (.taskInstruction userPrompt)

/-- The part of the side panel that shows the completed tasks:
`state.completedTasks` and the items of the element `completedList`, each
with the text it shows (no item stands for the line `No completed tasks yet`). -/
structure PanelState where
  completedTasks : List TaskSummary
  completedList : List String
  deriving DecidableEq

/-- The method `renderCompletedTasks` (lines 704-750): one item for each entry
of `state.completedTasks`, showing `task.prompt || task.summary`. -/
def renderCompletedTasks (p : PanelState) : PanelState :=
  { p with completedList := p.completedTasks.map fun task =>
      if task.prompt ≠ "" then task.prompt else task.summary }

/-- The method `refreshCompletedTasks` (lines 689-702), which the panel calls
after a task was completed: the list of `GET_CURRENT_STATE` (an array, hence
truthy) replaces `state.completedTasks` and is rendered. -/
def refreshCompletedTasks (store : SessionStore) (p : PanelState) : PanelState :=
  renderCompletedTasks { p with completedTasks := store.getCompletedTasks }

/-- The method `SidePanelUI.clearTaskHistory` (lines 1070-1081): the panel and
the store after it. `confirmed` is the answer of `confirm(..)`; `delivered`
tells whether `chrome.runtime.sendMessage` resolved (otherwise it threw, and
the `catch` block only logs). -/
def panelClearTaskHistory (confirmed delivered : Bool) (p : PanelState)
    (store : SessionStore) : PanelState × SessionStore :=
  if confirmed then
    if delivered then (renderCompletedTasks p, handleClearTaskHistory store)
    else (p, store)
  else (p, store)

/-! ## Starting a task (`handleNewTask`) -/

/-- What `handleNewTask` reads of a tab. -/
structure BrowserTab where
  id : Nat
  url : Option String
  windowId : Nat
  deriving DecidableEq

/-- The test of lines 1125-1130 and 1133-1136: the tab has a URL with
`console.aws.amazon.com` or `aws.amazon.com` in it. -/
def isAwsUrl (url : Option String) : Bool :=
  match url with
  | some u => u != "" && (includes u "console.aws.amazon.com" || includes u "aws.amazon.com")
  | none => false

/-- A step object of the plans that the service worker writes itself. -/
def literalStep (id : Nat) (type description : String) (element : List String)
    (details : String) : Json :=
  .obj [("id", .num id 0), ("type", .str type), ("description", .str description),
    ("element", .arr (element.map Json.str)), ("details", .str details)]

/-- The first step of `generateNavigationToAWS` (lines 1292-1323). -/
def navigationFirstStep (currentPageUrl : String) : Json :=
  if includes currentPageUrl "google.com" || includes currentPageUrl "search" then
    literalStep 1 "instruction" "Navigate to AWS Console from your current search page"
      ["input[name='q']", "input[type='search']", "#search"]
      ("Type 'AWS Console' in the search bar and click the first result, or directly type "
        ++ "'console.aws.amazon.com' in the address bar")
  else if includes currentPageUrl "github.com" then
    literalStep 1 "instruction" "Open AWS Console in a new tab from GitHub" []
      ("Press Ctrl+T (Cmd+T on Mac) to open a new tab, then type 'console.aws.amazon.com' in "
        ++ "the address bar")
  else if currentPageUrl = "" || includes currentPageUrl "chrome://"
      || includes currentPageUrl "about:" then
    literalStep 1 "instruction" "Navigate to AWS Console"
      ["input[type='url']", "#omnibox", ".address-bar"]
      "Click on the address bar and type 'console.aws.amazon.com', then press Enter"
  else
    literalStep 1 "instruction" "Open AWS Console in a new tab" []
      ("Press Ctrl+T (Cmd+T on Mac) to open a new tab, then type 'console.aws.amazon.com' in "
        ++ "the address bar")

/-- The function `generateNavigationToAWS` (lines 1287-1347); a URL that is
`undefined` takes the default value `''`. -/
def generateNavigationToAWS (userPrompt : String) (currentPageUrl : Option String) : Plan :=
  { steps :=
      [ navigationFirstStep (currentPageUrl.getD ""),
        literalStep 2 "await_user_action" "Sign in to your AWS account if prompted" []
          ("Enter your AWS credentials, use SSO, or select your saved account if already "
            ++ "configured"),
        literalStep 3 "instruction"
          "Once logged in, return to Console Nano and try your request again" []
          ("Original request: \"" ++ userPrompt ++ "\".Console Nano will automatically detect "
            ++ "you're now on AWS and provide the appropriate steps.") ]
    externalActions := .arr []
    nextTasks := [userPrompt] }

/-- The plans of one step that lines 1163-1175, 1190-1202 and 1220-1232 write. -/
def noticePlan (userPrompt description details : String) : Plan :=
  { steps := [literalStep 1 "instruction" description [] details]
    externalActions := .arr []
    nextTasks := [userPrompt] }

/-- The object `{service, pageTitle, url}` of the responses that carry a
notice; a URL that is `undefined` leaves no property. -/
def noticeContext (service pageTitle : String) (url : Option String) : Json :=
  .obj ([("service", .str service), ("pageTitle", .str pageTitle)]
    ++ match url with
      | some u => [("url", .str u)]
      | none => [])

/-- What the browser and the oracle answer during one call of
`handleNewTask`. -/
structure NewTaskEnv where
  /-- The message `PING` to the tab. -/
  ping : Except JsError Unit
  /-- The message `GET_PAGE_CONTEXT` to the tab. -/
  contextResponse : Except JsError (Option Json)
  /-- The call `chrome.tabs.query({})`. -/
  allTabs : Except JsError (List BrowserTab)
  /-- The call `chrome.tabs.get(tabId)`. -/
  currentTab : Except JsError BrowserTab
  /-- The call `chrome.tabs.reload(tabId)`. -/
  reload : Except JsError Unit
  /-- The message `PING` after the reload. -/
  retryPing : Except JsError Unit
  /-- The message `GET_PAGE_CONTEXT` after the reload. -/
  retryContext : Except JsError (Option Json)
  /-- The calls `chrome.tabs.update` and `chrome.windows.update`. -/
  activateTab : Except JsError Unit
  /-- The text `tabChoices` of lines 1214-1218 (`new URL` may throw). -/
  tabChoices : Except JsError String
  /-- The call `aiEngine.generateTaskPlan(data.userPrompt, context)`. -/
  taskPlan : Except JsError Plan
  /-- The field `aiEngine.usingMock`. -/
  usingMock : Bool
  /-- The text of `new Date().toISOString()`. -/
  now : String

/-- The flag that a response of `handleNewTask` may carry. -/
inductive NewTaskNotice where
  | needsNavigation
  | needsRefresh
  | needsTabSwitch
  | needsTabChoice (awsTabs : List BrowserTab)
  deriving DecidableEq

/-- The two shapes of the object that `handleNewTask` resolves to:
`{success: false, error}` and `{success: true, plan, context, usingMockAI}`
with, possibly, one of the flags. -/
inductive NewTaskResponse where
  | failure (error : ErrorText)
  | planned (plan : Plan) (context : Option Json) (usingMockAI : Bool)
      (notice : Option NewTaskNotice)
  deriving DecidableEq

/-- The field `success` of the response. -/
def NewTaskResponse.success : NewTaskResponse → Bool
  | .failure _ => false
  | .planned _ _ _ _ => true

/-- Lines 1244-1277: with the answer of the content script, the plan is
generated, the task stored and the step index set to 0. -/
def planFromContext (env : NewTaskEnv) (userPrompt : String) (contextResponse : Option Json)
    (store : SessionStore) : NewTaskResponse × SessionStore :=
  match readSuccess contextResponse with
  | .error e => (.failure (.ofError e), store)
  | .ok false => (.failure (.text "Failed to get page context from content script"), store)
  | .ok true =>
    match env.taskPlan with
    | .error e => (.failure (.ofError e), store)
    | .ok plan =>
      (.planned plan (contextOf contextResponse) env.usingMock none,
        storeNewTask userPrompt plan (contextOf contextResponse) env.now store)

/-- The function `handleNewTask` (lines 1107-1285) for the request
`{userPrompt}` of the side panel: the response and the session store it
leaves. -/
def handleNewTask (env : NewTaskEnv) (userPrompt : String) (tabId : Nat)
    (store : SessionStore) : NewTaskResponse × SessionStore :=
  match env.ping, env.contextResponse with
  | .ok _, .ok contextResponse => planFromContext env userPrompt contextResponse store
  | _, _ =>
    match env.allTabs with
    | .error e => (.failure (.ofError e), store)
    | .ok allTabs =>
      let awsTabs := allTabs.filter fun tab => isAwsUrl tab.url
      match env.currentTab with
      | .error e => (.failure (.ofError e), store)
      | .ok currentTab =>
        match awsTabs with
        | [] =>
          (.planned (generateNavigationToAWS userPrompt currentTab.url)
            (some (noticeContext "Navigation" "Navigate to AWS" currentTab.url))
            env.usingMock (some .needsNavigation), store)
        | [awsTab] =>
          if awsTab.id = tabId then
            match env.reload with
            | .error e => (.failure (.ofError e), store)
            | .ok _ =>
              match env.retryPing, env.retryContext with
              | .ok _, .ok contextResponse =>
                planFromContext env userPrompt contextResponse store
              | _, _ =>
                (.planned (noticePlan userPrompt
                    ("Page refreshed automatically. If this message persists, please refresh "
                      ++ "manually")
                    "Press F5 or Ctrl+R (Cmd+R on Mac) to reload the page, then try again")
                  (some (noticeContext "AWS Console" "Refresh Required" awsTab.url))
                  env.usingMock (some .needsRefresh), store)
          else
            match env.activateTab with
            | .error e => (.failure (.ofError e), store)
            | .ok _ =>
              (.planned (noticePlan userPrompt
                  "Switched to your AWS Console tab. Please try your request again."
                  ("Console Nano has switched to your open AWS tab. You can now proceed with "
                    ++ "your request."))
                (some (noticeContext "AWS Console" "Tab Switched" awsTab.url))
                env.usingMock (some .needsTabSwitch), store)
        | _ =>
          match env.tabChoices with
          | .error e => (.failure (.ofError e), store)
          | .ok tabChoices =>
            (.planned (noticePlan userPrompt
                "Multiple AWS tabs detected. Please choose which tab to use:"
                ("Found " ++ toString awsTabs.length ++ " AWS tabs: \n" ++ tabChoices
                  ++ " \n\nPlease click on the tab you want to use, then try your request "
                  ++ "again."))
              (some (noticeContext "AWS Console" "Multiple Tabs" currentTab.url))
              env.usingMock (some (.needsTabChoice awsTabs)), store)

/-- The state of the side panel that `handleTaskInstruction` sets (lines
271-276): the task it shows and the step it is at. -/
structure PanelTask where
  userPrompt : String
  plan : Plan
  currentStep : Nat
  deriving DecidableEq

/-- Lines 261-276 of `handleTaskInstruction`: on a response with `success`, the
panel takes the plan of the response as its current task, at step 0; on any
other response it keeps what it had. -/
def panelTaskAfter (userPrompt : String) (response : NewTaskResponse)
    (previous : Option PanelTask) : Option PanelTask :=
  match response with
  | .planned plan _ _ _ => some { userPrompt := userPrompt, plan := plan, currentStep := 0 }
  | .failure _ => previous

/-- The score that the loop of lines 567-592 computes for the candidate with
index `i`; `none` for a candidate that line 568 skips because it is not
visible (or that is not an element of the document). -/
def candidateScore (b : Browser) (doc : Document) (keywords : List String) (i : Nat) :
    Option Nat :=
  if b.isVisible doc i then (doc.get? i).map (smartScore b keywords) else none

/-! ## Invariant and example inputs -/

/-- The state invariant of a running task: the stored task has the given plan
and the stored step index does not exceed the number of its steps. -/
def StepInRange (plan : Plan) (store : SessionStore) : Prop :=
  ∃ task, store.currentTask = some task ∧ task.plan = plan ∧
    0 ≤ store.getCurrentStep ∧ store.getCurrentStep ≤ task.plan.steps.length

/-- The state invariant of the record of completed steps: the stored task has
the given plan, its `completedSteps` ends with the indices `0 .. currentStep-1`
in ascending order, and each of its entries is the index of a step of the
plan. -/
def StepsRecorded (plan : Plan) (store : SessionStore) : Prop :=
  ∃ task, store.currentTask = some task ∧ task.plan = plan ∧
    List.range store.getCurrentStep <:+ task.completedSteps.getD [] ∧
    ∀ i ∈ task.completedSteps.getD [], i < plan.steps.length

/-- The `type` of each step of a plan. -/
def Plan.stepTypes (p : Plan) : List (Option Json) := p.steps.map fun s => s.prop "type"

/-- The one-step plan of the examples. -/
def demoPlan : Plan :=
  { steps := [.obj [("id", .num 1 0), ("type", .str "instruction"),
      ("description", .str "Open the S3 console"), ("element", .arr [])]]
    externalActions := .arr []
    nextTasks := ["Upload a file"] }

/-- The store after `START_NEW_TASK` with the one-step plan. -/
def demoStore : SessionStore :=
  storeNewTask "create S3 bucket" demoPlan (some (.obj [("service", .str "S3")]))
    "2025-01-01T00:00:00.000Z" ⟨none, none, none, none⟩

/-- A call during which the browser reports no active tab. -/
def noTabEnv : StepEnv :=
  { tabs := .ok []
    firstContext := .ok none
    retryContext := .ok none
    contextualNextTasks := .ok (.arr [])
    now := "2025-01-01T00:05:00.000Z" }

/-- A call during which the active tab answers with a fresh page context. -/
def freshEnv : StepEnv :=
  { tabs := .ok [7]
    firstContext := .ok (some (.obj [("success", .bool true),
      ("context", .obj [("service", .str "S3")])]))
    retryContext := .ok none
    contextualNextTasks := .ok (.arr [.str "Enable versioning"])
    now := "2025-01-01T00:05:00.000Z" }

/-- A task with the one-step plan. -/
def demoTask : Task :=
  { userPrompt := "create S3 bucket"
    plan := demoPlan
    originalContext := none
    currentContext := some (.obj [("service", .str "S3")])
    completedSteps := some [0]
    createdResources := none
    taskType := "create"
    createdAt := "2025-01-01T00:00:00.000Z" }

/-- A store whose completed-task log holds 10 summaries, with step counts 0 to
9, and whose question log holds 20 questions. -/
def fullStore : SessionStore :=
  { currentTask := none
    currentStep := none
    completedTasks := some ((List.range 10).map fun i =>
      { summarizeTask "2025-01-01T00:00:00.000Z" demoTask with stepCount := i })
    questionHistory := some ((List.range 20).map fun i =>
      { question := some (.num i 0), askedAt := "2025-01-01T00:00:00.000Z" }) }

/-- A parsed answer with two steps that the oracle labelled `Navigation`. -/
def twoNavigations : Json :=
  .obj [("steps", .arr [
    .obj [("id", .num 1 0), ("type", .str "Navigation"),
      ("description", .str "Open the AWS console")],
    .obj [("id", .num 2 0), ("type", .str "Navigation"),
      ("description", .str "Open the S3 service")]])]

/-- The same answer with the two steps labelled `navigation`. -/
def twoExactNavigations : Json :=
  .obj [("steps", .arr [
    .obj [("id", .num 1 0), ("type", .str "navigation"),
      ("description", .str "Open the AWS console")],
    .obj [("id", .num 2 0), ("type", .str "navigation"),
      ("description", .str "Open the S3 service")]])]

/-- The plan that `transformToExpectedFormat` makes of `twoNavigations`. -/
def twoNavigationsPlan : Plan :=
  { steps :=
      [ .obj [("id", .num 1 0), ("type", .str "navigation"),
          ("description", .str "Open the AWS console"), ("element", .arr []),
          ("details", .null), ("buttonName", .str "Action Button"),
          ("executionSteps", .arr [.str "Complete this step"])],
        .obj [("id", .num 2 0), ("type", .str "navigation"),
          ("description", .str "Open the S3 service"), ("element", .arr []),
          ("details", .null), ("buttonName", .str "Action Button"),
          ("executionSteps", .arr [.str "Complete this step"])] ]
    externalActions := .arr []
    nextTasks := [] }

/-- A parsed answer whose two steps carry a label with `verif` in it: the first
label also contains `config`, the second step has an `actions` list. -/
def verifyLabelled : Json :=
  .obj [("steps", .arr [
    .obj [("id", .num 1 0), ("type", .str "verify_configuration"),
      ("description", .str "Check the bucket settings")],
    .obj [("id", .num 2 0), ("type", .str "verification"),
      ("description", .str "Confirm that the bucket exists"),
      ("actions", .arr [.obj [("action_type", .str "click"),
        ("css_selector", .str "#refresh")]])]])]

/-- The steps of an answer that ends with two checks; the first one names its
element by a bare selector, the second one has an `executionSteps` text. -/
def checkedSteps : List Json :=
  [ .obj [("id", .num 1 0), ("type", .str "Verification"),
      ("description", .str "Confirm that the bucket exists"),
      ("element", .str "#bucket-list")],
    .obj [("id", .num 2 0), ("type", .str "success_check"),
      ("description", .str "Look for the green banner"),
      ("executionSteps", .str "Read the banner")] ]

/-- The parsed answer with the steps `checkedSteps`. -/
def checkedAnswer : Json := .obj [("steps", .arr checkedSteps)]

/-- The plan that `transformToExpectedFormat` makes of `checkedAnswer`. -/
def checkedPlan : Plan :=
  { steps :=
      [ .obj [("id", .num 1 0), ("type", .str "verification"),
          ("description", .str "Confirm that the bucket exists"),
          ("element", .arr [.str "#bucket-list"]), ("details", .null),
          ("buttonName", .str "Action Button"),
          ("executionSteps", .arr [.str "Complete this step"])],
        .obj [("id", .num 2 0), ("type", .str "verification"),
          ("description", .str "Look for the green banner"), ("element", .arr []),
          ("details", .null), ("buttonName", .str "Action Button"),
          ("executionSteps", .arr [.str "Read the banner"])] ]
    externalActions := .arr []
    nextTasks := [] }

/-- The snapshot of the list of buckets of S3. -/
def bucketsContext : PageContext :=
  { service := some "S3"
    pageTitle := some "Buckets"
    url := some "https://s3.console.aws.amazon.com/s3/buckets"
    errors := some [] }

/-- The same page under the title `Access Points`. -/
def accessPointsContext : PageContext := { bucketsContext with pageTitle := some "Access Points" }

/-- A task for the request `create bucket`, last seen on the list of buckets. -/
def bucketTask : AdaptationTask :=
  { userPrompt := "create bucket", currentContext := some bucketsContext }

/-- The snapshot of a page whose service name was read as the empty text. -/
def homeContext : PageContext :=
  { service := some ""
    pageTitle := some "Console Home"
    url := some "https://console.aws.amazon.com/"
    errors := some [] }

/-- The same page with the service name `S3`. -/
def homeS3Context : PageContext := { homeContext with service := some "S3" }

/-- The snapshot of the list of instances of EC2. -/
def instancesContext : PageContext :=
  { service := some "EC2"
    pageTitle := some "Instances"
    url := some "https://console.aws.amazon.com/ec2/home"
    errors := some [] }

/-- The first page of the form that creates a bucket. -/
def stepOneContext : PageContext :=
  { service := some "S3"
    pageTitle := some "Create bucket - Step 1"
    url := some "https://s3.console.aws.amazon.com/s3/bucket/create"
    errors := some [] }

/-- The second page of the form, at the same address. -/
def stepTwoContext : PageContext :=
  { stepOneContext with pageTitle := some "Create bucket - Step 2" }

/-- Whether an element (none is disabled, none has `data-testid`) matches one
of the fixed selectors of the highlighter. -/
def matchesFixedSelector (e : DomElement) (sel : String) : Bool :=
  let button := e.tagName = "BUTTON" || e.role = some "button"
  if sel = smartMatchSelector then
    e.tagName ∈ ["BUTTON", "A", "INPUT", "SELECT", "TEXTAREA", "LABEL"] || e.role = some "button"
      || (e.tagName ∈ ["DIV", "SPAN"] && includes e.className "button")
  else if sel = primaryButtonSelector then
    button && includes e.className "primary" || decide ("awsui-button-primary" ∈ e.classes)
  else if sel = submitButtonSelector then
    e.tagName ∈ ["BUTTON", "INPUT"] && e.type = some "submit"
  else if sel = enabledButtonSelector then button
  else false

/-- The selector `[aria-label="..."]` for a label without quotes. -/
def ariaSelector (label : String) : String := "[aria-label=\"" ++ label ++ "\"]"

/-- A browser for the example pages, whose texts and selectors are ASCII: every
element is visible; `button[` is not a valid selector; the other selectors
asked for are of the form `[aria-label="..."]`; the letters `A`..`Z` are
lower-cased. -/
def plainBrowser : Browser :=
  { querySelector := fun doc sel =>
      if sel = "button[" then .error .syntaxError
      else .ok (doc.findIdx? fun e => e.ariaLabel.map ariaSelector = some sel)
    querySelectorAll := fun doc sel =>
      (List.range doc.length).filter fun i =>
        match doc.get? i with
        | some e => matchesFixedSelector e sel
        | none => false
    isVisible := fun _ _ => true
    toLowerCase := toLowerCase }

/-- A page with the buttons `Create bucket` and `Cancel`. -/
def createPage : Document :=
  [ { tagName := "BUTTON", textContent := "Create bucket", classes := ["awsui-button"],
      ariaLabel := some "Create bucket", placeholder := none, role := none,
      type := some "submit" },
    { tagName := "BUTTON", textContent := "Cancel", classes := [],
      ariaLabel := some "Cancel", placeholder := none, role := none, type := some "button" } ]

/-- A page without buttons, links or fields. -/
def textPage : Document :=
  [ { tagName := "P", textContent := "Welcome", classes := [], ariaLabel := none,
      placeholder := none, role := none, type := none } ]

/-- The plan that `parseAIResponse` makes of the answer of the substitute
oracle to an unclear request. -/
def clarificationPlan : Plan :=
  { steps :=
      [ .obj [("id", .num 1 0), ("type", .str "instruction"),
          ("description", .str "Please specify what you'd like to do in AWS Console"),
          ("element", .arr []),
          ("details", .str ("I need more specific information about your AWS task. Try requests "
            ++ "like 'create S3 bucket', 'launch EC2 instance', 'configure Lambda function', or "
            ++ "ask questions like 'what is DynamoDB?'")),
          ("buttonName", .str "Clarification Needed"),
          ("executionSteps", .arr [
            .str "Think about which AWS service you want to use (S3, EC2, Lambda, etc.)",
            .str "Specify the action you want to perform (create, configure, delete, etc.)",
            .str "Be specific about the resource type (bucket, instance, function, etc.)",
            .str "Try again with a clearer, more specific request"])] ]
    externalActions := .arr []
    nextTasks := ["Create S3 bucket", "Launch EC2 instance", "Deploy to Elastic Beanstalk",
      "Set up Lambda function", "Configure IAM roles"] }

/-- The lines that `generateTaskPlan` makes of a snapshot of the list of
buckets that has no breadcrumbs, fields, buttons or dropdowns (lines 408-411). -/
def bucketsContextDetails : List String :=
  ["Service: S3", "Page Title: Buckets", "URL: https://s3.console.aws.amazon.com/s3/buckets"]

/-- A list of two strings with a comma before the closing bracket; the strings
have an apostrophe each. -/
def apostropheList : String := "[\"it's\", \"don't\",]"

/-- An answer of the oracle with a comma before the closing bracket of
`nextTasks`, whose entries have an apostrophe each. -/
def apostropheAnswer : String :=
  "\x7b\"steps\": [], \"nextTasks\": [\"Don't stop\", \"It's done\",]\x7d"

/-- The answer of the substitute oracle to an unclear request: the text that
`JSON.stringify` makes of `mockClarification`. -/
def clarificationText : String :=
  "\x7b\"steps\":[\x7b\"id\":1,\"type\":\"instruction\",\"description\":\"Please specify wh"
    ++ "at you'd like to do in AWS Console\",\"element\":[],\"details\":\"I need more specific i"
    ++ "nformation about your AWS task. Try requests like 'create S3 bucket', 'launch EC2 instan"
    ++ "ce', 'configure Lambda function', or ask questions like 'what is DynamoDB?'\",\"buttonNa"
    ++ "me\":\"Clarification Needed\",\"executionSteps\":[\"Think about which AWS service you wa"
    ++ "nt to use (S3, EC2, Lambda, etc.)\",\"Specify the action you want to perform (create, co"
    ++ "nfigure, delete, etc.)\",\"Be specific about the resource type (bucket, instance, functi"
    ++ "on, etc.)\",\"Try again with a clearer, more specific request\"]\x7d],\"externalActions\""
    ++ ":[],\"nextTasks\":[\"Create S3 bucket\",\"Launch EC2 instance\",\"Deploy to Elastic Bean"
    ++ "stalk\",\"Set up Lambda function\",\"Configure IAM roles\"]\x7d"

/-- The text `clarificationText` after the replacement of line 701 in
`fixCommonJSONErrors`: the apostrophe of `you'd` and the first apostrophe of the
details have become double quotes. -/
def damagedClarificationText : String :=
  "\x7b\"steps\":[\x7b\"id\":1,\"type\":\"instruction\",\"description\":\"Please specify wh"
    ++ "at you\"d like to do in AWS Console\",\"element\":[],\"details\":\"I need more specific i"
    ++ "nformation about your AWS task. Try requests like \"create S3 bucket', 'launch EC2 insta"
    ++ "nce', 'configure Lambda function', or ask questions like 'what is DynamoDB?'\",\"buttonN"
    ++ "ame\":\"Clarification Needed\",\"executionSteps\":[\"Think about which AWS service you w"
    ++ "ant to use (S3, EC2, Lambda, etc.)\",\"Specify the action you want to perform (create, c"
    ++ "onfigure, delete, etc.)\",\"Be specific about the resource type (bucket, instance, funct"
    ++ "ion, etc.)\",\"Try again with a clearer, more specific request\"]\x7d],\"externalActions"
    ++ "\":[],\"nextTasks\":[\"Create S3 bucket\",\"Launch EC2 instance\",\"Deploy to Elastic Be"
    ++ "anstalk\",\"Set up Lambda function\",\"Configure IAM roles\"]\x7d"

/-- The text that the specification gives for an entry of `nextTasks`: a
string is kept; an object is replaced by the first of its fields
`description`, `title`, `name`, `summary` that is present with a truthy
value, when that value is a string; any other entry yields nothing. -/
def specNextTaskText : Json → Option String
  | .str s => some s
  | .obj fields =>
    match (["description", "title", "name", "summary"].filterMap fun k =>
        (lookupField k fields).filter Json.truthy).head? with
    | some (.str s) => some s
    | _ => none
  | _ => none

/-- A parsed answer whose `nextTasks` has strings, objects with one of the
four fields, and entries without a usable text. -/
def mixedNextTasks : Json :=
  .obj [("steps", .arr []),
    ("nextTasks", .arr [
      .str "Upload a file",
      .obj [("title", .str "Enable versioning")],
      .obj [("description", .str ""), ("name", .str "Set a lifecycle rule")],
      .num 5 0,
      .obj [("description", .num 7 0), ("title", .str "Not used")],
      .null,
      .str "Delete the bucket"])]

/-- The plan that `transformToExpectedFormat` makes of `mixedNextTasks`. -/
def mixedNextTasksPlan : Plan :=
  { steps := []
    externalActions := .arr []
    nextTasks := ["Upload a file", "Enable versioning", "Set a lifecycle rule",
      "Delete the bucket"] }

/-- The answer of the content script with a snapshot of the list of buckets. -/
def bucketsAnswer : Json :=
  .obj [("success", .bool true),
    ("context", .obj [("service", .str "S3"), ("pageTitle", .str "Buckets")])]

/-- The store after `START_NEW_TASK` with the plan of two steps. -/
def twoStepStore : SessionStore :=
  storeNewTask "open S3" twoNavigationsPlan (some (.obj [("service", .str "EC2")]))
    "2025-01-01T00:00:00.000Z" ⟨none, none, none, none⟩

/-- The store `demoStore` after its task was completed once. -/
def doneStore : SessionStore := demoStore.addCompletedTask "2025-01-01T00:05:00.000Z" demoTask

/-- The panel after it has read the completed tasks of `doneStore`. -/
def shownPanel : PanelState := refreshCompletedTasks doneStore ⟨[], []⟩

/-- A call of `handleNewTask` during which the content script does not answer
and no tab shows a page of AWS. -/
def noAwsTabEnv : NewTaskEnv :=
  { ping := .error .typeError
    contextResponse := .ok none
    allTabs := .ok [⟨7, some "https://www.google.com/search?q=aws", 1⟩]
    currentTab := .ok ⟨7, some "https://www.google.com/search?q=aws", 1⟩
    reload := .ok ()
    retryPing := .ok ()
    retryContext := .ok none
    activateTab := .ok ()
    tabChoices := .ok ""
    taskPlan := .ok demoPlan
    usingMock := true
    now := "2025-01-01T00:00:00.000Z" }

/-- A browser like `plainBrowser` in which the elements of class `hidden` are
not visible. -/
def hidingBrowser : Browser :=
  { plainBrowser with
    isVisible := fun doc i =>
      match doc.get? i with
      | some e => !decide ("hidden" ∈ e.classes)
      | none => false }

/-- A page whose only button, `Save`, is hidden. -/
def hiddenSavePage : Document :=
  [ { tagName := "BUTTON", textContent := "Save", classes := ["hidden"],
      ariaLabel := some "Save", placeholder := none, role := none, type := some "button" } ]

/-- A page with a link and three buttons that all mention a bucket, partly in
upper case; the last button, the one with the most matches, is hidden. -/
def bucketPage : Document :=
  [ { tagName := "A", textContent := "Bucket", classes := [], ariaLabel := none,
      placeholder := none, role := none, type := none },
    { tagName := "BUTTON", textContent := "Create BUCKET", classes := [],
      ariaLabel := some "Create bucket", placeholder := none, role := none,
      type := some "button" },
    { tagName := "BUTTON", textContent := "Delete bucket", classes := [],
      ariaLabel := some "Delete Bucket", placeholder := none, role := none,
      type := some "button" },
    { tagName := "BUTTON", textContent := "Empty bucket", classes := ["hidden", "primary"],
      ariaLabel := some "Empty bucket", placeholder := some "bucket", role := none,
      type := some "submit" } ]

/-- An answer of the oracle that is a well-formed plan object, without code
fence or surrounding text, whose only step has a list of two selectors. -/
def twoSelectorResponse : String :=
  "\x7b\"steps\":[\x7b\"id\":1,\"type\":\"click\",\"description\":\"Press Create\","
    ++ "\"element\":[\"#create\",\"button.primary\"]\x7d]\x7d"

/-- The plan with one step `Press Create` whose selectors are `element`. -/
def pressCreatePlan (element : List String) : Plan :=
  { steps :=
      [ .obj [("id", .num 1 0), ("type", .str "await_user_action"),
          ("description", .str "Press Create"),
          ("element", .arr (element.map Json.str)),
          ("details", .null),
          ("buttonName", .str "Action Button"),
          ("executionSteps", .arr [.str "Complete this step"])] ]
    externalActions := .arr []
    nextTasks := [] }

/-- The text of `twoSelectorResponse` after the replacement of line 711. -/
def threeEntryText : String :=
  "\x7b\"steps\":[\x7b\"id\":1,\"type\":\"click\",\"description\":\"Press Create\","
    ++ "\"element\": [\"#create\", \",\", \"button.primary\"]\x7d]\x7d"

/-- The text of `twoSelectorResponse` after the replacement of line 712, which
is the text that `fixCommonJSONErrors` returns. -/
def damagedSelectorText : String :=
  "\x7b\"steps\":[\x7b\"id\":1,\"type\":\"click\",\"description\":\"Press Create\","
    ++ "\"element\": [\"#create\", \", \"]\x7d]\x7d"

/-! ## Properties of the session store and of step completion -/

theorem pushBounded_length {α : Type} (cap : Nat) (log : List α) (entry : α)
    (h : log.length ≤ cap) : (pushBounded cap log entry).length = min (log.length + 1) cap := by
  unfold pushBounded
  by_cases hc : (log ++ [entry]).length > cap
  · have hlen : log.length = cap := by
      simp only [List.length_append, List.length_singleton] at hc
      omega
    simp [hc, hlen]
  · simp only [List.length_append, List.length_singleton] at hc
    simp only [List.length_append, List.length_singleton, gt_iff_lt]
    rw [if_neg hc]
    simp only [List.length_append, List.length_singleton]
    omega

theorem pushBounded_eq {α : Type} (cap : Nat) (log : List α) (entry : α) (hcap : 0 < cap)
    (h : log.length ≤ cap) :
    pushBounded cap log entry = log.drop (log.length + 1 - cap) ++ [entry] := by
  unfold pushBounded
  by_cases hc : (log ++ [entry]).length > cap
  · have hlen : log.length = cap := by
      simp only [List.length_append, List.length_singleton] at hc
      omega
    have hne : log ≠ [] := by
      intro h0
      rw [h0] at hlen
      simp at hlen
      omega
    simp only [hc, if_true]
    have h1 : log.length + 1 - cap = 1 := by omega
    rw [h1]
    cases log with
    | nil => exact absurd rfl hne
    | cons a l => simp
  · simp only [hc, if_false]
    simp only [List.length_append, List.length_singleton] at hc
    have h0 : log.length + 1 - cap = 0 := by omega
    rw [h0]
    simp

theorem pushBounded_getLast {α : Type} (cap : Nat) (log : List α) (entry : α)
    (hcap : 0 < cap) : (pushBounded cap log entry).getLast? = some entry := by
  unfold pushBounded
  cases log with
  | nil =>
    have h1 : cap ≠ 0 := by omega
    simp [h1]
  | cons a l =>
    simp only [List.cons_append, List.length_cons, List.length_append, List.length_singleton,
      List.drop_succ_cons, List.drop_zero]
    split
    · simp
    · exact List.getLast?_concat (a :: l)

theorem handleStepCompletion_inv (plan : Plan) (env : StepEnv) (store : SessionStore)
    (h : StepInRange plan store) : StepInRange plan (handleStepCompletion env store).2 := by
  obtain ⟨task, htask, hplan, h0, hle⟩ := h
  unfold handleStepCompletion
  simp only [SessionStore.getCurrentTask, htask]
  cases htabs : env.tabs with
  | error e => exact ⟨task, htask, hplan, h0, hle⟩
  | ok tabs =>
    cases tabs with
    | nil => exact ⟨task, htask, hplan, h0, hle⟩
    | cons t ts =>
      simp only
      by_cases hdone : store.getCurrentStep + 1 ≥ task.plan.steps.length
      · simp only [hdone, if_true]
        cases readSuccess (fetchContext env) with
        | error e => exact ⟨task, htask, hplan, h0, hle⟩
        | ok fresh =>
          refine ⟨task, ?_, hplan, ?_, ?_⟩
          · simp [SessionStore.setCurrentStep, SessionStore.addCompletedTask, htask]
          · exact Nat.zero_le _
          · simp [SessionStore.setCurrentStep, SessionStore.getCurrentStep]
      · simp only [hdone, if_false]
        cases readSuccess (fetchContext env) with
        | error e => exact ⟨task, htask, hplan, h0, hle⟩
        | ok fresh =>
          simp only [SessionStore.setCurrentStep, SessionStore.setCurrentTask]
          refine ⟨_, rfl, ?_, ?_, ?_⟩
          · cases fresh <;> simpa using hplan
          · exact Nat.zero_le _
          · simp only [SessionStore.getCurrentStep, Option.getD_some]
            have hlt : store.getCurrentStep + 1 < task.plan.steps.length := by omega
            simp only [SessionStore.getCurrentStep] at hlt
            cases fresh <;> simp <;> omega

theorem completeSteps_inv (plan : Plan) (envs : List StepEnv) (store : SessionStore)
    (h : StepInRange plan store) : StepInRange plan (completeSteps envs store) := by
  induction envs generalizing store with
  | nil => exact h
  | cons env envs ih => exact ih _ (handleStepCompletion_inv plan env store h)

/-- C4: starting from the task that `START_NEW_TASK` stores with step index 0,
after any sequence of `COMPLETE_STEP` calls, whatever the browser answers in
each, the store still holds a task with the same plan and the stored
`currentStep` is at least 0 and at most `plan.steps.length`. -/
theorem currentStep_in_range (userPrompt : String) (plan : Plan) (context : Option Json)
    (now : String) (store0 : SessionStore) (envs : List StepEnv) :
    ∃ task,
      (completeSteps envs (storeNewTask userPrompt plan context now store0)).currentTask
        = some task ∧
      task.plan = plan ∧
      0 ≤ (completeSteps envs (storeNewTask userPrompt plan context now store0)).getCurrentStep ∧
      (completeSteps envs (storeNewTask userPrompt plan context now store0)).getCurrentStep
        ≤ task.plan.steps.length := by
  apply completeSteps_inv
  refine ⟨_, rfl, rfl, Nat.zero_le _, ?_⟩
  simp [storeNewTask, SessionStore.setCurrentStep, SessionStore.getCurrentStep]

/-- C5, as stated, fails: with the stored `currentStep` equal to
`plan.steps.length - 1` but no active tab, `handleStepCompletion` answers with
a failure, and the completed-task log stays empty. -/
theorem last_step_without_tab :
    demoStore.currentTask.map (fun t => t.plan.steps.length) = some (demoStore.getCurrentStep + 1) ∧
      (handleStepCompletion noTabEnv demoStore).1 = .failure (.text "No active tab found") ∧
      (handleStepCompletion noTabEnv demoStore).1.taskComplete ≠ some true ∧
      (handleStepCompletion noTabEnv demoStore).2.getCompletedTasks = [] := by
  decide

/-- C5, amended: when `handleStepCompletion` runs with a stored task, the stored
`currentStep` equal to `plan.steps.length - 1`, an active tab, and a page-context
answer whose `success` field can be read, it puts a summary with the task's
prompt and step count at the end of the completed-task log, sets the stored
`currentStep` to 0, leaves the stored task as it was and answers with
`taskComplete = true`. -/
theorem last_step_archives (env : StepEnv) (store : SessionStore) (task : Task)
    (tab : Nat) (tabs : List Nat) (fresh : Bool)
    (htask : store.currentTask = some task)
    (hstep : store.getCurrentStep + 1 = task.plan.steps.length)
    (htabs : env.tabs = .ok (tab :: tabs))
    (hctx : readSuccess (fetchContext env) = .ok fresh) :
    ∃ summary : TaskSummary,
      summary.prompt = task.userPrompt ∧
      summary.stepCount = task.plan.steps.length ∧
      (handleStepCompletion env store).2.getCompletedTasks
        = pushBounded 10 store.getCompletedTasks summary ∧
      (handleStepCompletion env store).2.getCompletedTasks.getLast? = some summary ∧
      (handleStepCompletion env store).2.currentStep = some 0 ∧
      (handleStepCompletion env store).2.currentTask = some task ∧
      (handleStepCompletion env store).1.taskComplete = some true := by
  have hdone : store.getCurrentStep + 1 ≥ task.plan.steps.length := by omega
  refine ⟨summarizeTask env.now
    { task with completedSteps := some (task.completedSteps.getD [] ++ [store.getCurrentStep]) },
    rfl, rfl, ?_, ?_, ?_, ?_, ?_⟩
  all_goals
    unfold handleStepCompletion
    simp only [SessionStore.getCurrentTask, htask, htabs, hdone, hctx, if_true]
  · simp [SessionStore.setCurrentStep, SessionStore.addCompletedTask,
      SessionStore.getCompletedTasks]
  · simp only [SessionStore.setCurrentStep, SessionStore.addCompletedTask,
      SessionStore.getCompletedTasks, Option.getD_some]
    exact pushBounded_getLast 10 _ _ (by decide)
  · simp [SessionStore.setCurrentStep]
  · simp [SessionStore.setCurrentStep, SessionStore.addCompletedTask, htask]
  · simp [StepResponse.taskComplete]

theorem last_step_archives_witness :
    ∃ summary : TaskSummary,
      summary.prompt = "create S3 bucket" ∧
      summary.stepCount = 1 ∧
      (handleStepCompletion freshEnv demoStore).2.getCompletedTasks
        = pushBounded 10 demoStore.getCompletedTasks summary ∧
      (handleStepCompletion freshEnv demoStore).2.getCompletedTasks.getLast? = some summary ∧
      (handleStepCompletion freshEnv demoStore).2.currentStep = some 0 ∧
      (handleStepCompletion freshEnv demoStore).2.currentTask = demoStore.currentTask ∧
      (handleStepCompletion freshEnv demoStore).1.taskComplete = some true :=
  last_step_archives freshEnv demoStore _ 7 [] true (by rfl) (by decide) (by rfl) (by decide)

/-- C6: on a completed-task log of at most 10 entries, `addCompletedTask` leaves
`min (n + 1) 10` entries: the new summary at the end, and before it the
previous entries in their order, without the oldest one when there were 10. -/
theorem addCompletedTask_fifo (s : SessionStore) (now : String) (task : Task)
    (h : s.getCompletedTasks.length ≤ 10) :
    (s.addCompletedTask now task).getCompletedTasks.length
        = min (s.getCompletedTasks.length + 1) 10 ∧
      (s.addCompletedTask now task).getCompletedTasks
        = s.getCompletedTasks.drop (s.getCompletedTasks.length + 1 - 10)
            ++ [summarizeTask now task] := by
  constructor
  · simpa [SessionStore.addCompletedTask, SessionStore.getCompletedTasks] using
      pushBounded_length 10 (s.completedTasks.getD []) (summarizeTask now task) h
  · simpa [SessionStore.addCompletedTask, SessionStore.getCompletedTasks] using
      pushBounded_eq 10 (s.completedTasks.getD []) (summarizeTask now task) (by decide) h

/-- C7: on a question log of at most 20 entries, `addQuestionHistory` leaves
`min (n + 1) 20` entries: the entry of the new question at the end, and before
it the previous entries in their order, without the oldest one when there
were 20. -/
theorem addQuestionHistory_fifo (s : SessionStore) (now : String) (question : Option Json)
    (h : s.getQuestionHistory.length ≤ 20) :
    (s.addQuestionHistory now question).getQuestionHistory.length
        = min (s.getQuestionHistory.length + 1) 20 ∧
      (s.addQuestionHistory now question).getQuestionHistory
        = s.getQuestionHistory.drop (s.getQuestionHistory.length + 1 - 20)
            ++ [{ question := question, askedAt := now }] := by
  constructor
  · simpa [SessionStore.addQuestionHistory, SessionStore.getQuestionHistory] using
      pushBounded_length 20 (s.questionHistory.getD []) ⟨question, now⟩ h
  · simpa [SessionStore.addQuestionHistory, SessionStore.getQuestionHistory] using
      pushBounded_eq 20 (s.questionHistory.getD []) ⟨question, now⟩ (by decide) h

theorem addCompletedTask_fifo_witness :
    (fullStore.addCompletedTask "2025-01-02T00:00:00.000Z" demoTask).getCompletedTasks.length
        = min (fullStore.getCompletedTasks.length + 1) 10 ∧
      (fullStore.addCompletedTask "2025-01-02T00:00:00.000Z" demoTask).getCompletedTasks
        = fullStore.getCompletedTasks.drop (fullStore.getCompletedTasks.length + 1 - 10)
            ++ [summarizeTask "2025-01-02T00:00:00.000Z" demoTask] :=
  addCompletedTask_fifo fullStore "2025-01-02T00:00:00.000Z" demoTask (by decide)

theorem addQuestionHistory_fifo_witness :
    (fullStore.addQuestionHistory "2025-01-02T00:00:00.000Z"
        (some (.str "what is S3?"))).getQuestionHistory.length
        = min (fullStore.getQuestionHistory.length + 1) 20 ∧
      (fullStore.addQuestionHistory "2025-01-02T00:00:00.000Z"
        (some (.str "what is S3?"))).getQuestionHistory
        = fullStore.getQuestionHistory.drop (fullStore.getQuestionHistory.length + 1 - 20)
            ++ [{ question := some (.str "what is S3?"), askedAt := "2025-01-02T00:00:00.000Z" }] :=
  addQuestionHistory_fifo fullStore "2025-01-02T00:00:00.000Z" (some (.str "what is S3?"))
    (by decide)

/-! ## Properties of the normalisation -/

theorem mapType_mem (aiType : String) : mapType aiType ∈ stepTypes := by
  unfold mapType stepTypes
  split_ifs <;> simp

theorem baseStepObj_type {step : Json} {index : Nat} {so : StepObj}
    (h : baseStepObj step index = .ok so) : so.type ∈ stepTypes := by
  unfold baseStepObj at h
  cases hg : step.get "type" with
  | error e => simp [hg, bind, Except.bind] at h
  | ok ty =>
    simp only [hg, bind, Except.bind] at h
    split at h
    · simp only [pure, Except.pure, Except.ok.injEq] at h
      rw [← h]
      exact mapType_mem _
    · simp [throw, throwThe, MonadExceptOf.throw] at h

theorem bind_ok {ε α β : Type} {x : Except ε α} {f : α → Except ε β} {b : β}
    (h : x >>= f = .ok b) : ∃ a, x = .ok a ∧ f a = .ok b := by
  cases x with
  | error e => simp [bind, Except.bind] at h
  | ok a => exact ⟨a, rfl, h⟩

theorem pure_ok {ε α : Type} {a b : α} (h : (pure a : Except ε α) = .ok b) : a = b := by
  simpa [pure, Except.pure] using h

theorem applyFormField_type {step : Json} {so so' : StepObj}
    (h : applyFormField step so = .ok so') : so'.type = so.type := by
  unfold applyFormField at h
  have h1 : (match formFieldProp step "recommendation" with
        | some r => if (!so.details.truthy && r.truthy) = true then { so with details := r } else so
        | none => so).type = so.type := by
    split
    · split <;> rfl
    · rfl
  generalize (match formFieldProp step "recommendation" with
        | some r => if (!so.details.truthy && r.truthy) = true then { so with details := r } else so
        | none => so) = so1 at h h1
  simp only [] at h
  split at h
  · split at h
    · obtain ⟨inc, _, h⟩ := bind_ok h
      split at h
      · rw [← pure_ok h, h1]
      · obtain ⟨d, _, h⟩ := bind_ok h
        obtain ⟨l, _, h⟩ := bind_ok h
        rw [← pure_ok h]
        exact h1
    · rw [← pure_ok h, h1]
  · rw [← pure_ok h, h1]

theorem applyActions_type {step : Json} {so so' : StepObj}
    (h : applyActions step so = .ok so') (hso : so.type ∈ stepTypes) : so'.type ∈ stepTypes := by
  unfold applyActions at h
  split at h
  · simp only [bind, Except.bind, pure, Except.pure] at h
    split at h
    · simp at h
    · simp only [Except.ok.injEq] at h
      rw [← h]
      simp only [stepTypes]
      split <;> simp
  · simp only [pure, Except.pure, Except.ok.injEq] at h
    rw [← h]
    exact hso

theorem applyElement_type (step : Json) (so : StepObj) : (applyElement step so).type = so.type := by
  unfold applyElement
  split
  · split <;> rfl
  · rfl

theorem wrapExecutionSteps_type (so : StepObj) : (wrapExecutionSteps so).type = so.type := by
  unfold wrapExecutionSteps
  split <;> rfl

theorem mapStep_type {step : Json} {index : Nat} {so : StepObj}
    (h : mapStep step index = .ok so) : so.type ∈ stepTypes := by
  unfold mapStep at h
  cases h1 : baseStepObj step index with
  | error e => simp [h1, bind, Except.bind] at h
  | ok so1 =>
    cases h2 : applyFormField step so1 with
    | error e => simp [h1, h2, bind, Except.bind] at h
    | ok so2 =>
      cases h3 : applyActions step so2 with
      | error e => simp [h1, h2, h3, bind, Except.bind] at h
      | ok so3 =>
        simp only [h1, h2, h3, bind, Except.bind, pure, Except.pure, Except.ok.injEq] at h
        rw [← h, wrapExecutionSteps_type, applyElement_type]
        apply applyActions_type h3
        rw [applyFormField_type h2]
        exact baseStepObj_type h1

theorem mapSteps_type {steps : List Json} {index : Nat} {sos : List StepObj}
    (h : mapSteps steps index = .ok sos) : ∀ so ∈ sos, so.type ∈ stepTypes := by
  induction steps generalizing index sos with
  | nil =>
    simp only [mapSteps, pure, Except.pure, Except.ok.injEq] at h
    rw [← h]
    simp
  | cons step rest ih =>
    unfold mapSteps at h
    cases h1 : mapStep step index with
    | error e => simp [h1, bind, Except.bind] at h
    | ok so1 =>
      cases h2 : mapSteps rest (index + 1) with
      | error e => simp [h1, h2, bind, Except.bind] at h
      | ok sos1 =>
        simp only [h1, h2, bind, Except.bind, pure, Except.pure, Except.ok.injEq] at h
        rw [← h]
        intro so hso
        rcases List.mem_cons.mp hso with rfl | hmem
        · exact mapStep_type h1
        · exact ih h2 so hmem

theorem transform_steps {parsed : Json} {plan : Plan}
    (h : transformToExpectedFormat parsed = .ok plan) :
    ∃ sos : List StepObj, plan.steps = sos.map StepObj.toJson ∧
      ∀ so ∈ sos, so.type ∈ stepTypes := by
  unfold transformToExpectedFormat at h
  obtain ⟨stepsProp, _, h⟩ := bind_ok h
  obtain ⟨sos, hsos, h⟩ := bind_ok h
  refine ⟨sos, by rw [← pure_ok h], ?_⟩
  unfold normalizeSteps at hsos
  split at hsos
  · exact mapSteps_type hsos
  · rw [← pure_ok hsos]
    simp

/-- C9: whatever parsed object the oracle supplied, every step of the plan that
`transformToExpectedFormat` returns has a `type` that is one of `verification`,
`navigation`, `form_field`, `instruction`, `await_user_action`. -/
theorem transform_step_types_closed (parsed : Json) (plan : Plan)
    (h : transformToExpectedFormat parsed = .ok plan) :
    ∀ step ∈ plan.steps, ∃ t ∈ stepTypes, step.prop "type" = some (.str t) := by
  obtain ⟨sos, hsteps, htypes⟩ := transform_steps h
  intro step hstep
  rw [hsteps] at hstep
  obtain ⟨so, hso, rfl⟩ := List.mem_map.mp hstep
  exact ⟨so.type, htypes so hso, by simp [StepObj.toJson, Json.prop, lookupField]⟩

theorem transform_step_types_closed_witness :
    transformToExpectedFormat twoNavigations = .ok twoNavigationsPlan ∧
      ∀ step ∈ twoNavigationsPlan.steps, ∃ t ∈ stepTypes, step.prop "type" = some (.str t) :=
  ⟨by decide, transform_step_types_closed twoNavigations twoNavigationsPlan (by decide)⟩

/-- C10, at the failing input: two consecutive steps labelled `Navigation` both
pass the filter for duplicates, which compares the raw label with `navigation`,
and both come out with type `navigation`; labelled `navigation` exactly, the
second one is dropped. -/
theorem duplicate_navigation_kept :
    (transformToExpectedFormat twoNavigations).map Plan.stepTypes
        = .ok [some (.str "navigation"), some (.str "navigation")] ∧
      (transformToExpectedFormat twoExactNavigations).map Plan.stepTypes
        = .ok [some (.str "navigation")] := by
  decide

/-- C8, at the failing input: normalising the answer with two `Navigation`
steps gives a plan of two steps, and normalising that plan again gives a plan of
one step, so the second pass does not return what it was given. -/
theorem transform_second_pass_differs :
    (transformToExpectedFormat twoNavigations).map (fun p => p.steps.length) = .ok 2 ∧
      ((transformToExpectedFormat twoNavigations >>= fun p =>
          transformToExpectedFormat p.toJson).map fun p => p.steps.length) = .ok 1 ∧
      (transformToExpectedFormat twoNavigations >>= fun p =>
          transformToExpectedFormat p.toJson) ≠ transformToExpectedFormat twoNavigations := by
  decide

/-! ## Properties of the response parser and of the message router -/

theorem parseAIResponse_after_two_failures (response : String) (e1 e2 : JsError)
    (h1 : firstAttempt response = .error e1) (h2 : secondAttempt response = .error e2) :
    parseAIResponse response = .error (.referenceError "repairedJson") := by
  unfold parseAIResponse
  rw [h1, h2]
  rfl

/-- C1, at the failing input: for an answer in prose, both parse attempts end in
a `SyntaxError`, and `parseAIResponse` then throws a `ReferenceError` from its
`catch` block instead of returning a plan. -/
theorem parseAIResponse_throws :
    firstAttempt "I cannot help with that." = .error .syntaxError ∧
      secondAttempt "I cannot help with that." = .error .syntaxError ∧
      parseAIResponse "I cannot help with that." = .error (.referenceError "repairedJson") := by
  decide

/-- C2, at the failing input: for an answer that names Lambda and has no JSON
in it, both parse attempts fail, and `parseAIResponse` does not return the
fallback plan for Lambda but throws a `ReferenceError`. -/
theorem parseAIResponse_no_fallback :
    firstAttempt "Open the Lambda console first." = .error .syntaxError ∧
      secondAttempt "Open the Lambda console first." = .error .syntaxError ∧
      fallbackServiceName "Open the Lambda console first." = "Lambda" ∧
      parseAIResponse "Open the Lambda console first."
        ≠ .ok (fallbackPlan "Open the Lambda console first.") ∧
      parseAIResponse "Open the Lambda console first."
        = .error (.referenceError "repairedJson") := by
  decide

/-- C3, at the failing input: whatever the handlers do, a message of type
`ADAPT_PLAN` makes `handleMessage` reject with a `ReferenceError` (the name
`data` is not declared), so no response object is sent. -/
theorem adaptPlan_message_rejects (h : Handlers) (data : Option Json) (tabId : Option Nat)
    (sender : Sender) :
    handleMessage h { type := "ADAPT_PLAN", data := data, tabId := tabId } sender
      = .error (.referenceError "data") := by
  rfl

/-! ## The steps of a normalised plan, one by one -/

theorem baseStepObj_fields {step : Json} {index : Nat} {so : StepObj}
    (h : baseStepObj step index = .ok so) :
    (∀ t, step.prop "type" = some (.str t) → so.type = mapType (toLowerCase t)) ∧
      so.executionSteps.truthy = true := by
  unfold baseStepObj at h
  obtain ⟨ty, hty, h⟩ := bind_ok h
  split at h
  · rename_i t
    have hso := pure_ok h
    subst hso
    constructor
    · intro t' ht'
      cases step <;> simp [Json.get] at hty <;> simp_all
    · simp only [orElse]
      split
      · split
        · assumption
        · rfl
      · rfl
  · simp [throw, throwThe, MonadExceptOf.throw] at h

theorem applyFormField_executionSteps {step : Json} {so so' : StepObj}
    (h : applyFormField step so = .ok so') : so'.executionSteps = so.executionSteps := by
  unfold applyFormField at h
  have h1 : (match formFieldProp step "recommendation" with
        | some r => if (!so.details.truthy && r.truthy) = true then { so with details := r } else so
        | none => so).executionSteps = so.executionSteps := by
    split
    · split <;> rfl
    · rfl
  generalize (match formFieldProp step "recommendation" with
        | some r => if (!so.details.truthy && r.truthy) = true then { so with details := r } else so
        | none => so) = so1 at h h1
  simp only [] at h
  split at h
  · split at h
    · obtain ⟨inc, _, h⟩ := bind_ok h
      split at h
      · rw [← pure_ok h, h1]
      · obtain ⟨d, _, h⟩ := bind_ok h
        obtain ⟨l, _, h⟩ := bind_ok h
        rw [← pure_ok h]
        exact h1
    · rw [← pure_ok h, h1]
  · rw [← pure_ok h, h1]

theorem applyActions_fields {step : Json} {so so' : StepObj}
    (h : applyActions step so = .ok so') :
    so'.executionSteps = so.executionSteps ∧
      ((∀ a rest, step.prop "actions" ≠ some (.arr (a :: rest))) → so'.type = so.type) := by
  unfold applyActions at h
  split at h
  · rename_i firstAction rest hact
    obtain ⟨css, _, h⟩ := bind_ok h
    rw [← pure_ok h]
    exact ⟨rfl, fun hno => absurd hact (hno _ _)⟩
  · rw [← pure_ok h]
    exact ⟨rfl, fun _ => rfl⟩

theorem wrapExecutionSteps_isArray (so : StepObj) (h : so.executionSteps.truthy = true) :
    ∃ ys, (wrapExecutionSteps so).executionSteps = .arr ys := by
  unfold wrapExecutionSteps
  split
  · exact ⟨_, rfl⟩
  · rename_i hc
    cases hes : so.executionSteps <;> simp_all [Json.isArray]

theorem wrapExecutionSteps_element (so : StepObj) :
    (wrapExecutionSteps so).element = so.element := by
  unfold wrapExecutionSteps
  split <;> rfl

theorem applyElement_element (step : Json) (so : StepObj) :
    (applyElement step so).element =
      match step.prop "element" with
      | some e => if e.truthy then (if e.isArray then e else .arr [e]) else .arr []
      | none => .arr [] := by
  unfold applyElement
  split
  · split <;> rfl
  · rfl

theorem applyElement_executionSteps (step : Json) (so : StepObj) :
    (applyElement step so).executionSteps = so.executionSteps := by
  unfold applyElement
  split
  · split <;> rfl
  · rfl

/-- What the mapping callback makes of one step. -/
theorem mapStep_fields {step : Json} {index : Nat} {so : StepObj}
    (h : mapStep step index = .ok so) :
    (∀ t, step.prop "type" = some (.str t) →
        (∀ a rest, step.prop "actions" ≠ some (.arr (a :: rest))) →
        so.type = mapType (toLowerCase t)) ∧
      (so.element = match step.prop "element" with
        | some e => if e.truthy then (if e.isArray then e else .arr [e]) else .arr []
        | none => .arr []) ∧
      ∃ ys, so.executionSteps = .arr ys := by
  unfold mapStep at h
  obtain ⟨so1, h1, h⟩ := bind_ok h
  obtain ⟨so2, h2, h⟩ := bind_ok h
  obtain ⟨so3, h3, h⟩ := bind_ok h
  have hso := pure_ok h
  subst hso
  have hb := baseStepObj_fields h1
  have ha := applyActions_fields h3
  refine ⟨?_, ?_, ?_⟩
  · intro t ht hno
    rw [wrapExecutionSteps_type, applyElement_type, ha.2 hno, applyFormField_type h2]
    exact hb.1 t ht
  · rw [wrapExecutionSteps_element, applyElement_element]
  · apply wrapExecutionSteps_isArray
    rw [applyElement_executionSteps, ha.1, applyFormField_executionSteps h2]
    exact hb.2

theorem mapSteps_forall₂ {steps : List Json} {index : Nat} {sos : List StepObj}
    (h : mapSteps steps index = .ok sos) :
    List.Forall₂ (fun step so => ∃ i, mapStep step i = .ok so) steps sos := by
  induction steps generalizing index sos with
  | nil =>
    simp only [mapSteps] at h
    rw [← pure_ok h]
    exact List.Forall₂.nil
  | cons step rest ih =>
    unfold mapSteps at h
    obtain ⟨so1, h1, h⟩ := bind_ok h
    obtain ⟨sos1, h2, h⟩ := bind_ok h
    rw [← pure_ok h]
    exact List.Forall₂.cons ⟨index, h1⟩ (ih h2)

theorem forall₂_mem_right {α β : Type} {R : α → β → Prop} {l₁ : List α} {l₂ : List β}
    (h : List.Forall₂ R l₁ l₂) {b : β} (hb : b ∈ l₂) : ∃ a ∈ l₁, R a b := by
  induction h with
  | nil => simp at hb
  | cons hab _ ih =>
    rcases List.mem_cons.mp hb with rfl | hb
    · exact ⟨_, List.mem_cons_self _ _, hab⟩
    · obtain ⟨a, ha, hr⟩ := ih hb
      exact ⟨a, List.mem_cons_of_mem _ ha, hr⟩

/-- The steps of the plan are the images of the steps that pass the filter, in
the same order. -/
theorem transform_steps_forall₂ {parsed : Json} {plan : Plan} {raw : List Json}
    (h : transformToExpectedFormat parsed = .ok plan)
    (hraw : parsed.get "steps" = .ok (some (.arr raw))) :
    List.Forall₂ (fun step out => ∃ i so, mapStep step i = .ok so ∧ out = so.toJson)
      (filterSteps raw false) plan.steps := by
  unfold transformToExpectedFormat at h
  obtain ⟨stepsProp, hget, h2⟩ := bind_ok h
  obtain ⟨sos, hsos, h3⟩ := bind_ok h2
  rw [hraw] at hget
  injection hget with hget
  subst hget
  rw [← pure_ok h3]
  simp only [normalizeSteps] at hsos
  rw [List.forall₂_map_right_iff]
  exact (mapSteps_forall₂ hsos).imp fun _ _ ⟨i, hi⟩ => ⟨i, _, hi, rfl⟩

theorem transform_steps_mapped {parsed : Json} {plan : Plan}
    (h : transformToExpectedFormat parsed = .ok plan) :
    ∀ out ∈ plan.steps, ∃ step i so, mapStep step i = .ok so ∧ out = so.toJson := by
  unfold transformToExpectedFormat at h
  obtain ⟨stepsProp, hget, h⟩ := bind_ok h
  obtain ⟨sos, hsos, h⟩ := bind_ok h
  rw [← pure_ok h]
  intro out hout
  obtain ⟨so, hso, rfl⟩ := List.mem_map.mp hout
  unfold normalizeSteps at hsos
  split at hsos
  · obtain ⟨step, _, i, hi⟩ := forall₂_mem_right (mapSteps_forall₂ hsos) hso
    exact ⟨step, i, so, hi, rfl⟩
  · rw [← pure_ok hsos] at hso
    simp at hso

theorem filterSteps_mem {raw : List Json} {step : Json} (hmem : step ∈ raw)
    (hstep : step.truthy = true) (hty : truthy? (step.prop "type") = true)
    (hnav : isStr (step.prop "type") "navigation" = false) (b : Bool) :
    step ∈ filterSteps raw b := by
  induction raw generalizing b with
  | nil => simp at hmem
  | cons x rest ih =>
    unfold filterSteps
    rcases List.mem_cons.mp hmem with rfl | hrest
    · simp [hstep, hty, hnav]
    · split
      · exact ih hrest _
      · split
        · split
          · exact ih hrest _
          · exact List.mem_cons_of_mem _ (ih hrest _)
        · exact List.mem_cons_of_mem _ (ih hrest _)

theorem mapType_verification (l : String)
    (hpos : includes l "verify" = true ∨ includes l "verification" = true
      ∨ includes l "success" = true)
    (hneg : ∀ w ∈ ["navigation", "input", "form", "config", "selection", "action", "click",
      "create", "initiated_action"], includes l w = false) :
    mapType l = "verification" := by
  have h1 := hneg "navigation" (by simp)
  have h2 := hneg "input" (by simp)
  have h3 := hneg "form" (by simp)
  have h4 := hneg "config" (by simp)
  have h5 := hneg "selection" (by simp)
  have h6 := hneg "action" (by simp)
  have h7 := hneg "click" (by simp)
  have h8 := hneg "create" (by simp)
  have h9 := hneg "initiated_action" (by simp)
  unfold mapType
  simp only [h1, h2, h3, h4, h5, h6, h7, h8, h9]
  rcases hpos with h | h | h <;> simp [h]

/-- C11, counterexample: of two steps whose labels `verify_configuration` and
`verification` contain `verify` or `verification`, the first comes out with
type `form_field` (the label also contains `config`, which is tested before)
and the second, which has an `actions` list, with type `await_user_action`. -/
theorem verification_label_overridden :
    includes (toLowerCase "verify_configuration") "verify" = true ∧
      includes (toLowerCase "verification") "verification" = true ∧
      (transformToExpectedFormat verifyLabelled).map Plan.stepTypes
        = .ok [some (.str "form_field"), some (.str "await_user_action")] := by
  decide

/-- C11, amended: when `transformToExpectedFormat` returns a plan for an answer
whose `steps` is a list, every step of that list whose type label contains
`verify`, `verification` or `success` (compared without case) passes the
filter, and a step that passed the filter comes out with type `verification`
when, moreover, its lower-cased label contains none of `navigation`, `input`,
`form`, `config`, `selection`, `action`, `click`, `create`, `initiated_action`
and it has no non-empty `actions` list. -/
theorem verification_label_maps (parsed : Json) (raw : List Json) (plan : Plan)
    (hraw : parsed.get "steps" = .ok (some (.arr raw)))
    (h : transformToExpectedFormat parsed = .ok plan) :
    (∀ step ∈ raw, ∀ t, step.prop "type" = some (.str t) →
        (includes (toLowerCase t) "verify" = true ∨ includes (toLowerCase t) "verification" = true
          ∨ includes (toLowerCase t) "success" = true) →
        step ∈ filterSteps raw false) ∧
      List.Forall₂ (fun step out => ∀ t, step.prop "type" = some (.str t) →
          (includes (toLowerCase t) "verify" = true
            ∨ includes (toLowerCase t) "verification" = true
            ∨ includes (toLowerCase t) "success" = true) →
          (∀ w ∈ ["navigation", "input", "form", "config", "selection", "action", "click",
            "create", "initiated_action"], includes (toLowerCase t) w = false) →
          (∀ a rest, step.prop "actions" ≠ some (.arr (a :: rest))) →
          out.prop "type" = some (.str "verification"))
        (filterSteps raw false) plan.steps := by
  constructor
  · intro step hmem t ht hpos
    have hobj : step.truthy = true := by
      cases step <;> simp [Json.prop] at ht
      rfl
    have htne : t ≠ "" := by
      rintro rfl
      revert hpos
      decide
    have htnav : t ≠ "navigation" := by
      rintro rfl
      revert hpos
      decide
    apply filterSteps_mem hmem hobj
    · simp [ht, truthy?, Json.truthy, htne]
    · simp [ht, isStr, htnav]
  · refine (transform_steps_forall₂ h hraw).imp ?_
    rintro step out ⟨i, so, hso, rfl⟩ t ht hpos hneg hno
    have hty := (mapStep_fields hso).1 t ht hno
    rw [mapType_verification _ hpos hneg] at hty
    simp [StepObj.toJson, Json.prop, lookupField, hty]

theorem verification_label_maps_witness :
    checkedAnswer.get "steps" = .ok (some (.arr checkedSteps)) ∧
      transformToExpectedFormat checkedAnswer = .ok checkedPlan ∧
      ((∀ step ∈ checkedSteps, ∀ t, step.prop "type" = some (.str t) →
        (includes (toLowerCase t) "verify" = true ∨ includes (toLowerCase t) "verification" = true
          ∨ includes (toLowerCase t) "success" = true) →
        step ∈ filterSteps checkedSteps false) ∧
      List.Forall₂ (fun step out => ∀ t, step.prop "type" = some (.str t) →
          (includes (toLowerCase t) "verify" = true
            ∨ includes (toLowerCase t) "verification" = true
            ∨ includes (toLowerCase t) "success" = true) →
          (∀ w ∈ ["navigation", "input", "form", "config", "selection", "action", "click",
            "create", "initiated_action"], includes (toLowerCase t) w = false) →
          (∀ a rest, step.prop "actions" ≠ some (.arr (a :: rest))) →
          out.prop "type" = some (.str "verification"))
        (filterSteps checkedSteps false) checkedPlan.steps) :=
  ⟨by decide, by decide,
    verification_label_maps checkedAnswer checkedSteps checkedPlan (by decide) (by decide)⟩

/-- C20: every step of a plan that `transformToExpectedFormat` returns has
arrays as `element` and as `executionSteps`; and when the `steps` of the answer
is a list, the step made of a step that passed the filter has as `element` the
one-element array of a bare non-empty selector string, an array as it was
given, and the empty array when the step has no `element` or an empty one. -/
theorem transform_element_arrays (parsed : Json) (plan : Plan)
    (h : transformToExpectedFormat parsed = .ok plan) :
    (∀ out ∈ plan.steps, (∃ xs, out.prop "element" = some (.arr xs)) ∧
        ∃ ys, out.prop "executionSteps" = some (.arr ys)) ∧
      ∀ raw, parsed.get "steps" = .ok (some (.arr raw)) →
        List.Forall₂ (fun step out =>
            (∀ s, s ≠ "" → step.prop "element" = some (.str s) →
              out.prop "element" = some (.arr [.str s])) ∧
            (∀ xs, step.prop "element" = some (.arr xs) →
              out.prop "element" = some (.arr xs)) ∧
            (step.prop "element" = none ∨ step.prop "element" = some (.str "") →
              out.prop "element" = some (.arr [])))
          (filterSteps raw false) plan.steps := by
  constructor
  · intro out hout
    obtain ⟨step, i, so, hso, rfl⟩ := transform_steps_mapped h out hout
    obtain ⟨_, hel, ys, hys⟩ := mapStep_fields hso
    refine ⟨?_, ys, by simp [StepObj.toJson, Json.prop, lookupField, hys]⟩
    have hprop : so.toJson.prop "element" = some so.element := by
      simp [StepObj.toJson, Json.prop, lookupField]
    rw [hprop, hel]
    split
    · rename_i e _
      split
      · split
        · cases e <;> simp_all [Json.isArray]
        · exact ⟨_, rfl⟩
      · exact ⟨_, rfl⟩
    · exact ⟨_, rfl⟩
  · intro raw hraw
    refine (transform_steps_forall₂ h hraw).imp ?_
    rintro step out ⟨i, so, hso, rfl⟩
    obtain ⟨_, hel, _⟩ := mapStep_fields hso
    have hprop : so.toJson.prop "element" = some so.element := by
      simp [StepObj.toJson, Json.prop, lookupField]
    rw [hprop, hel]
    refine ⟨?_, ?_, ?_⟩
    · intro s hs he
      simp [he, Json.truthy, Json.isArray, hs]
    · intro xs he
      simp [he, Json.truthy, Json.isArray]
    · rintro (he | he) <;> simp [he, Json.truthy]

theorem transform_element_arrays_witness :
    transformToExpectedFormat checkedAnswer = .ok checkedPlan ∧
      ((∀ out ∈ checkedPlan.steps, (∃ xs, out.prop "element" = some (.arr xs)) ∧
        ∃ ys, out.prop "executionSteps" = some (.arr ys)) ∧
      ∀ raw, checkedAnswer.get "steps" = .ok (some (.arr raw)) →
        List.Forall₂ (fun step out =>
            (∀ s, s ≠ "" → step.prop "element" = some (.str s) →
              out.prop "element" = some (.arr [.str s])) ∧
            (∀ xs, step.prop "element" = some (.arr xs) →
              out.prop "element" = some (.arr xs)) ∧
            (step.prop "element" = none ∨ step.prop "element" = some (.str "") →
              out.prop "element" = some (.arr [])))
          (filterSteps raw false) checkedPlan.steps) :=
  ⟨by decide, transform_element_arrays checkedAnswer checkedPlan (by decide)⟩

/-! ## Properties of the adaptation heuristic -/

theorem criticalErrors_pos (errors : List PageError) :
    (criticalErrors errors).length > 0 ↔
      ∃ e ∈ errors, e.type = "error" ∧ includes (toLowerCase e.message) "warning" = false := by
  unfold criticalErrors
  induction errors with
  | nil => simp
  | cons e rest ih =>
    rw [List.filter_cons]
    split
    · rename_i he
      simp only [Bool.and_eq_true, beq_iff_eq, Bool.not_eq_true'] at he
      simp only [List.length_cons, gt_iff_lt, Nat.zero_lt_succ, true_iff]
      exact ⟨e, List.mem_cons_self _ _, he⟩
    · rename_i he
      simp only [Bool.and_eq_true, beq_iff_eq, Bool.not_eq_true'] at he
      rw [ih]
      constructor
      · rintro ⟨x, hx, hp⟩
        exact ⟨x, List.mem_cons_of_mem _ hx, hp⟩
      · rintro ⟨x, hx, hp⟩
        rcases List.mem_cons.mp hx with rfl | hx
        · exact absurd hp he
        · exact ⟨x, hx, hp⟩

theorem checkSignificantPageChange_iff (oldTitle newTitle userPrompt : String) :
    checkSignificantPageChange oldTitle newTitle userPrompt = true ↔
      oldTitle ≠ newTitle ∧ isMinorChange oldTitle newTitle = false := by
  unfold checkSignificantPageChange checkIfPageActuallyChanged
  simp [orEmpty]

/-- When `checkIfPlanNeedsAdaptation` answers `true`. -/
theorem needsAdaptation_iff (task : AdaptationTask) (currentContext : PageContext)
    (nextStepIndex : Nat) :
    checkIfPlanNeedsAdaptation task currentContext nextStepIndex = true ↔
      task.currentContext = none ∨ ∃ prior, task.currentContext = some prior ∧
        ((strTruthy prior.service = true ∧ strTruthy currentContext.service = true
            ∧ prior.service ≠ currentContext.service) ∨
          (orEmpty prior.url ≠ orEmpty currentContext.url
            ∧ (orEmpty currentContext.url).length > 0
            ∧ includes (orEmpty prior.url) (beforeQuery (orEmpty currentContext.url)) = false
            ∧ includes (orEmpty currentContext.url) (beforeQuery (orEmpty prior.url)) = false) ∨
          (orEmpty prior.pageTitle ≠ orEmpty currentContext.pageTitle
            ∧ (orEmpty currentContext.pageTitle).length > 0
            ∧ (checkExpectedProgression (orEmpty prior.pageTitle)
                  (orEmpty currentContext.pageTitle) task.userPrompt = true
              ∨ isMinorChange (orEmpty prior.pageTitle) (orEmpty currentContext.pageTitle)
                  = false)) ∨
          ∃ e ∈ currentContext.errors.getD [], e.type = "error"
            ∧ includes (toLowerCase e.message) "warning" = false) := by
  unfold checkIfPlanNeedsAdaptation
  cases hprior : task.currentContext with
  | none => simp
  | some prior =>
    simp only [Option.some.injEq, exists_eq_left', false_or, reduceCtorEq]
    have hsig := checkSignificantPageChange_iff (orEmpty prior.pageTitle)
      (orEmpty currentContext.pageTitle) task.userPrompt
    have hcrit := criticalErrors_pos (currentContext.errors.getD [])
    have hpos : (criticalErrors (currentContext.errors.getD [])).length > 0 →
        (currentContext.errors.getD []).length > 0 := fun hc =>
      Nat.lt_of_lt_of_le hc (List.length_filter_le _ _)
    rw [← hcrit]
    clear hcrit hprior
    simp only [Bool.and_eq_true, bne_iff_ne, ne_eq, decide_eq_true_eq, Bool.not_eq_true', hsig]
    clear hsig
    generalize strTruthy prior.service = a1 at *
    generalize strTruthy currentContext.service = a2 at *
    generalize prior.service = s1 at *
    generalize currentContext.service = s2 at *
    generalize orEmpty prior.url = u1 at *
    generalize orEmpty currentContext.url = u2 at *
    generalize orEmpty prior.pageTitle = t1 at *
    generalize orEmpty currentContext.pageTitle = t2 at *
    generalize (criticalErrors (currentContext.errors.getD [])).length = n1 at *
    generalize (currentContext.errors.getD []).length = n2 at *
    generalize includes u1 (beforeQuery u2) = i1 at *
    generalize includes u2 (beforeQuery u1) = i2 at *
    generalize checkExpectedProgression t1 t2 task.userPrompt = p1 at *
    generalize isMinorChange t1 t2 = m1 at *
    generalize u2.length = l1 at *
    generalize t2.length = l2 at *
    split_ifs with h1 h2 h3 h4 h5
    · simp only [true_iff]
      exact Or.inl ⟨h1.1.1, h1.1.2, h1.2⟩
    · simp only [true_iff]
      exact Or.inr (Or.inl ⟨h2.1.1, h2.1.2, h2.2.1, h2.2.2⟩)
    · simp only [true_iff]
      exact Or.inr (Or.inr (Or.inl ⟨h3.1.1, h3.1.2, Or.inl h3.2⟩))
    · simp only [true_iff]
      exact Or.inr (Or.inr (Or.inr h4.2))
    · simp only [true_iff]
      exact Or.inr (Or.inr (Or.inl ⟨h5.1.1, h5.1.2, Or.inr h5.2.2⟩))
    · simp only [Bool.false_eq_true, false_iff]
      rintro (⟨ha, hb, hc⟩ | ⟨ha, hb, hc, hd⟩ | ⟨ha, hb, hc | hc⟩ | hc)
      · exact h1 ⟨⟨ha, hb⟩, hc⟩
      · exact h2 ⟨⟨ha, hb⟩, hc, hd⟩
      · exact h3 ⟨⟨ha, hb⟩, hc⟩
      · exact h5 ⟨⟨ha, hb⟩, ha, hc⟩
      · exact h4 ⟨hpos hc, hc⟩

/-- C12, counterexample: service, address and errors are as before, the title
changes from `Buckets` to `Access Points`, which no progression pattern
matches, and `checkIfPlanNeedsAdaptation` answers `true`. -/
theorem other_title_change_adapts :
    bucketTask.currentContext = some bucketsContext ∧
      bucketsContext.service = accessPointsContext.service ∧
      bucketsContext.url = accessPointsContext.url ∧
      checkExpectedProgression "Buckets" "Access Points" bucketTask.userPrompt = false ∧
      accessPointsContext.errors = some [] ∧
      checkIfPlanNeedsAdaptation bucketTask accessPointsContext 1 = true := by
  decide

/-- C12, amended: `checkIfPlanNeedsAdaptation` answers `true` exactly when the
task has no prior context; or both service names are non-empty and differ; or
the address changed to a non-empty one and neither address contains the
other one up to its `?`; or the title changed to a non-empty one and either a
progression pattern matches the two titles and the prompt or the change is not
minor (no word of `step`, `page`, `review`, `confirm`, `summary` is in the new
title with its first three letters in the old one); or the snapshot has an
entry of type `error` whose message does not contain `warning`. -/
theorem adaptation_iff (task : AdaptationTask) (currentContext : PageContext)
    (nextStepIndex : Nat) :
    checkIfPlanNeedsAdaptation task currentContext nextStepIndex = true ↔
      task.currentContext = none ∨ ∃ prior, task.currentContext = some prior ∧
        ((strTruthy prior.service = true ∧ strTruthy currentContext.service = true
            ∧ prior.service ≠ currentContext.service) ∨
          (orEmpty prior.url ≠ orEmpty currentContext.url
            ∧ (orEmpty currentContext.url).length > 0
            ∧ includes (orEmpty prior.url) (beforeQuery (orEmpty currentContext.url)) = false
            ∧ includes (orEmpty currentContext.url) (beforeQuery (orEmpty prior.url)) = false) ∨
          (orEmpty prior.pageTitle ≠ orEmpty currentContext.pageTitle
            ∧ (orEmpty currentContext.pageTitle).length > 0
            ∧ (checkExpectedProgression (orEmpty prior.pageTitle)
                  (orEmpty currentContext.pageTitle) task.userPrompt = true
              ∨ isMinorChange (orEmpty prior.pageTitle) (orEmpty currentContext.pageTitle)
                  = false)) ∨
          ∃ e ∈ currentContext.errors.getD [], e.type = "error"
            ∧ includes (toLowerCase e.message) "warning" = false) :=
  needsAdaptation_iff task currentContext nextStepIndex

/-- C13, counterexample: the prior snapshot has the empty text as service
name, the new one has `S3`, nothing else differs, and
`checkIfPlanNeedsAdaptation` answers `false`. -/
theorem service_change_from_empty_ignored :
    homeContext.service ≠ homeS3Context.service ∧
      checkIfPlanNeedsAdaptation
        { userPrompt := "create bucket", currentContext := some homeContext } homeS3Context 1
        = false := by
  decide

/-- C13, amended: for a task with a prior context, when the service names of
the prior context and of the new snapshot are both non-empty texts and differ,
`checkIfPlanNeedsAdaptation` answers `true`. -/
theorem service_change_adapts (task : AdaptationTask) (prior currentContext : PageContext)
    (nextStepIndex : Nat) (oldService newService : String)
    (hprior : task.currentContext = some prior)
    (hold : prior.service = some oldService) (hnew : currentContext.service = some newService)
    (holdne : oldService ≠ "") (hnewne : newService ≠ "") (hdiff : oldService ≠ newService) :
    checkIfPlanNeedsAdaptation task currentContext nextStepIndex = true := by
  refine (needsAdaptation_iff task currentContext nextStepIndex).mpr
    (Or.inr ⟨prior, hprior, Or.inl ⟨?_, ?_, ?_⟩⟩)
  · simp [strTruthy, hold, holdne]
  · simp [strTruthy, hnew, hnewne]
  · rw [hold, hnew]
    simpa using hdiff

theorem service_change_adapts_witness :
    instancesContext.service = some "EC2" ∧ bucketsContext.service = some "S3" ∧
      includes bucketTask.userPrompt "bucket" = true ∧
      checkIfPlanNeedsAdaptation { bucketTask with currentContext := some instancesContext }
        bucketsContext 1 = true :=
  ⟨rfl, rfl, by decide,
    service_change_adapts _ instancesContext bucketsContext 1 "EC2" "S3" rfl rfl rfl
      (by decide) (by decide) (by decide)⟩

/-- C14: for a task with a prior context, when service and address are as
before, the snapshot has no errors, no progression pattern matches, and one of
the words `step`, `page`, `review`, `confirm`, `summary` is in the new
(lower-cased) title with its first three letters in the old one,
`checkIfPlanNeedsAdaptation` answers `false`. -/
theorem minor_title_change_keeps_plan (task : AdaptationTask)
    (prior currentContext : PageContext) (nextStepIndex : Nat) (word : String)
    (hprior : task.currentContext = some prior)
    (hservice : prior.service = currentContext.service)
    (hurl : prior.url = currentContext.url)
    (herrors : currentContext.errors.getD [] = [])
    (hprogression : checkExpectedProgression (orEmpty prior.pageTitle)
      (orEmpty currentContext.pageTitle) task.userPrompt = false)
    (hword : word ∈ minorChangeWords)
    (hnew : includes (toLowerCase (orEmpty currentContext.pageTitle)) word = true)
    (hold : includes (toLowerCase (orEmpty prior.pageTitle)) (String.mk (word.toList.take 3))
      = true) :
    checkIfPlanNeedsAdaptation task currentContext nextStepIndex = false := by
  have hminor : isMinorChange (orEmpty prior.pageTitle) (orEmpty currentContext.pageTitle)
      = true := by
    unfold isMinorChange
    rw [List.any_eq_true]
    exact ⟨word, hword, by rw [hnew, hold]; rfl⟩
  rw [← Bool.not_eq_true]
  intro h
  rcases (needsAdaptation_iff task currentContext nextStepIndex).mp h with
    hnone | ⟨p, hp, h1 | h2 | h3 | h4⟩
  · rw [hprior] at hnone
    cases hnone
  all_goals
    rw [hprior] at hp
    injection hp with hp
    subst hp
  · exact h1.2.2 hservice
  · exact h2.1 (by rw [hurl])
  · rcases h3.2.2 with h3 | h3
    · rw [hprogression] at h3
      cases h3
    · rw [hminor] at h3
      cases h3
  · rw [herrors] at h4
    obtain ⟨e, he, _⟩ := h4
    cases he

theorem minor_title_change_keeps_plan_witness :
    stepOneContext.pageTitle = some "Create bucket - Step 1" ∧
      stepTwoContext.pageTitle = some "Create bucket - Step 2" ∧
      stepOneContext.service = stepTwoContext.service ∧
      stepOneContext.url = stepTwoContext.url ∧
      stepTwoContext.errors = some [] ∧
      checkExpectedProgression "Create bucket - Step 1" "Create bucket - Step 2"
        bucketTask.userPrompt = false ∧
      checkIfPlanNeedsAdaptation { bucketTask with currentContext := some stepOneContext }
        stepTwoContext 1 = false :=
  ⟨rfl, rfl, rfl, rfl, rfl, by decide,
    minor_title_change_keeps_plan _ stepOneContext stepTwoContext 1 "step" rfl rfl rfl rfl
      (by decide) (by decide) (by decide) (by decide)⟩

/-! ## Properties of the page observer -/

theorem distinctEntries_nodup (elements : List String) : (distinctEntries elements).Nodup := by
  unfold distinctEntries
  have hgen : ∀ (xs seen : List String), seen.Nodup →
      (xs.foldl (fun seen x => if x ∈ seen then seen else seen ++ [x]) seen).Nodup := by
    intro xs
    induction xs with
    | nil => exact fun _ h => h
    | cons x rest ih =>
      intro seen hseen
      rw [List.foldl_cons]
      apply ih
      split
      · exact hseen
      · rename_i hx
        rw [List.nodup_append]
        refine ⟨hseen, List.nodup_singleton x, ?_⟩
        intro a ha hb
        rw [List.mem_singleton] at hb
        exact hx (hb ▸ ha)
  exact hgen elements [] List.nodup_nil

/-- C19: for every page, the list `elements.summary` of the snapshot that
`detectContext` returns has at most 30 entries, and no two of them are equal. -/
theorem summary_bounded_distinct (page : KeyElementsPage) :
    (detectContextSummary page).length ≤ 30 ∧ (detectContextSummary page).Nodup := by
  unfold detectContextSummary
  split
  · rename_i summary _ hsummary _
    unfold detectKeyElementsSummary at hsummary
    split at hsummary
    · cases hsummary
    · injection hsummary with hsummary
      subst hsummary
      exact ⟨List.length_take_le _ _,
        (distinctEntries_nodup _).sublist (List.take_sublist _ _)⟩
  · exact ⟨Nat.zero_le _, List.nodup_nil⟩

theorem selectorLoop_invalid (b : Browser) (doc : Document) (items : List Json)
    (hinvalid : ∀ x ∈ items, ∃ s, x = .str s ∧ ∀ d, ∃ e, b.querySelector d s = .error e)
    (element : Option Nat) : selectorLoop b doc items element = .ok element := by
  induction items with
  | nil => rfl
  | cons x rest ih =>
    have hrest := ih fun y hy => hinvalid y (List.mem_cons_of_mem _ hy)
    obtain ⟨s, rfl, hs⟩ := hinvalid x (List.mem_cons_self _ _)
    obtain ⟨e, he⟩ := hs doc
    unfold selectorLoop
    split
    · exact hrest
    · simp only []
      split
      · exact hrest
      · rw [he]
        exact hrest

theorem selectorKeywords_strings (b : Browser) (items : List Json)
    (hstr : ∀ x ∈ items, ∃ s, x = .str s) (keywords : List String) :
    ∃ ks, selectorKeywords b items keywords = .ok ks := by
  induction items generalizing keywords with
  | nil => exact ⟨keywords, rfl⟩
  | cons x rest ih =>
    obtain ⟨s, rfl⟩ := hstr x (List.mem_cons_self _ _)
    unfold selectorKeywords
    simp only [addSelectorKeywords, pure, Except.pure, bind, Except.bind]
    exact ih (fun y hy => hstr y (List.mem_cons_of_mem _ hy)) _

theorem findElementBySmartMatch_strings (b : Browser) (doc : Document) (items : List Json)
    (hstr : ∀ x ∈ items, ∃ s, x = .str s) :
    ∃ r, findElementBySmartMatch b doc items = .ok r := by
  obtain ⟨ks, hks⟩ := selectorKeywords_strings b items hstr []
  unfold findElementBySmartMatch
  rw [hks]
  exact ⟨_, rfl⟩

/-- C17, counterexample: on a page with a visible submit button,
`highlightElement` returns `true` for the empty list of selectors and for a
list whose one entry is not a valid selector: the button is found by the
search for the most likely element, or by the keyword `button`. -/
theorem highlight_falls_back :
    plainBrowser.querySelector createPage "button[" = .error .syntaxError ∧
      (highlightElement plainBrowser ⟨createPage, none⟩ (.arr [])).1 = .ok true ∧
      (highlightElement plainBrowser ⟨createPage, none⟩ (.arr [.str "button["])).1
        = .ok true := by
  decide

theorem length_updateAt (doc : Document) (i : Nat) (f : DomElement → DomElement) :
    (updateAt doc i f).length = doc.length := by
  induction doc generalizing i with
  | nil => rfl
  | cons e rest ih =>
    cases i with
    | zero => rfl
    | succ j => simp [updateAt, ih]

theorem get?_updateAt_eq (doc : Document) (i : Nat) (f : DomElement → DomElement) :
    (updateAt doc i f).get? i = (doc.get? i).map f := by
  induction doc generalizing i with
  | nil => rfl
  | cons e rest ih =>
    cases i with
    | zero => rfl
    | succ j => simpa [updateAt] using ih j

theorem get?_updateAt_ne (doc : Document) (i j : Nat) (f : DomElement → DomElement)
    (hj : j ≠ i) : (updateAt doc i f).get? j = doc.get? j := by
  induction doc generalizing i j with
  | nil => rfl
  | cons e rest ih =>
    cases i with
    | zero =>
      cases j with
      | zero => exact absurd rfl hj
      | succ k => rfl
    | succ n =>
      cases j with
      | zero => rfl
      | succ k => simpa [updateAt] using ih n k (fun hk => hj (by rw [hk]))

theorem mem_addClass (c : String) (e : DomElement) : c ∈ (e.addClass c).classes := by
  unfold DomElement.addClass
  split
  · assumption
  · simp

theorem mem_addClass_of_mem (c d : String) (e : DomElement) (h : d ∈ e.classes) :
    d ∈ (e.addClass c).classes := by
  unfold DomElement.addClass
  split
  · exact h
  · simp [h]

/-- The state that `highlightElement` leaves when it marks the element `i` of
the cleared document: `currentHighlight` is `i`, the other elements are as they
were, and the element `i` is the one of the cleared document with the marker
class and the pulse class added. -/
theorem marked_state (doc : Document) (i : Nat) :
    (updateAt (updateAt doc i (DomElement.addClass highlightClass)) i
        (DomElement.addClass pulseClass)).length = doc.length ∧
      (∀ j, j ≠ i →
        (updateAt (updateAt doc i (DomElement.addClass highlightClass)) i
          (DomElement.addClass pulseClass)).get? j = doc.get? j) ∧
      (updateAt (updateAt doc i (DomElement.addClass highlightClass)) i
          (DomElement.addClass pulseClass)).get? i
        = (doc.get? i).map (fun e => (e.addClass highlightClass).addClass pulseClass) ∧
      ∀ e, (updateAt (updateAt doc i (DomElement.addClass highlightClass)) i
          (DomElement.addClass pulseClass)).get? i = some e →
        highlightClass ∈ e.classes ∧ pulseClass ∈ e.classes := by
  have hget : (updateAt (updateAt doc i (DomElement.addClass highlightClass)) i
        (DomElement.addClass pulseClass)).get? i
      = (doc.get? i).map (fun e => (e.addClass highlightClass).addClass pulseClass) := by
    rw [get?_updateAt_eq, get?_updateAt_eq, Option.map_map]
    rfl
  refine ⟨by rw [length_updateAt, length_updateAt], ?_, hget, ?_⟩
  · intro j hj
    rw [get?_updateAt_ne _ _ _ _ hj, get?_updateAt_ne _ _ _ _ hj]
  · intro e he
    rw [hget] at he
    cases hd : doc.get? i with
    | none => rw [hd] at he; cases he
    | some e0 =>
      rw [hd] at he
      injection he with he
      subst he
      exact ⟨mem_addClass_of_mem _ _ _ (mem_addClass _ _), mem_addClass _ _⟩

/-- C17, amended: called with a list of selectors each of which is a string
that is not a valid selector (the empty list included), `highlightElement`
does not throw; it returns `false` exactly when the keyword match (tried for
a list that is not empty) and the search for the most likely element both
find nothing on the page, and then it leaves the page with the previous
highlight cleared and nothing marked; otherwise it returns `true`, and the
element found by the keyword match, or else by the search for the most likely
element, is the current highlight and carries the marker class and the pulse
class, the other elements being as `clearHighlight` left them. -/
theorem highlight_invalid_selectors (b : Browser) (h : Highlighter) (items : List Json)
    (hinvalid : ∀ x ∈ items, ∃ s, x = .str s ∧ ∀ d, ∃ e, b.querySelector d s = .error e) :
    ∃ found, (highlightElement b h (.arr items)).1 = .ok found ∧
      (found = false ↔
        (items = [] ∨ findElementBySmartMatch b (clearHighlight h).document items = .ok none) ∧
          findMostLikelyElement b (clearHighlight h).document = none) ∧
      (found = false → (highlightElement b h (.arr items)).2 = clearHighlight h) ∧
      (found = true → ∃ i,
        ((items ≠ [] ∧
            findElementBySmartMatch b (clearHighlight h).document items = .ok (some i)) ∨
          ((items = [] ∨
              findElementBySmartMatch b (clearHighlight h).document items = .ok none) ∧
            findMostLikelyElement b (clearHighlight h).document = some i)) ∧
        (highlightElement b h (.arr items)).2.currentHighlight = some i ∧
        (highlightElement b h (.arr items)).2.document.length
          = (clearHighlight h).document.length ∧
        (∀ j, j ≠ i → (highlightElement b h (.arr items)).2.document.get? j
          = (clearHighlight h).document.get? j) ∧
        (highlightElement b h (.arr items)).2.document.get? i
          = ((clearHighlight h).document.get? i).map
              (fun e => (e.addClass highlightClass).addClass pulseClass) ∧
        ∀ e, (highlightElement b h (.arr items)).2.document.get? i = some e →
          highlightClass ∈ e.classes ∧ pulseClass ∈ e.classes) := by
  have hloop := selectorLoop_invalid b (clearHighlight h).document items hinvalid none
  obtain ⟨r, hr⟩ := findElementBySmartMatch_strings b (clearHighlight h).document items
    fun x hx => (hinvalid x hx).imp fun _ hs => hs.1
  have hmarked := marked_state (clearHighlight h).document
  unfold highlightElement findHighlightTarget
  simp only [hloop, hr]
  by_cases hlen : items.length > 0
  · have hne : items ≠ [] := List.length_pos.mp hlen
    simp only [hlen, if_true]
    cases r with
    | some i =>
      exact ⟨true, rfl, by simp [hne], by simp,
        fun _ => ⟨i, Or.inl ⟨hne, rfl⟩, rfl, hmarked i⟩⟩
    | none =>
      cases hm : findMostLikelyElement b (clearHighlight h).document with
      | some i =>
        exact ⟨true, rfl, by simp, by simp,
          fun _ => ⟨i, Or.inr ⟨Or.inr rfl, rfl⟩, rfl, hmarked i⟩⟩
      | none => exact ⟨false, rfl, by simp, fun _ => rfl, by simp⟩
  · have hnil : items = [] := List.length_eq_zero.mp (by omega)
    simp only [hlen, if_false]
    cases hm : findMostLikelyElement b (clearHighlight h).document with
    | some i =>
      exact ⟨true, rfl, by simp, by simp,
        fun _ => ⟨i, Or.inr ⟨Or.inl hnil, rfl⟩, rfl, hmarked i⟩⟩
    | none => exact ⟨false, rfl, by simp [hnil], fun _ => rfl, by simp⟩

theorem highlight_invalid_selectors_witness :
    (∀ x ∈ [Json.str "button["], ∃ s, x = .str s ∧
        ∀ d, ∃ e, plainBrowser.querySelector d s = .error e) ∧
      highlightElement plainBrowser ⟨textPage, none⟩ (.arr [.str "button["])
        = (.ok false, ⟨textPage, none⟩) ∧
      findElementBySmartMatch plainBrowser createPage [.str "button["] = .ok (some 0) ∧
      (highlightElement plainBrowser ⟨createPage, none⟩ (.arr [.str "button["])).1
        = .ok true ∧
      (highlightElement plainBrowser ⟨createPage, none⟩
          (.arr [.str "button["])).2.currentHighlight = some 0 ∧
      ((highlightElement plainBrowser ⟨createPage, none⟩
          (.arr [.str "button["])).2.document.map fun e => e.classes)
        = [["awsui-button", highlightClass, pulseClass], []] ∧
      ∃ found, (highlightElement plainBrowser ⟨createPage, none⟩ (.arr [.str "button["])).1
          = .ok found ∧
        (found = false ↔
          ([Json.str "button["] = [] ∨ findElementBySmartMatch plainBrowser
              (clearHighlight ⟨createPage, none⟩).document [.str "button["] = .ok none) ∧
            findMostLikelyElement plainBrowser (clearHighlight ⟨createPage, none⟩).document
              = none) ∧
        (found = false →
          (highlightElement plainBrowser ⟨createPage, none⟩ (.arr [.str "button["])).2
            = clearHighlight ⟨createPage, none⟩) ∧
        (found = true → ∃ i,
          (([Json.str "button["] ≠ [] ∧
              findElementBySmartMatch plainBrowser (clearHighlight ⟨createPage, none⟩).document
                [.str "button["] = .ok (some i)) ∨
            (([Json.str "button["] = [] ∨
                findElementBySmartMatch plainBrowser
                  (clearHighlight ⟨createPage, none⟩).document [.str "button["] = .ok none) ∧
              findMostLikelyElement plainBrowser (clearHighlight ⟨createPage, none⟩).document
                = some i)) ∧
          (highlightElement plainBrowser ⟨createPage, none⟩
            (.arr [.str "button["])).2.currentHighlight = some i ∧
          (highlightElement plainBrowser ⟨createPage, none⟩
              (.arr [.str "button["])).2.document.length
            = (clearHighlight ⟨createPage, none⟩).document.length ∧
          (∀ j, j ≠ i →
            (highlightElement plainBrowser ⟨createPage, none⟩
                (.arr [.str "button["])).2.document.get? j
              = (clearHighlight ⟨createPage, none⟩).document.get? j) ∧
          (highlightElement plainBrowser ⟨createPage, none⟩
              (.arr [.str "button["])).2.document.get? i
            = ((clearHighlight ⟨createPage, none⟩).document.get? i).map
                (fun e => (e.addClass highlightClass).addClass pulseClass) ∧
          ∀ e, (highlightElement plainBrowser ⟨createPage, none⟩
              (.arr [.str "button["])).2.document.get? i = some e →
            highlightClass ∈ e.classes ∧ pulseClass ∈ e.classes) :=
  ⟨fun x hx => ⟨"button[", List.mem_singleton.mp hx, fun _ => ⟨.syntaxError, rfl⟩⟩, by decide,
    by decide, by decide, by decide, by decide,
    highlight_invalid_selectors plainBrowser ⟨createPage, none⟩ [.str "button["]
      fun x hx => ⟨"button[", List.mem_singleton.mp hx, fun _ => ⟨.syntaxError, rfl⟩⟩⟩

theorem markedCount_clearHighlight (h : Highlighter) :
    markedCount (clearHighlight h).document = 0 := by
  unfold clearHighlight markedCount
  simp only [List.length_eq_zero, List.filter_eq_nil_iff, List.mem_map]
  rintro e ⟨e0, _, rfl⟩
  split
  · simp [DomElement.removeClass]
  · simpa using ‹highlightClass ∉ e0.classes›

theorem markedCount_updateAt_le (doc : Document) (i : Nat) (f : DomElement → DomElement) :
    markedCount (updateAt doc i f) ≤ markedCount doc + 1 := by
  induction doc generalizing i with
  | nil => simp [updateAt, markedCount]
  | cons e rest ih =>
    cases i with
    | zero =>
      simp only [updateAt, markedCount, List.filter_cons]
      split <;> split <;> first | omega | (simp only [List.length_cons]; omega)
    | succ j =>
      have := ih j
      simp only [updateAt, markedCount, List.filter_cons] at this ⊢
      split
      · simp only [List.length_cons]
        omega
      · omega

theorem markedCount_updateAt_eq (doc : Document) (i : Nat) (f : DomElement → DomElement)
    (hf : ∀ e, highlightClass ∈ (f e).classes ↔ highlightClass ∈ e.classes) :
    markedCount (updateAt doc i f) = markedCount doc := by
  induction doc generalizing i with
  | nil => simp [updateAt, markedCount]
  | cons e rest ih =>
    cases i with
    | zero =>
      simp only [updateAt, markedCount, List.filter_cons, hf, decide_eq_true_eq]
      split <;> simp
    | succ j =>
      have := ih j
      simp only [updateAt, markedCount, List.filter_cons] at this ⊢
      split <;> simp [this]

theorem markedCount_highlightElement (b : Browser) (h : Highlighter) (selector : Json) :
    markedCount (highlightElement b h selector).2.document ≤ 1 := by
  have hclear := markedCount_clearHighlight h
  unfold highlightElement
  simp only []
  split
  · simp [hclear]
  · simp [hclear]
  · rename_i i _
    simp only []
    rw [markedCount_updateAt_eq]
    · have := markedCount_updateAt_le (clearHighlight h).document i
        (DomElement.addClass highlightClass)
      omega
    · intro e
      unfold DomElement.addClass
      split
      · rfl
      · have : highlightClass ≠ pulseClass := by decide
        simp [this]

theorem markedCount_highlightOne (b : Browser) (acc : Document × Bool) (selector : Json) :
    markedCount (highlightOne b acc selector).1 ≤ markedCount acc.1 + 1 := by
  unfold highlightOne
  split
  · omega
  · split
    · split
      · exact markedCount_updateAt_le _ _ _
      · omega
    · omega

theorem markedCount_highlightMultiple (b : Browser) (h : Highlighter) (items : List Json) :
    markedCount (highlightMultiple b h (.arr items)).2.document ≤ items.length := by
  have hfold : ∀ (items : List Json) (acc : Document × Bool),
      markedCount (items.foldl (highlightOne b) acc).1 ≤ markedCount acc.1 + items.length := by
    intro items
    induction items with
    | nil => intro acc; simp
    | cons x rest ih =>
      intro acc
      have h1 := ih (highlightOne b acc x)
      have h2 := markedCount_highlightOne b acc x
      simp only [List.foldl_cons, List.length_cons]
      omega
  have := hfold items ((clearHighlight h).document, false)
  have hclear := markedCount_clearHighlight h
  simp only [highlightMultiple]
  simp only [hclear] at this
  omega

theorem runHighlightOps_append (b : Browser) (ops : List HighlightOp) (last : HighlightOp)
    (h : Highlighter) :
    runHighlightOps b (ops ++ [last]) h = last.apply b (runHighlightOps b ops h) := by
  induction ops generalizing h with
  | nil => rfl
  | cons op rest ih => exact ih (op.apply b h)

/-- C18, counterexample: after one call of `highlightMultiple` with the
selectors of the two buttons of the page, two elements carry the marker
class. -/
theorem two_elements_marked :
    markedCount (runHighlightOps plainBrowser
      [.highlightMultiple (.arr [.str (ariaSelector "Create bucket"),
        .str (ariaSelector "Cancel")])] ⟨createPage, none⟩).document = 2 := by
  decide

/-- C18, amended: after a sequence of highlight operations that ends with
`highlightElement` or `clearHighlight`, at most one element of the document
carries the marker class; after a sequence that ends with `highlightMultiple`
on a list of selectors, at most as many elements carry it as the list has
selectors. -/
theorem marked_elements_bounded (b : Browser) (h : Highlighter) (ops : List HighlightOp)
    (last : HighlightOp) :
    (last.isMultiple = false →
        markedCount (runHighlightOps b (ops ++ [last]) h).document ≤ 1) ∧
      ∀ items, last = .highlightMultiple (.arr items) →
        markedCount (runHighlightOps b (ops ++ [last]) h).document ≤ items.length := by
  rw [runHighlightOps_append]
  constructor
  · intro hlast
    cases last with
    | highlightElement selector => exact markedCount_highlightElement b _ selector
    | highlightMultiple selectors => cases hlast
    | clearHighlight =>
      simp only [HighlightOp.apply]
      rw [markedCount_clearHighlight]
      omega
  · rintro items rfl
    exact markedCount_highlightMultiple b _ items

/-! ## Properties of the substitute oracle and of the repairs

The answer of the substitute oracle to an unclear request is evaluated stage by
stage: each lemma runs a few of the replacements on the text. -/

theorem applyRepairs_append (a b : List (Re × List Tpl)) (text : List Char) :
    applyRepairs (a ++ b) text = applyRepairs b (applyRepairs a text) := by
  simp [applyRepairs, List.foldl_append]

/-- The replacements from place `i` on are the next `n` of them followed by
those from place `j = i + n` on. -/
theorem applyRepairs_step (repairs : List (Re × List Tpl)) (i n j : Nat) (hj : i + n = j)
    (text text' : List Char) (h : applyRepairs ((repairs.drop i).take n) text = text') :
    applyRepairs (repairs.drop i) text = applyRepairs (repairs.drop j) text' := by
  rw [← h, ← hj, ← applyRepairs_append, ← List.drop_drop, List.take_append_drop]

set_option maxRecDepth 100000 in
theorem clarification_text : jsonStringify mockClarification = clarificationText.toList := by
  decide!

set_option maxRecDepth 100000 in
theorem clarification_no_fence : (fencePattern.exec clarificationText.toList).isNone = true := by
  decide!

set_option maxRecDepth 100000 in
theorem clarification_object :
    (objectPattern.exec clarificationText.toList).map (fun m => m.text)
      = some clarificationText.toList := by
  decide!

set_option maxRecDepth 100000 in
theorem clarification_spaces :
    replaceAll oddSpacePattern [.text " "] clarificationText.toList
      = clarificationText.toList := by
  decide!

set_option maxRecDepth 100000 in
theorem clarification_repairs_0 :
    applyRepairs ((commonRepairs.drop 0).take 3) clarificationText.toList
      = clarificationText.toList := by
  decide!

set_option maxRecDepth 100000 in
theorem clarification_repairs_3 :
    applyRepairs ((commonRepairs.drop 3).take 3) clarificationText.toList
      = clarificationText.toList := by
  decide!

set_option maxRecDepth 100000 in
theorem clarification_repairs_6 :
    applyRepairs ((commonRepairs.drop 6).take 1) clarificationText.toList
      = damagedClarificationText.toList := by
  decide!

set_option maxRecDepth 100000 in
theorem clarification_repairs_7 :
    applyRepairs ((commonRepairs.drop 7).take 1) damagedClarificationText.toList
      = damagedClarificationText.toList := by
  decide!

set_option maxRecDepth 100000 in
theorem clarification_repairs_8 :
    applyRepairs ((commonRepairs.drop 8).take 1) damagedClarificationText.toList
      = damagedClarificationText.toList := by
  decide!

set_option maxRecDepth 100000 in
theorem clarification_repairs_9 :
    applyRepairs ((commonRepairs.drop 9).take 3) damagedClarificationText.toList
      = damagedClarificationText.toList := by
  decide!

set_option maxRecDepth 100000 in
theorem clarification_repairs_12 :
    applyRepairs ((commonRepairs.drop 12).take 3) damagedClarificationText.toList
      = damagedClarificationText.toList := by
  decide!

set_option maxRecDepth 100000 in
theorem clarification_repairs_15 :
    applyRepairs ((commonRepairs.drop 15).take 3) damagedClarificationText.toList
      = damagedClarificationText.toList := by
  decide!

set_option maxRecDepth 100000 in
theorem clarification_repairs_18 :
    applyRepairs ((commonRepairs.drop 18).take 2) damagedClarificationText.toList
      = damagedClarificationText.toList := by
  decide!

theorem clarification_fixCommon :
    fixCommonJSONErrors clarificationText.toList = damagedClarificationText.toList := by
  have h0 : fixCommonJSONErrors clarificationText.toList
      = applyRepairs (commonRepairs.drop 0) clarificationText.toList := rfl
  rw [h0,
    applyRepairs_step commonRepairs 0 3 3 rfl _ _ clarification_repairs_0,
    applyRepairs_step commonRepairs 3 3 6 rfl _ _ clarification_repairs_3,
    applyRepairs_step commonRepairs 6 1 7 rfl _ _ clarification_repairs_6,
    applyRepairs_step commonRepairs 7 1 8 rfl _ _ clarification_repairs_7,
    applyRepairs_step commonRepairs 8 1 9 rfl _ _ clarification_repairs_8,
    applyRepairs_step commonRepairs 9 3 12 rfl _ _ clarification_repairs_9,
    applyRepairs_step commonRepairs 12 3 15 rfl _ _ clarification_repairs_12,
    applyRepairs_step commonRepairs 15 3 18 rfl _ _ clarification_repairs_15,
    applyRepairs_step commonRepairs 18 2 20 rfl _ _ clarification_repairs_18]
  rfl

set_option maxRecDepth 100000 in
theorem clarification_damaged :
    jsonParse damagedClarificationText.toList = .error .syntaxError := by
  decide!

set_option maxRecDepth 100000 in
theorem clarification_aggressive_head :
    applyRepairs aggressiveRepairsHead clarificationText.toList = clarificationText.toList := by
  decide!

set_option maxRecDepth 100000 in
theorem clarification_trailing_text :
    replaceFirst trailingTextPattern [.group 1] clarificationText.toList
      = clarificationText.toList := by
  decide!

set_option maxRecDepth 100000 in
theorem clarification_aggressive_tail_0 :
    applyRepairs ((aggressiveRepairsTail.drop 0).take 2) clarificationText.toList
      = clarificationText.toList := by
  decide!

set_option maxRecDepth 100000 in
theorem clarification_aggressive_tail_2 :
    applyRepairs ((aggressiveRepairsTail.drop 2).take 2) clarificationText.toList
      = clarificationText.toList := by
  decide!

set_option maxRecDepth 100000 in
theorem clarification_aggressive_tail_4 :
    applyRepairs ((aggressiveRepairsTail.drop 4).take 2) clarificationText.toList
      = clarificationText.toList := by
  decide!

set_option maxRecDepth 100000 in
theorem clarification_aggressive_tail_6 :
    applyRepairs ((aggressiveRepairsTail.drop 6).take 1) clarificationText.toList
      = clarificationText.toList := by
  decide!

theorem clarification_aggressive :
    aggressiveJSONRepair clarificationText.toList = clarificationText.toList := by
  have hfence : fencePattern.exec clarificationText.toList = none :=
    Option.isNone_iff_eq_none.mp clarification_no_fence
  have htail : applyRepairs aggressiveRepairsTail clarificationText.toList
      = clarificationText.toList := by
    have h0 : applyRepairs aggressiveRepairsTail clarificationText.toList
        = applyRepairs (aggressiveRepairsTail.drop 0) clarificationText.toList := rfl
    rw [h0,
      applyRepairs_step aggressiveRepairsTail 0 2 2 rfl _ _
        clarification_aggressive_tail_0,
      applyRepairs_step aggressiveRepairsTail 2 2 4 rfl _ _
        clarification_aggressive_tail_2,
      applyRepairs_step aggressiveRepairsTail 4 2 6 rfl _ _
        clarification_aggressive_tail_4,
      applyRepairs_step aggressiveRepairsTail 6 1 7 rfl _ _
        clarification_aggressive_tail_6]
    rfl
  unfold aggressiveJSONRepair
  simp only [hfence, clarification_aggressive_head, clarification_trailing_text, htail]

set_option maxRecDepth 100000 in
theorem clarification_parse :
    jsonParse clarificationText.toList = .ok mockClarification := by
  decide!

set_option maxRecDepth 100000 in
theorem clarification_transform :
    transformToExpectedFormat mockClarification = .ok clarificationPlan := by
  decide!

/-- The first attempt of `parseAIResponse` fails on the answer of the
substitute oracle. -/
theorem clarification_first_attempt :
    firstAttempt (String.mk (jsonStringify mockClarification)) = .error .syntaxError := by
  have hextract : extractJson clarificationText.toList = clarificationText.toList := by
    have hfence : fencePattern.exec clarificationText.toList = none :=
      Option.isNone_iff_eq_none.mp clarification_no_fence
    have hobject := clarification_object
    unfold extractJson
    rw [hfence]
    cases hm : objectPattern.exec clarificationText.toList with
    | none => rfl
    | some m =>
      rw [hm] at hobject
      simpa using hobject
  have h : firstAttempt (String.mk (jsonStringify mockClarification))
      = (jsonParse (fixCommonJSONErrors (replaceAll oddSpacePattern [.text " "]
          (extractJson (jsonStringify mockClarification)))) >>= transformToExpectedFormat) :=
    rfl
  rw [h, clarification_text, hextract, clarification_spaces, clarification_fixCommon,
    clarification_damaged]
  rfl

/-- The second attempt gives the plan. -/
theorem clarification_second_attempt :
    secondAttempt (String.mk (jsonStringify mockClarification)) = .ok clarificationPlan := by
  have h : secondAttempt (String.mk (jsonStringify mockClarification))
      = (jsonParse (aggressiveJSONRepair (jsonStringify mockClarification))
          >>= transformToExpectedFormat) := rfl
  rw [h, clarification_text, clarification_aggressive, clarification_parse]
  exact clarification_transform

theorem parseAIResponse_second_attempt (response : String) (plan : Plan) (e : JsError)
    (h1 : firstAttempt response = .error e) (h2 : secondAttempt response = .ok plan) :
    parseAIResponse response = .ok plan := by
  unfold parseAIResponse
  rw [h1, h2]

theorem parse_clarification :
    parseAIResponse (String.mk (jsonStringify mockClarification)) = .ok clarificationPlan :=
  parseAIResponse_second_attempt _ _ _ clarification_first_attempt clarification_second_attempt

set_option maxRecDepth 100000 in
/-- C15, counterexample: the request `hi` in the prompt of `generateTaskPlan`
is unclear for the substitute oracle, and the plan that `parseAIResponse`
makes of the oracle's answer has five entries in `nextTasks`. -/
theorem unclear_request_has_next_tasks :
    mockIsUnclear (mockUserRequest (taskPlanPrompt "hi" bucketsContextDetails "S3" "Buckets"))
        = true ∧
      (mockPrompt (taskPlanPrompt "hi" bucketsContextDetails "S3" "Buckets")).map
          (fun response => (parseAIResponse response).map fun plan => plan.nextTasks)
        = some (.ok ["Create S3 bucket", "Launch EC2 instance", "Deploy to Elastic Beanstalk",
            "Set up Lambda function", "Configure IAM roles"]) := by
  have hunclear : mockIsUnclear
      (mockUserRequest (taskPlanPrompt "hi" bucketsContextDetails "S3" "Buckets")) = true := by
    decide!
  refine ⟨hunclear, ?_⟩
  rw [mockPrompt, if_pos hunclear, Option.map_some', parse_clarification]
  rfl

/-- C15, amended: for every prompt whose request the substitute oracle
classifies as unclear, `MockAI.session.prompt` followed by `parseAIResponse`
gives a plan with exactly one step, of type `instruction`, that asks the user
to specify the task, and with the five suggestions of the oracle as
`nextTasks`. -/
theorem unclear_request_plan (fullPrompt : String)
    (hunclear : mockIsUnclear (mockUserRequest fullPrompt) = true) :
    ∃ response plan, mockPrompt fullPrompt = some response ∧
      parseAIResponse response = .ok plan ∧
      plan.stepTypes = [some (.str "instruction")] ∧
      plan.steps.map (fun step => step.prop "description")
        = [some (.str "Please specify what you'd like to do in AWS Console")] ∧
      plan.nextTasks = ["Create S3 bucket", "Launch EC2 instance",
        "Deploy to Elastic Beanstalk", "Set up Lambda function", "Configure IAM roles"] := by
  refine ⟨String.mk (jsonStringify mockClarification), clarificationPlan, ?_,
    parse_clarification, rfl, rfl, rfl⟩
  unfold mockPrompt
  rw [if_pos hunclear]

set_option maxRecDepth 100000 in
theorem unclear_request_plan_witness :
    mockUserRequest (taskPlanPrompt "help" bucketsContextDetails "S3" "Buckets") = "help" ∧
      mockIsUnclear "help" = true ∧
      ∃ response plan,
        mockPrompt (taskPlanPrompt "help" bucketsContextDetails "S3" "Buckets") = some response ∧
        parseAIResponse response = .ok plan ∧
        plan.stepTypes = [some (.str "instruction")] ∧
        plan.steps.map (fun step => step.prop "description")
          = [some (.str "Please specify what you'd like to do in AWS Console")] ∧
        plan.nextTasks = ["Create S3 bucket", "Launch EC2 instance",
          "Deploy to Elastic Beanstalk", "Set up Lambda function", "Configure IAM roles"] :=
  ⟨by decide!, by decide!,
    unclear_request_plan (taskPlanPrompt "help" bucketsContextDetails "S3" "Buckets")
      (by decide!)⟩

/-- C16, at the failing input: the text `["it's", "don't",]` is well-formed but
for the comma before the closing bracket (without it `JSON.parse` accepts it);
`fixCommonJSONErrors` returns `["it"s", "don"t"]`, which `JSON.parse` rejects.
The same happens inside an answer of the oracle, where the second attempt of
`parseAIResponse`, which uses `aggressiveJSONRepair`, still gives the plan. -/
theorem trailing_comma_repair_corrupts :
    jsonParse "[\"it's\", \"don't\"]".toList = .ok (.arr [.str "it's", .str "don't"]) ∧
      fixCommonJSONErrors apostropheList.toList = "[\"it\"s\", \"don\"t\"]".toList ∧
      jsonParse (fixCommonJSONErrors apostropheList.toList) = .error .syntaxError ∧
      jsonParse (aggressiveJSONRepair apostropheList.toList)
        = .ok (.arr [.str "it's", .str "don't"]) ∧
      firstAttempt apostropheAnswer = .error .syntaxError ∧
      (parseAIResponse apostropheAnswer).map (fun plan => plan.nextTasks)
        = .ok ["Don't stop", "It's done"] := by
  decide!

/-! ## Properties of the next tasks, of page changes and of the side panel -/

theorem filter_orElse? (a b : Option Json) :
    (orElse? a b).filter Json.truthy
      = (a.filter Json.truthy).orElse fun _ => b.filter Json.truthy := by
  cases a with
  | none => simp [orElse?, truthy?, Option.filter, Option.orElse]
  | some v =>
    by_cases hv : v.truthy = true
    · simp [orElse?, truthy?, Option.filter, Option.orElse, hv]
    · simp [orElse?, truthy?, Option.filter, Option.orElse, hv]

theorem head_filterMap_four {α β : Type} (f : α → Option β) (a b c d : α) :
    ([a, b, c, d].filterMap f).head?
      = (((f a).orElse fun _ => f b).orElse fun _ => f c).orElse fun _ => f d := by
  simp only [List.filterMap_cons, List.filterMap_nil]
  cases f a <;> cases f b <;> cases f c <;> cases f d <;> rfl

theorem nextTaskText_eq (task : Json) : nextTaskText task = specNextTaskText task := by
  cases task with
  | null => rfl
  | bool b => rfl
  | num m e => rfl
  | str s => rfl
  | arr xs => simp [nextTaskText, specNextTaskText, Json.prop, orElse?, truthy?]
  | obj fields =>
    have hc : (orElse? (orElse? (orElse? (lookupField "description" fields)
          (lookupField "title" fields)) (lookupField "name" fields))
          (lookupField "summary" fields)).filter Json.truthy
        = (["description", "title", "name", "summary"].filterMap fun k =>
            (lookupField k fields).filter Json.truthy).head? := by
      rw [filter_orElse?, filter_orElse?, filter_orElse?, head_filterMap_four]
    simp only [nextTaskText, specNextTaskText, Json.prop]
    rw [← hc]
    generalize orElse? (orElse? (orElse? (lookupField "description" fields)
      (lookupField "title" fields)) (lookupField "name" fields))
      (lookupField "summary" fields) = c
    cases c with
    | none => rfl
    | some v =>
      cases v with
      | str s =>
        by_cases hs : s = ""
        · simp [Option.filter, Json.truthy, hs]
        · simp [Option.filter, Json.truthy, hs]
      | null => simp [Option.filter, Json.truthy]
      | bool b => cases b <;> simp [Option.filter, Json.truthy]
      | num m e =>
        by_cases hm : m = 0
        · simp [Option.filter, Json.truthy, hm]
        · simp [Option.filter, Json.truthy, hm]
      | arr xs => simp [Option.filter, Json.truthy]
      | obj fs => simp [Option.filter, Json.truthy]

/-- C21: when `transformToExpectedFormat` returns a plan for an answer whose
`nextTasks` is a list (or whose `nextTasks` is falsy or missing and whose
`next_tasks` is a list), the `nextTasks` of the plan, a list of strings, is made
of the entries of that list in their order, each replaced by the text that
`specNextTaskText` gives for it: a string is kept as it is, an object gives the
first of its fields `description`, `title`, `name`, `summary` that is truthy,
when that is a string, and every other entry is dropped. -/
theorem nextTasks_flattened (parsed : Json) (plan : Plan) (tasks : List Json)
    (h : transformToExpectedFormat parsed = .ok plan)
    (htasks : parsed.prop "nextTasks" = some (.arr tasks) ∨
      (truthy? (parsed.prop "nextTasks") = false
        ∧ parsed.prop "next_tasks" = some (.arr tasks))) :
    plan.nextTasks = tasks.filterMap specNextTaskText := by
  unfold transformToExpectedFormat at h
  obtain ⟨stepsProp, _, h2⟩ := bind_ok h
  obtain ⟨sos, _, h3⟩ := bind_ok h2
  rw [← pure_ok h3]
  have hlist : orElse (orElse? (parsed.prop "nextTasks") (parsed.prop "next_tasks")) (.arr [])
      = .arr tasks := by
    rcases htasks with h1 | ⟨h1, h2⟩
    · simp [h1, orElse?, truthy?, Json.truthy, orElse]
    · simp [h1, h2, orElse?, Json.truthy, orElse]
  simp only [hlist]
  exact List.filterMap_congr fun task _ => nextTaskText_eq task

theorem nextTasks_flattened_witness :
    transformToExpectedFormat mixedNextTasks = .ok mixedNextTasksPlan ∧
      mixedNextTasksPlan.nextTasks
        = ["Upload a file", "Enable versioning", "Set a lifecycle rule", "Delete the bucket"] ∧
      mixedNextTasksPlan.nextTasks =
        [ Json.str "Upload a file",
          .obj [("title", .str "Enable versioning")],
          .obj [("description", .str ""), ("name", .str "Set a lifecycle rule")],
          .num 5 0,
          .obj [("description", .num 7 0), ("title", .str "Not used")],
          .null,
          .str "Delete the bucket"].filterMap specNextTaskText :=
  ⟨by decide, rfl, nextTasks_flattened mixedNextTasks mixedNextTasksPlan _ (by decide)
    (Or.inl rfl)⟩

/-- C22: with a stored current task, a message that carries a `data` object
and an answer `r` of the content script whose `success` is truthy,
`handlePageChange` responds `{success: true, contextUpdated: false}` and leaves
the store as it was but for the `currentContext` of the task, which is
`r.context`, the snapshot of the answer: plan, prompt, original context,
completed steps and the other fields of the task, the step index and the two
logs are unchanged. -/
theorem page_change_refreshes_context (r d : Json) (store : SessionStore) (task : Task)
    (hd : d ≠ .null) (htask : store.currentTask = some task)
    (hsuccess : truthy? (r.prop "success") = true) :
    ∃ task', handlePageChange (.ok (some r)) (some d) store
        = (.done false, { store with currentTask := some task' }) ∧
      task'.currentContext = r.prop "context" ∧
      task'.plan = task.plan ∧ task'.userPrompt = task.userPrompt ∧
      task'.originalContext = task.originalContext ∧
      task'.completedSteps = task.completedSteps ∧
      task'.createdResources = task.createdResources ∧
      task'.taskType = task.taskType ∧ task'.createdAt = task.createdAt := by
  refine ⟨{ task with currentContext := r.prop "context" }, ?_, rfl, rfl, rfl, rfl, rfl, rfl,
    rfl, rfl⟩
  have hget : d.get "url" = .ok (d.prop "url") := by
    cases d <;> first | rfl | exact absurd rfl hd
  have hread : readSuccess (some r) = .ok true := by
    have hr : r.get "success" = .ok (r.prop "success") := by
      cases r <;> first | rfl | (simp [Json.prop, truthy?] at hsuccess)
    simp only [readSuccess, hr, bind, Except.bind, pure, Except.pure, hsuccess]
  simp only [handlePageChange, hget, hread, SessionStore.getCurrentTask, htask,
    SessionStore.setCurrentTask, contextOf]

theorem page_change_refreshes_context_witness :
    demoStore.currentTask.map (fun t => t.currentContext)
        = some (some (.obj [("service", .str "S3")])) ∧
      bucketsAnswer.prop "context"
        = some (.obj [("service", .str "S3"), ("pageTitle", .str "Buckets")]) ∧
      (handlePageChange (.ok (some bucketsAnswer))
          (some (.obj [("url", .str "https://s3.console.aws.amazon.com/s3/buckets")]))
          demoStore).2.currentTask.map (fun t => t.currentContext)
        = some (some (.obj [("service", .str "S3"), ("pageTitle", .str "Buckets")])) ∧
      (handlePageChange (.ok (some bucketsAnswer))
          (some (.obj [("url", .str "https://s3.console.aws.amazon.com/s3/buckets")]))
          demoStore).2.currentStep = demoStore.currentStep ∧
      ∃ task', handlePageChange (.ok (some bucketsAnswer))
          (some (.obj [("url", .str "https://s3.console.aws.amazon.com/s3/buckets")])) demoStore
          = (.done false, { demoStore with currentTask := some task' }) ∧
        task'.currentContext = bucketsAnswer.prop "context" ∧
        task'.plan = demoPlan ∧ task'.userPrompt = "create S3 bucket" ∧
        task'.originalContext = some (.obj [("service", .str "S3")]) ∧
        task'.completedSteps = some [] ∧
        task'.createdResources = some (.arr []) ∧
        task'.taskType = "create" ∧ task'.createdAt = "2025-01-01T00:00:00.000Z" :=
  ⟨by decide, by decide, by decide, by decide,
    page_change_refreshes_context bucketsAnswer
      (.obj [("url", .str "https://s3.console.aws.amazon.com/s3/buckets")]) demoStore
      { userPrompt := "create S3 bucket"
        plan := demoPlan
        originalContext := some (.obj [("service", .str "S3")])
        currentContext := some (.obj [("service", .str "S3")])
        completedSteps := some []
        createdResources := some (.arr [])
        taskType := "create"
        createdAt := "2025-01-01T00:00:00.000Z" }
      (by decide) (by decide) (by decide)⟩

/-- The method `trim` takes white space off both ends and nothing else: the
text is the trimmed text between two runs of white space, and the trimmed text
neither starts nor ends with white space. -/
theorem jsTrim_spec (text : List Char) :
    (∃ pre post, text = pre ++ jsTrim text ++ post ∧ (∀ c ∈ pre, isJsSpace c = true) ∧
        ∀ c ∈ post, isJsSpace c = true) ∧
      (∀ c, (jsTrim text).head? = some c → isJsSpace c = false) ∧
      ∀ c, (jsTrim text).getLast? = some c → isJsSpace c = false := by
  have h1 : text = text.takeWhile isJsSpace ++ text.dropWhile isJsSpace :=
    (List.takeWhile_append_dropWhile _ _).symm
  have h2 : text.dropWhile isJsSpace
      = jsTrim text ++ ((text.dropWhile isJsSpace).reverse.takeWhile isJsSpace).reverse := by
    unfold jsTrim
    rw [← List.reverse_append, List.takeWhile_append_dropWhile, List.reverse_reverse]
  have hlast : ∀ c, (jsTrim text).getLast? = some c → isJsSpace c = false := by
    intro c hc
    unfold jsTrim at hc
    rw [List.getLast?_reverse] at hc
    have := List.head?_dropWhile_not isJsSpace (text.dropWhile isJsSpace).reverse
    rw [hc] at this
    simpa using this
  refine ⟨⟨text.takeWhile isJsSpace,
    ((text.dropWhile isJsSpace).reverse.takeWhile isJsSpace).reverse, ?_, ?_, ?_⟩, ?_, hlast⟩
  · rw [List.append_assoc, ← h2]
    exact h1
  · intro c hc
    exact List.mem_takeWhile_imp hc
  · intro c hc
    exact List.mem_takeWhile_imp (List.mem_reverse.mp hc)
  · intro c hc
    have hhead : (text.dropWhile isJsSpace).head? = some c := by
      rw [h2]
      cases hj : jsTrim text with
      | nil => rw [hj] at hc; cases hc
      | cons x xs =>
        rw [hj] at hc
        simpa using hc
    have := List.head?_dropWhile_not isJsSpace text
    rw [hhead] at this
    simpa using this

/-- C23: `isGeneralQuestion` answers `true` exactly when the lower-cased prompt
contains one of the phrases of `questionIndicators` or the prompt ends with
`?`. With `userPrompt` the text that `handleSend` takes from the input field,
which is the text of the field without the white space at its two ends,
`handleSend` returns at once when `userPrompt` is empty, and otherwise goes on
with `handleGeneralQuestion(userPrompt)` when `isGeneralQuestion(userPrompt)`
holds and with `handleTaskInstruction(userPrompt)` when it does not. -/
theorem question_dispatch (inputValue userPrompt : String)
    (htrim : userPrompt.toList = jsTrim inputValue.toList) :
    (∀ prompt, isGeneralQuestion prompt = true ↔
        (∃ indicator ∈ questionIndicators, includes (toLowerCase prompt) indicator = true)
          ∨ prompt.toList.getLast? = some '?') ∧
      (∃ pre post, inputValue.toList = pre ++ userPrompt.toList ++ post ∧
        (∀ c ∈ pre, isJsSpace c = true) ∧ ∀ c ∈ post, isJsSpace c = true) ∧
      (∀ c, userPrompt.toList.head? = some c → isJsSpace c = false) ∧
      (∀ c, userPrompt.toList.getLast? = some c → isJsSpace c = false) ∧
      (userPrompt = "" → handleSend inputValue = none) ∧
      (userPrompt ≠ "" →
        (isGeneralQuestion userPrompt = true →
          handleSend inputValue = some (.generalQuestion userPrompt)) ∧
        (isGeneralQuestion userPrompt = false →
          handleSend inputValue = some (.taskInstruction userPrompt))) := by
  have hprompt : String.mk (jsTrim inputValue.toList) = userPrompt := by
    rw [← htrim]
    cases userPrompt
    rfl
  obtain ⟨hsplit, hhead, hlast⟩ := jsTrim_spec inputValue.toList
  rw [← htrim] at hsplit hhead hlast
  refine ⟨?_, hsplit, hhead, hlast, ?_, ?_⟩
  · intro prompt
    simp only [isGeneralQuestion, endsWithQuestionMark, Bool.or_eq_true, List.any_eq_true,
      beq_iff_eq]
  · intro hempty
    simp only [handleSend, hprompt, hempty, if_true]
  · intro hne
    constructor
    · intro hq
      simp only [handleSend, hprompt, hne, hq, if_true, if_false]
    · intro hq
      simp only [handleSend, hprompt, hne, hq, if_false]
      rfl

theorem question_dispatch_witness :
    handleSend "  What is S3  " = some (.generalQuestion "What is S3") ∧
      handleSend "\t is the bucket public? " = some (.generalQuestion "is the bucket public?") ∧
      handleSend " create S3 bucket\n" = some (.taskInstruction "create S3 bucket") ∧
      handleSend " \n\t " = none ∧
      isGeneralQuestion "Show PRICING of S3" = true ∧
      isGeneralQuestion "create S3 bucket" = false ∧
      ("What is S3".toList = jsTrim "  What is S3  ".toList) ∧
      ((∀ prompt, isGeneralQuestion prompt = true ↔
          (∃ indicator ∈ questionIndicators, includes (toLowerCase prompt) indicator = true)
            ∨ prompt.toList.getLast? = some '?') ∧
        (∃ pre post, "  What is S3  ".toList = pre ++ "What is S3".toList ++ post ∧
          (∀ c ∈ pre, isJsSpace c = true) ∧ ∀ c ∈ post, isJsSpace c = true) ∧
        (∀ c, "What is S3".toList.head? = some c → isJsSpace c = false) ∧
        (∀ c, "What is S3".toList.getLast? = some c → isJsSpace c = false) ∧
        ("What is S3" = "" → handleSend "  What is S3  " = none) ∧
        ("What is S3" ≠ "" →
          (isGeneralQuestion "What is S3" = true →
            handleSend "  What is S3  " = some (.generalQuestion "What is S3")) ∧
          (isGeneralQuestion "What is S3" = false →
            handleSend "  What is S3  " = some (.taskInstruction "What is S3")))) :=
  ⟨by decide, by decide, by decide, by decide, by decide, by decide, by decide,
    question_dispatch "  What is S3  " "What is S3" (by decide)⟩

/-- C24, at the failing input: the store has one completed task and the panel
shows it; after `clearTaskHistory`, confirmed by the user, the completed-task
log of the store is empty, and the panel, which renders its own
`state.completedTasks` again without reading the store, still shows the task.
A refresh from the store would show none. -/
theorem cleared_history_still_rendered :
    doneStore.getCompletedTasks.length = 1 ∧
      shownPanel.completedList = ["create S3 bucket"] ∧
      (panelClearTaskHistory true true shownPanel doneStore).2.getCompletedTasks = [] ∧
      (panelClearTaskHistory true true shownPanel doneStore).1.completedList
        = ["create S3 bucket"] ∧
      (refreshCompletedTasks (panelClearTaskHistory true true shownPanel doneStore).2
          (panelClearTaskHistory true true shownPanel doneStore).1).completedList = [] := by
  decide

/-- C27, at the failing input: the content script does not answer and no tab
shows a page of AWS; `handleNewTask` responds with `success`, the navigation
plan and `needsNavigation`, and leaves the store as it was, here without a
current task, while the side panel takes the plan as its current task at step
0; the next `COMPLETE_STEP` is answered with `No active task`. -/
theorem new_task_not_stored :
    handleNewTask noAwsTabEnv "create S3 bucket" 7 ⟨none, none, none, none⟩
        = (.planned
            (generateNavigationToAWS "create S3 bucket"
              (some "https://www.google.com/search?q=aws"))
            (some (noticeContext "Navigation" "Navigate to AWS"
              (some "https://www.google.com/search?q=aws")))
            true (some .needsNavigation),
          ⟨none, none, none, none⟩) ∧
      (handleNewTask noAwsTabEnv "create S3 bucket" 7 ⟨none, none, none, none⟩).1.success
        = true ∧
      (handleNewTask noAwsTabEnv "create S3 bucket" 7 ⟨none, none, none, none⟩).2.currentTask
        = none ∧
      panelTaskAfter "create S3 bucket"
          (handleNewTask noAwsTabEnv "create S3 bucket" 7 ⟨none, none, none, none⟩).1 none
        = some { userPrompt := "create S3 bucket"
                 plan := generateNavigationToAWS "create S3 bucket"
                   (some "https://www.google.com/search?q=aws")
                 currentStep := 0 } ∧
      (handleStepCompletion freshEnv
          (handleNewTask noAwsTabEnv "create S3 bucket" 7 ⟨none, none, none, none⟩).2).1
        = .failure (.text "No active task") := by
  decide

/-- C29, counterexample: after `START_NEW_TASK` with a plan of two steps, two
`COMPLETE_STEP` calls complete the task and leave the step index 0 with the
completed steps `[0]`, and a third one leaves the step index 1 with the
completed steps `[0, 0]`; likewise `COMPLETE_STEP` and `RESET_TASK` leave the
step index 0 with the completed steps `[0]`, and a further `COMPLETE_STEP`
leaves the step index 1 with the completed steps `[0, 0]`. -/
theorem completed_steps_repeat :
    twoStepStore.currentTask.map (fun t => t.completedSteps) = some (some []) ∧
      twoStepStore.getCurrentStep = 0 ∧
      (runSessionCalls [.completeStep freshEnv, .completeStep freshEnv]
          twoStepStore).getCurrentStep = 0 ∧
      (runSessionCalls [.completeStep freshEnv, .completeStep freshEnv]
          twoStepStore).currentTask.map (fun t => t.completedSteps) = some (some [0]) ∧
      (runSessionCalls [.completeStep freshEnv, .completeStep freshEnv, .completeStep freshEnv]
          twoStepStore).getCurrentStep = 1 ∧
      (runSessionCalls [.completeStep freshEnv, .completeStep freshEnv, .completeStep freshEnv]
          twoStepStore).currentTask.map (fun t => t.completedSteps) = some (some [0, 0]) ∧
      (runSessionCalls [.completeStep freshEnv, .resetTask] twoStepStore).getCurrentStep = 0 ∧
      (runSessionCalls [.completeStep freshEnv, .resetTask] twoStepStore).currentTask.map
          (fun t => t.completedSteps) = some (some [0]) ∧
      (runSessionCalls [.completeStep freshEnv, .resetTask, .completeStep freshEnv]
          twoStepStore).getCurrentStep = 1 ∧
      (runSessionCalls [.completeStep freshEnv, .resetTask, .completeStep freshEnv]
          twoStepStore).currentTask.map (fun t => t.completedSteps) = some (some [0, 0]) := by
  decide

theorem stepsRecorded_start (userPrompt : String) (plan : Plan) (context : Option Json)
    (now : String) (store : SessionStore) :
    StepsRecorded plan (storeNewTask userPrompt plan context now store) :=
  ⟨_, rfl, rfl, List.nil_suffix, by simp⟩

theorem stepsRecorded_reset (plan : Plan) (store : SessionStore)
    (h : StepsRecorded plan store) : StepsRecorded plan (handleTaskReset store) := by
  obtain ⟨task, htask, hplan, _, hlt⟩ := h
  exact ⟨task, htask, hplan, List.nil_suffix, hlt⟩

/-- What a `COMPLETE_STEP` call does to the record, by the response it gives: a
failure leaves the store as it was; the completion of the task keeps the
stored task and sets the step index to 0; an advance appends the step index to
`completedSteps` and sets the step index to the next one, which is the index
of a step of the plan. -/
theorem handleStepCompletion_record (env : StepEnv) (store : SessionStore) :
    (∀ error, (handleStepCompletion env store).1 = .failure error →
        (handleStepCompletion env store).2 = store) ∧
      (∀ nextTasks completedTask,
        (handleStepCompletion env store).1 = .complete nextTasks completedTask →
          (handleStepCompletion env store).2.currentTask = store.currentTask ∧
          (handleStepCompletion env store).2.getCurrentStep = 0) ∧
      ∀ newStep planAdapted plan contextUpdated,
        (handleStepCompletion env store).1
            = .advanced newStep planAdapted plan contextUpdated →
          ∃ task task', store.currentTask = some task ∧
            (handleStepCompletion env store).2.currentTask = some task' ∧
            task'.plan = task.plan ∧
            task'.completedSteps
              = some (task.completedSteps.getD [] ++ [store.getCurrentStep]) ∧
            newStep = store.getCurrentStep + 1 ∧
            (handleStepCompletion env store).2.getCurrentStep = newStep ∧
            newStep < task.plan.steps.length := by
  unfold handleStepCompletion
  simp only [SessionStore.getCurrentTask]
  cases htask : store.currentTask with
  | none => simp
  | some task =>
    cases env.tabs with
    | error e => simp
    | ok tabs =>
      cases tabs with
      | nil => simp
      | cons t ts =>
        simp only
        by_cases hdone : store.getCurrentStep + 1 ≥ task.plan.steps.length
        · simp only [hdone, if_true]
          cases readSuccess (fetchContext env) with
          | error e => simp
          | ok fresh =>
            simp [SessionStore.setCurrentStep, SessionStore.addCompletedTask,
              SessionStore.getCurrentStep, htask]
        · simp only [hdone, if_false]
          cases readSuccess (fetchContext env) with
          | error e => simp
          | ok fresh =>
            have hlt : store.getCurrentStep + 1 < task.plan.steps.length := by omega
            cases fresh <;>
              simp [SessionStore.setCurrentStep, SessionStore.setCurrentTask,
                SessionStore.getCurrentStep] <;>
              simpa [SessionStore.getCurrentStep] using hlt

theorem stepsRecorded_completeStep (plan : Plan) (env : StepEnv) (store : SessionStore)
    (h : StepsRecorded plan store) : StepsRecorded plan (handleStepCompletion env store).2 := by
  obtain ⟨task, htask, hplan, hsuffix, hlt⟩ := h
  obtain ⟨hfail, hcomplete, hadvance⟩ := handleStepCompletion_record env store
  cases hr : (handleStepCompletion env store).1 with
  | failure error =>
    rw [hfail error hr]
    exact ⟨task, htask, hplan, hsuffix, hlt⟩
  | complete nextTasks completedTask =>
    obtain ⟨hkeep, hzero⟩ := hcomplete nextTasks completedTask hr
    refine ⟨task, by rw [hkeep, htask], hplan, ?_, hlt⟩
    rw [hzero]
    exact List.nil_suffix
  | advanced newStep planAdapted plan' contextUpdated =>
    obtain ⟨task0, task', htask0, htask', hplan', hsteps, hnew, hstep, hbound⟩ :=
      hadvance newStep planAdapted plan' contextUpdated hr
    rw [htask] at htask0
    injection htask0 with htask0
    subst htask0
    refine ⟨task', htask', by rw [hplan', hplan], ?_, ?_⟩
    · rw [hstep, hnew, hsteps, List.range_succ]
      simp only [Option.getD_some]
      obtain ⟨earlier, hearlier⟩ := hsuffix
      exact ⟨earlier, by rw [← hearlier, List.append_assoc]⟩
    · rw [hsteps]
      simp only [Option.getD_some, List.mem_append, List.mem_singleton]
      rintro i (hi | rfl)
      · exact hlt i hi
      · rw [← hplan]
        omega

theorem stepsRecorded_run (plan : Plan) (calls : List SessionCall) (store : SessionStore)
    (h : StepsRecorded plan store) : StepsRecorded plan (runSessionCalls calls store) := by
  induction calls generalizing store with
  | nil => exact h
  | cons call calls ih =>
    cases call with
    | completeStep env => exact ih _ (stepsRecorded_completeStep plan env store h)
    | resetTask => exact ih _ (stepsRecorded_reset plan store h)

/-- C29, amended: in every state reached from `START_NEW_TASK` by a sequence of
`COMPLETE_STEP` and `RESET_TASK` calls, the stored current task has the plan it
was started with, its `completedSteps` ends with the indices
`0 .. currentStep-1` in ascending order, and each of its entries is the index
of a step of the plan. `RESET_TASK` and the `COMPLETE_STEP` that completes the
task set the step index to 0 and keep the stored task with its
`completedSteps`; a `COMPLETE_STEP` that advances appends the step index to
`completedSteps` and moves to the next step; so the entries before the last
`currentStep` ones can repeat indices. -/
theorem completed_steps_suffix (userPrompt : String) (plan : Plan) (context : Option Json)
    (now : String) (store : SessionStore) (calls : List SessionCall) :
    (∃ task earlier,
        (runSessionCalls calls (storeNewTask userPrompt plan context now store)).currentTask
          = some task ∧
        task.plan = plan ∧
        task.completedSteps.getD [] = earlier ++ List.range
          (runSessionCalls calls
            (storeNewTask userPrompt plan context now store)).getCurrentStep ∧
        ∀ i ∈ task.completedSteps.getD [], i < plan.steps.length) ∧
      (∀ s : SessionStore, (handleTaskReset s).currentTask = s.currentTask ∧
        (handleTaskReset s).getCurrentStep = 0) ∧
      ∀ (env : StepEnv) (s : SessionStore),
        (∀ nextTasks completedTask,
          (handleStepCompletion env s).1 = .complete nextTasks completedTask →
            (handleStepCompletion env s).2.currentTask = s.currentTask ∧
            (handleStepCompletion env s).2.getCurrentStep = 0) ∧
        ∀ newStep planAdapted responsePlan contextUpdated,
          (handleStepCompletion env s).1
              = .advanced newStep planAdapted responsePlan contextUpdated →
            ∃ task task', s.currentTask = some task ∧
              (handleStepCompletion env s).2.currentTask = some task' ∧
              task'.plan = task.plan ∧
              task'.completedSteps
                = some (task.completedSteps.getD [] ++ [s.getCurrentStep]) ∧
              newStep = s.getCurrentStep + 1 ∧
              (handleStepCompletion env s).2.getCurrentStep = newStep ∧
              newStep < task.plan.steps.length := by
  refine ⟨?_, fun s => ⟨rfl, rfl⟩, fun env s => (handleStepCompletion_record env s).2⟩
  obtain ⟨task, htask, hplan, ⟨earlier, hearlier⟩, hlt⟩ :=
    stepsRecorded_run plan calls _ (stepsRecorded_start userPrompt plan context now store)
  exact ⟨task, earlier, htask, hplan, hearlier.symm, hlt⟩

/-- C30: with a stored current task, whatever the browser and the page answer,
the task stored after `handleStepCompletion` has the plan it had before, and a
response that does not complete the task has `planAdapted = false` and no
plan. -/
theorem step_completion_keeps_plan (env : StepEnv) (store : SessionStore) (task : Task)
    (htask : store.currentTask = some task) :
    (handleStepCompletion env store).2.currentTask.map (fun t => t.plan) = some task.plan ∧
      ∀ newStep planAdapted plan contextUpdated,
        (handleStepCompletion env store).1
            = .advanced newStep planAdapted plan contextUpdated →
          planAdapted = false ∧ plan = none := by
  unfold handleStepCompletion
  simp only [SessionStore.getCurrentTask, htask]
  cases env.tabs with
  | error e => simp [htask]
  | ok tabs =>
    cases tabs with
    | nil => simp [htask]
    | cons tab rest =>
      simp only []
      split
      · cases readSuccess (fetchContext env) with
        | error e => simp [htask]
        | ok fresh =>
          simp [SessionStore.addCompletedTask, SessionStore.setCurrentStep, htask]
      · cases readSuccess (fetchContext env) with
        | error e => simp [htask]
        | ok fresh =>
          cases fresh <;> simp [SessionStore.setCurrentTask, SessionStore.setCurrentStep]

theorem step_completion_keeps_plan_witness :
    (handleStepCompletion freshEnv twoStepStore).1.taskComplete = some false ∧
      (handleStepCompletion freshEnv twoStepStore).2.currentTask.map (fun t => t.plan)
        = some twoNavigationsPlan ∧
      ∀ newStep planAdapted plan contextUpdated,
        (handleStepCompletion freshEnv twoStepStore).1
            = .advanced newStep planAdapted plan contextUpdated →
          planAdapted = false ∧ plan = none :=
  ⟨by decide,
    step_completion_keeps_plan freshEnv twoStepStore
      { userPrompt := "open S3"
        plan := twoNavigationsPlan
        originalContext := some (.obj [("service", .str "EC2")])
        currentContext := some (.obj [("service", .str "EC2")])
        completedSteps := some []
        createdResources := some (.arr [])
        taskType := extractTaskType "open S3"
        createdAt := "2025-01-01T00:00:00.000Z" } rfl⟩

/-! ## Properties of the search for the element to highlight -/

/-- The loop of the smart match keeps the best candidate so far unless a later
candidate has a greater score; the candidate it ends with is the first one of
the greatest score. -/
theorem smartMatchLoop_spec (b : Browser) (doc : Document) (keywords : List String)
    (candidates : List Nat) (bestMatch : Option Nat) (bestScore : Nat) :
    (smartMatchLoop b doc keywords candidates bestMatch bestScore = (bestMatch, bestScore) ∧
        ∀ j ∈ candidates, ∀ t, candidateScore b doc keywords j = some t → t ≤ bestScore) ∨
      ∃ pre i post s, candidates = pre ++ i :: post ∧
        smartMatchLoop b doc keywords candidates bestMatch bestScore = (some i, s) ∧
        candidateScore b doc keywords i = some s ∧ bestScore < s ∧
        (∀ j ∈ pre, ∀ t, candidateScore b doc keywords j = some t → t < s) ∧
        ∀ j ∈ post, ∀ t, candidateScore b doc keywords j = some t → t ≤ s := by
  induction candidates generalizing bestMatch bestScore with
  | nil => exact Or.inl ⟨rfl, by simp⟩
  | cons c rest ih =>
    have hskip : ∀ bm bs, candidateScore b doc keywords c = none →
        smartMatchLoop b doc keywords (c :: rest) bm bs
          = smartMatchLoop b doc keywords rest bm bs := by
      intro bm bs hc
      unfold candidateScore at hc
      by_cases hv : b.isVisible doc c = true
      · simp only [hv, if_true, Option.map_eq_none'] at hc
        simp only [smartMatchLoop, hv, hc, Bool.not_true, Bool.false_eq_true, if_false]
      · simp only [Bool.not_eq_true] at hv
        simp only [smartMatchLoop, hv, Bool.not_false, if_true]
    have hstep : ∀ bm bs sc, candidateScore b doc keywords c = some sc →
        smartMatchLoop b doc keywords (c :: rest) bm bs
          = if sc > bs then smartMatchLoop b doc keywords rest (some c) sc
            else smartMatchLoop b doc keywords rest bm bs := by
      intro bm bs sc hc
      unfold candidateScore at hc
      by_cases hv : b.isVisible doc c = true
      · simp only [hv, if_true, Option.map_eq_some'] at hc
        obtain ⟨el, hel, hsc⟩ := hc
        simp only [smartMatchLoop, hv, hel, hsc, Bool.not_true, Bool.false_eq_true, if_false]
      · simp [hv] at hc
    cases hc : candidateScore b doc keywords c with
    | none =>
      rw [hskip _ _ hc]
      rcases ih bestMatch bestScore with ⟨heq, hall⟩ | ⟨pre, i, post, s, hl, heq, hi, hlt, hpre, hpost⟩
      · refine Or.inl ⟨heq, ?_⟩
        intro j hj t ht
        rcases List.mem_cons.mp hj with rfl | hj
        · rw [hc] at ht
          cases ht
        · exact hall j hj t ht
      · refine Or.inr ⟨c :: pre, i, post, s, by rw [hl]; rfl, heq, hi, hlt, ?_, hpost⟩
        intro j hj t ht
        rcases List.mem_cons.mp hj with rfl | hj
        · rw [hc] at ht
          cases ht
        · exact hpre j hj t ht
    | some sc =>
      rw [hstep _ _ sc hc]
      by_cases hgt : sc > bestScore
      · rw [if_pos hgt]
        rcases ih (some c) sc with ⟨heq, hall⟩ | ⟨pre, i, post, s, hl, heq, hi, hlt, hpre, hpost⟩
        · exact Or.inr ⟨[], c, rest, sc, rfl, heq, hc, hgt, by simp, hall⟩
        · refine Or.inr ⟨c :: pre, i, post, s, by rw [hl]; rfl, heq, hi, by omega, ?_, hpost⟩
          intro j hj t ht
          rcases List.mem_cons.mp hj with rfl | hj
          · rw [hc] at ht
            cases ht
            exact hlt
          · exact hpre j hj t ht
      · rw [if_neg hgt]
        rcases ih bestMatch bestScore with
          ⟨heq, hall⟩ | ⟨pre, i, post, s, hl, heq, hi, hlt, hpre, hpost⟩
        · refine Or.inl ⟨heq, ?_⟩
          intro j hj t ht
          rcases List.mem_cons.mp hj with rfl | hj
          · rw [hc] at ht
            cases ht
            omega
          · exact hall j hj t ht
        · refine Or.inr ⟨c :: pre, i, post, s, by rw [hl]; rfl, heq, hi, hlt, ?_, hpost⟩
          intro j hj t ht
          rcases List.mem_cons.mp hj with rfl | hj
          · rw [hc] at ht
            cases ht
            omega
          · exact hpre j hj t ht

/-- The score is the sum over the keywords of 3, 2, 1 and 2 for the text, the
label, the class and the placeholder that contain the keyword, plus the two
bonuses. -/
theorem smartScore_eq (b : Browser) (keywords : List String) (el : DomElement) :
    smartScore b keywords el =
      (keywords.map fun keyword =>
          (if includes (b.toLowerCase el.textContent) keyword then 3 else 0)
            + (if includes (b.toLowerCase (orEmpty el.ariaLabel)) keyword then 2 else 0)
            + (if includes (b.toLowerCase el.className) keyword then 1 else 0)
            + (if includes (b.toLowerCase (orEmpty el.placeholder)) keyword then 2 else 0)).sum
        + (if el.tagName = "BUTTON" ∨ el.role = some "button" then 1 else 0)
        + (if el.type = some "submit" ∨ includes (b.toLowerCase el.className) "primary" then 1
            else 0) := by
  have hfold : ∀ (l : List String) (acc : Nat),
      l.foldl (fun score keyword =>
          score + (if includes (b.toLowerCase el.textContent) keyword then 3 else 0)
            + (if includes (b.toLowerCase (orEmpty el.ariaLabel)) keyword then 2 else 0)
            + (if includes (b.toLowerCase el.className) keyword then 1 else 0)
            + (if includes (b.toLowerCase (orEmpty el.placeholder)) keyword then 2 else 0)) acc
        = acc + (l.map fun keyword =>
          (if includes (b.toLowerCase el.textContent) keyword then 3 else 0)
            + (if includes (b.toLowerCase (orEmpty el.ariaLabel)) keyword then 2 else 0)
            + (if includes (b.toLowerCase el.className) keyword then 1 else 0)
            + (if includes (b.toLowerCase (orEmpty el.placeholder)) keyword then 2 else 0)).sum := by
    intro l
    induction l with
    | nil => intro acc; simp
    | cons k rest ih =>
      intro acc
      simp only [List.foldl_cons, List.map_cons, List.sum_cons]
      rw [ih]
      omega
  unfold smartScore
  simp only []
  rw [hfold]
  omega

/-- C25: when the keywords of the selectors are `keywords`, either every
visible candidate scores 0 and `findElementBySmartMatch` returns `null`, or it
returns a visible candidate `i` of score `s > 0` such that the visible
candidates before it (in the order of `querySelectorAll`, the document order)
score less than `s` and those after it score at most `s`. The score of an
element is the sum over the keywords of 3, 2, 1 and 2 for its text,
`aria-label`, class and placeholder containing the keyword, plus 1 for a
button and 1 for a submit or primary element; the texts are compared after
`toLowerCase`, whatever the case mapping of the engine is. -/
theorem smart_match_first_maximal (b : Browser) (doc : Document) (selectors : List Json)
    (keywords : List String) (hk : selectorKeywords b selectors [] = .ok keywords) :
    ((findElementBySmartMatch b doc selectors = .ok none ∧
          ∀ j ∈ b.querySelectorAll doc smartMatchSelector, ∀ t,
            candidateScore b doc keywords j = some t → t = 0) ∨
        ∃ pre i post s, b.querySelectorAll doc smartMatchSelector = pre ++ i :: post ∧
          findElementBySmartMatch b doc selectors = .ok (some i) ∧
          candidateScore b doc keywords i = some s ∧ 0 < s ∧
          (∀ j ∈ pre, ∀ t, candidateScore b doc keywords j = some t → t < s) ∧
          ∀ j ∈ post, ∀ t, candidateScore b doc keywords j = some t → t ≤ s) ∧
      ∀ el : DomElement, smartScore b keywords el =
        (keywords.map fun keyword =>
            (if includes (b.toLowerCase el.textContent) keyword then 3 else 0)
              + (if includes (b.toLowerCase (orEmpty el.ariaLabel)) keyword then 2 else 0)
              + (if includes (b.toLowerCase el.className) keyword then 1 else 0)
              + (if includes (b.toLowerCase (orEmpty el.placeholder)) keyword then 2 else 0)).sum
          + (if el.tagName = "BUTTON" ∨ el.role = some "button" then 1 else 0)
          + (if el.type = some "submit" ∨ includes (b.toLowerCase el.className) "primary" then 1
              else 0) := by
  refine ⟨?_, smartScore_eq b keywords⟩
  have hfind : findElementBySmartMatch b doc selectors
      = .ok (if (smartMatchLoop b doc keywords (b.querySelectorAll doc smartMatchSelector)
            none 0).2 > 0
          then (smartMatchLoop b doc keywords (b.querySelectorAll doc smartMatchSelector)
            none 0).1
          else none) := by
    unfold findElementBySmartMatch
    rw [hk]
    rfl
  rcases smartMatchLoop_spec b doc keywords (b.querySelectorAll doc smartMatchSelector) none 0
    with ⟨heq, hall⟩ | ⟨pre, i, post, s, hl, heq, hi, hlt, hpre, hpost⟩
  · refine Or.inl ⟨?_, fun j hj t ht => Nat.le_zero.mp (hall j hj t ht)⟩
    rw [hfind, heq]
    rfl
  · refine Or.inr ⟨pre, i, post, s, hl, ?_, hi, hlt, hpre, hpost⟩
    rw [hfind, heq]
    simp [hlt]

theorem smart_match_first_maximal_witness :
    selectorKeywords hidingBrowser [.str "#Bucket"] [] = .ok ["bucket"] ∧
      hidingBrowser.querySelectorAll bucketPage smartMatchSelector = [0, 1, 2, 3] ∧
      findElementBySmartMatch hidingBrowser bucketPage [.str "#Bucket"] = .ok (some 1) ∧
      candidateScore hidingBrowser bucketPage ["bucket"] 0 = some 3 ∧
      candidateScore hidingBrowser bucketPage ["bucket"] 1 = some 6 ∧
      candidateScore hidingBrowser bucketPage ["bucket"] 2 = some 6 ∧
      candidateScore hidingBrowser bucketPage ["bucket"] 3 = none ∧
      (bucketPage.get? 3).map (smartScore hidingBrowser ["bucket"]) = some 9 ∧
      (((findElementBySmartMatch hidingBrowser bucketPage [.str "#Bucket"] = .ok none ∧
          ∀ j ∈ hidingBrowser.querySelectorAll bucketPage smartMatchSelector, ∀ t,
            candidateScore hidingBrowser bucketPage ["bucket"] j = some t → t = 0) ∨
        ∃ pre i post s,
          hidingBrowser.querySelectorAll bucketPage smartMatchSelector = pre ++ i :: post ∧
          findElementBySmartMatch hidingBrowser bucketPage [.str "#Bucket"] = .ok (some i) ∧
          candidateScore hidingBrowser bucketPage ["bucket"] i = some s ∧ 0 < s ∧
          (∀ j ∈ pre, ∀ t, candidateScore hidingBrowser bucketPage ["bucket"] j = some t →
            t < s) ∧
          ∀ j ∈ post, ∀ t, candidateScore hidingBrowser bucketPage ["bucket"] j = some t →
            t ≤ s) ∧
      ∀ el : DomElement, smartScore hidingBrowser ["bucket"] el =
        (["bucket"].map fun keyword =>
            (if includes (hidingBrowser.toLowerCase el.textContent) keyword then 3 else 0)
              + (if includes (hidingBrowser.toLowerCase (orEmpty el.ariaLabel)) keyword then 2
                  else 0)
              + (if includes (hidingBrowser.toLowerCase el.className) keyword then 1 else 0)
              + (if includes (hidingBrowser.toLowerCase (orEmpty el.placeholder)) keyword then 2
                  else 0)).sum
          + (if el.tagName = "BUTTON" ∨ el.role = some "button" then 1 else 0)
          + (if el.type = some "submit"
                ∨ includes (hidingBrowser.toLowerCase el.className) "primary" then 1
              else 0)) :=
  ⟨by decide, by decide, by decide, by decide, by decide, by decide, by decide, by decide,
    smart_match_first_maximal hidingBrowser bucketPage [.str "#Bucket"] ["bucket"] (by decide)⟩

/-- C28, at the failing input: the selector matches the button `Save`, which is
not visible; the loop over the selectors leaves it in `element`, the
fallbacks are skipped, and `highlightElement` returns `true` with the marker
class on the hidden button. -/
theorem hidden_element_highlighted :
    hidingBrowser.querySelector hiddenSavePage (ariaSelector "Save") = .ok (some 0) ∧
      hidingBrowser.isVisible hiddenSavePage 0 = false ∧
      (highlightElement hidingBrowser ⟨hiddenSavePage, none⟩ (.str (ariaSelector "Save"))).1
        = .ok true ∧
      (highlightElement hidingBrowser ⟨hiddenSavePage, none⟩
          (.str (ariaSelector "Save"))).2.currentHighlight = some 0 ∧
      ((highlightElement hidingBrowser ⟨hiddenSavePage, none⟩
          (.str (ariaSelector "Save"))).2.document.map fun e =>
            decide (highlightClass ∈ e.classes)) = [true] ∧
      hidingBrowser.isVisible
          (highlightElement hidingBrowser ⟨hiddenSavePage, none⟩
            (.str (ariaSelector "Save"))).2.document 0 = false := by
  decide

/-! ## Properties of the repairs on a well-formed answer -/

set_option maxRecDepth 100000 in
theorem twoSelector_extract :
    (fencePattern.exec twoSelectorResponse.toList).isNone = true ∧
      extractJson twoSelectorResponse.toList = twoSelectorResponse.toList ∧
      replaceAll oddSpacePattern [.text " "] twoSelectorResponse.toList
        = twoSelectorResponse.toList := by
  decide!

set_option maxRecDepth 100000 in
theorem twoSelector_repairs_0 :
    applyRepairs (commonRepairs.take 12) twoSelectorResponse.toList
      = twoSelectorResponse.toList := by
  decide!

set_option maxRecDepth 100000 in
theorem twoSelector_repairs_12 :
    applyRepairs ((commonRepairs.drop 12).take 1) twoSelectorResponse.toList
      = threeEntryText.toList := by
  decide!

set_option maxRecDepth 100000 in
theorem twoSelector_repairs_13 :
    applyRepairs ((commonRepairs.drop 13).take 1) threeEntryText.toList
      = damagedSelectorText.toList := by
  decide!

set_option maxRecDepth 100000 in
theorem twoSelector_fixCommon :
    fixCommonJSONErrors twoSelectorResponse.toList = damagedSelectorText.toList := by
  decide!

set_option maxRecDepth 100000 in
theorem twoSelector_direct :
    jsonParse twoSelectorResponse.toList >>= transformToExpectedFormat
      = .ok (pressCreatePlan ["#create", "button.primary"]) := by
  decide!

set_option maxRecDepth 100000 in
theorem twoSelector_parsed :
    parseAIResponse twoSelectorResponse = .ok (pressCreatePlan ["#create", ", "]) := by
  decide!

/-- C26, at the failing input: the answer `twoSelectorResponse` is a
well-formed plan object without code fence or surrounding text, and
`transformToExpectedFormat` of its `JSON.parse` is the plan whose step has the
selectors `#create` and `button.primary`. In `fixCommonJSONErrors` the first
twelve replacements leave the text as it is, the replacement of line 711 turns
the list into `["#create", ",", "button.primary"]` and the one of line 712 turns
that into `["#create", ", "]`; `parseAIResponse` returns the plan whose step
has the selectors `#create` and `, `, which is not the plan of the direct
parse. -/
theorem valid_selector_list_altered :
    ((fencePattern.exec twoSelectorResponse.toList).isNone = true ∧
        extractJson twoSelectorResponse.toList = twoSelectorResponse.toList ∧
        replaceAll oddSpacePattern [.text " "] twoSelectorResponse.toList
          = twoSelectorResponse.toList) ∧
      jsonParse twoSelectorResponse.toList >>= transformToExpectedFormat
        = .ok (pressCreatePlan ["#create", "button.primary"]) ∧
      applyRepairs (commonRepairs.take 12) twoSelectorResponse.toList
        = twoSelectorResponse.toList ∧
      applyRepairs ((commonRepairs.drop 12).take 1) twoSelectorResponse.toList
        = threeEntryText.toList ∧
      applyRepairs ((commonRepairs.drop 13).take 1) threeEntryText.toList
        = damagedSelectorText.toList ∧
      fixCommonJSONErrors twoSelectorResponse.toList = damagedSelectorText.toList ∧
      parseAIResponse twoSelectorResponse = .ok (pressCreatePlan ["#create", ", "]) ∧
      parseAIResponse twoSelectorResponse
        ≠ jsonParse twoSelectorResponse.toList >>= transformToExpectedFormat := by
  refine ⟨twoSelector_extract, twoSelector_direct, twoSelector_repairs_0,
    twoSelector_repairs_12, twoSelector_repairs_13, twoSelector_fixCommon, twoSelector_parsed,
    ?_⟩
  rw [twoSelector_parsed, twoSelector_direct]
  decide

end ConsoleNano
